import Mathlib

/-! # UwCalculatorFinal: the window calculator's front end as a shallow embedding

The development has these parts.

* `JS`: the part of the JavaScript runtime the source relies on: numbers
  (IEEE binary64 values as rationals, with `NaN` and the infinities),
  `parseFloat`, `Number::toString`, JSON values, truthiness, property access.
* `Api`: `src/api/index.js`, the function `calculateWindow` over a model of
  `fetch`.
* `App`: `src/App.jsx`, the translations and the results context.
* `Calculator`: `src/pages/Calculator.jsx`, the state of the component (every
  `useState` cell and the two contexts it reads), one Lean function per source
  function, and the wizard as a transition system.
* `Spec`: the tables and predicates the specification's statements use.
* `Engine`: the calculation engine, which is not among the sources, modelled from
  the specification.
* the theorems, each named after the claim it settles.
-/

namespace JS

/-! ## Numbers -/

/-- A JavaScript Number. A finite binary64 value is carried as the rational it
denotes; the sign of zero is not distinguished (none of the modelled operations
observes it). -/
inductive Number where
  | nan
  | posInf
  | negInf
  | fin (q : ℚ)
deriving DecidableEq

/-- Powers of two with an integer exponent. -/
def pow2 (e : ℤ) : ℚ :=
  if 0 ≤ e then ((2 ^ e.toNat : ℕ) : ℚ) else 1 / ((2 ^ (-e).toNat : ℕ) : ℚ)

/-- Powers of ten with an integer exponent. -/
def pow10 (e : ℤ) : ℚ :=
  if 0 ≤ e then ((10 ^ e.toNat : ℕ) : ℚ) else 1 / ((10 ^ (-e).toNat : ℕ) : ℚ)

/-- Round to the nearest integer, ties to even. -/
def roundHalfEven (q : ℚ) : ℤ :=
  let f := Rat.floor q
  let r := q - f
  if r < 1 / 2 then f
  else if 1 / 2 < r then f + 1
  else if f % 2 = 0 then f else f + 1

/-- The number of binary digits of `n`, by repeated halving (`fuel` bounds the
number of halvings; `n` itself is always enough). -/
def bitLength : (fuel : ℕ) → ℕ → ℕ
  | 0, _ => 0
  | fuel + 1, n => if n = 0 then 0 else bitLength fuel (n / 2) + 1

/-- For `0 < q`: the integer `e` with `2 ^ e ≤ q < 2 ^ (e + 1)`. -/
def binExp (q : ℚ) : ℤ :=
  let n := q.num.natAbs
  let e : ℤ := (bitLength n n : ℤ) - (bitLength q.den q.den : ℤ)
  if pow2 e ≤ q then e else e - 1

/-- Round a positive rational to binary64 (53 significant bits, least exponent
`-1074`, round to nearest, ties to even, overflow to infinity). -/
def roundPos (q : ℚ) : Number :=
  let p : ℤ := max (binExp q - 52) (-1074)
  let m : ℤ := roundHalfEven (q / pow2 p)
  let r : ℚ := m * pow2 p
  if pow2 1024 ≤ r then .posInf else .fin r

/-- The Number value for a mathematical value: ECMAScript's rounding of a real to
binary64. -/
def roundToDouble (q : ℚ) : Number :=
  if q = 0 then .fin 0
  else if 0 < q then roundPos q
  else match roundPos (-q) with
    | .fin r => .fin (-r)
    | _ => .negInf

/-- The Number value of a decimal literal of the source text, such as `0.3`. -/
def lit (q : ℚ) : Number := roundToDouble q

/-- The comparison `a < b` on Numbers: false as soon as one side is `NaN`. -/
def Number.lt : Number → Number → Bool
  | .nan, _ => false
  | _, .nan => false
  | .fin a, .fin b => decide (a < b)
  | .fin _, .posInf => true
  | .fin _, .negInf => false
  | .posInf, _ => false
  | .negInf, .negInf => false
  | .negInf, _ => true

/-- The comparison `a > b` on Numbers, which is `b < a`. -/
def Number.gt (a b : Number) : Bool := Number.lt b a

/-- The comparison `a <= b` on Numbers: false as soon as one side is `NaN`. -/
def Number.le : Number → Number → Bool
  | .nan, _ => false
  | _, .nan => false
  | .fin a, .fin b => decide (a ≤ b)
  | .fin _, .posInf => true
  | .fin _, .negInf => false
  | .posInf, .posInf => true
  | .posInf, _ => false
  | .negInf, _ => true

/-! ## `parseFloat` -/

/-- The code points ECMAScript's `TrimString` strips: `WhiteSpace` and
`LineTerminator`. -/
def isStrWhiteSpace (c : Char) : Bool :=
  let n := c.toNat
  n = 0x09 || n = 0x0A || n = 0x0B || n = 0x0C || n = 0x0D || n = 0x20 || n = 0xA0
    || n = 0x1680 || (0x2000 ≤ n && n ≤ 0x200A) || n = 0x2028 || n = 0x2029
    || n = 0x202F || n = 0x205F || n = 0x3000 || n = 0xFEFF

/-- The longest prefix of decimal digits, and what follows it. -/
def spanDigits : List Char → List Char × List Char
  | [] => ([], [])
  | c :: cs =>
    if c.isDigit then ((spanDigits cs).1.cons c, (spanDigits cs).2) else ([], c :: cs)

/-- The value of a run of decimal digits. -/
def digitsVal (ds : List Char) : ℕ :=
  ds.foldl (fun acc c => 10 * acc + (c.toNat - 48)) 0

/-- An optional sign: whether it is `-`, and the rest. -/
def takeSign : List Char → Bool × List Char
  | '-' :: cs => (true, cs)
  | '+' :: cs => (false, cs)
  | cs => (false, cs)

/-- The value of an `ExponentPart` at the head of the input, `0` when there is
none (an `e` that no digit follows is not part of the literal). -/
def exponentPart : List Char → ℤ
  | [] => 0
  | c :: cs =>
    if c = 'e' || c = 'E' then
      let ed := (spanDigits (takeSign cs).2).1
      if ed.isEmpty then 0
      else if (takeSign cs).1 then -(digitsVal ed : ℤ) else (digitsVal ed : ℤ)
    else 0

/-- The digits after a decimal point at the head of the input, and the rest. -/
def fractionPart : List Char → List Char × List Char
  | '.' :: cs => spanDigits cs
  | cs => ([], cs)

/-- ECMAScript `parseFloat` on a string: leading white space is skipped, the
longest prefix that is a `StrDecimalLiteral` is read, and its value is rounded to
binary64; `NaN` when no prefix is a literal. -/
def parseFloat (s : String) : Number :=
  let trimmed := s.toList.dropWhile isStrWhiteSpace
  let neg := (takeSign trimmed).1
  let body := (takeSign trimmed).2
  if "Infinity".toList.isPrefixOf body then (if neg then .negInf else .posInf)
  else
    let ip := (spanDigits body).1
    let fp := (fractionPart (spanDigits body).2).1
    let rest := (fractionPart (spanDigits body).2).2
    if ip.isEmpty && fp.isEmpty then .nan
    else
      let q : ℚ := (digitsVal (ip ++ fp) : ℚ) * pow10 (exponentPart rest - fp.length)
      roundToDouble (if neg then -q else q)

/-! ## `Number::toString` -/

/-- For `0 < q`: the integer `n` with `10 ^ (n - 1) ≤ q < 10 ^ n`. -/
def decExp (q : ℚ) : ℤ :=
  let n : ℤ := ((Nat.toDigits 10 q.num.natAbs).length : ℤ) - ((Nat.toDigits 10 q.den).length : ℤ)
  if pow10 n ≤ q then n + 1 else n

/-- The `k`-digit decimal `s × 10 ^ (n - k)` that rounds to the binary64 value
`x`, if there is one: of the two neighbours of `x` on that grid, the one that
rounds back to `x`, the closer one when both do (the even one on a tie). -/
def digitsAt (x : ℚ) (n : ℤ) (k : ℕ) : Option ℤ :=
  let scale := pow10 (n - k)
  let lo : ℤ := Rat.floor (x / scale)
  let hi : ℤ := lo + 1
  let okLo : Bool := roundToDouble (lo * scale) = .fin x
  let okHi : Bool := roundToDouble (hi * scale) = .fin x
  let dLo : ℚ := x - lo * scale
  let dHi : ℚ := hi * scale - x
  if okLo && okHi then
    (if dLo < dHi then some lo else if dHi < dLo then some hi
     else if lo % 2 = 0 then some lo else some hi)
  else if okLo then some lo
  else if okHi then some hi
  else none

/-- The least `k` from `k` on (at most `fuel` tries) with a `k`-digit decimal that
rounds to `x`, and that decimal's digits; seventeen digits always suffice for a
binary64 value, and the nearest decimal is taken when the tries run out. -/
def shortestDigits (x : ℚ) (n : ℤ) : (fuel : ℕ) → (k : ℕ) → ℕ × ℤ
  | 0, k => (k, roundHalfEven (x / pow10 (n - k)))
  | fuel + 1, k =>
    match digitsAt x n k with
    | some s => (k, s)
    | none => shortestDigits x n fuel (k + 1)

/-- A run of `n` zero digits. -/
def zeros (n : ℕ) : String := String.mk (List.replicate n '0')

/-- Steps 6 to 10 of `Number::toString`: lay out the digits `ds` of `s`
for the decimal exponent `n`. -/
def layoutDigits (ds : List Char) (n : ℤ) : String :=
  let k : ℤ := ds.length
  if k ≤ n ∧ n ≤ 21 then String.mk ds ++ zeros (n - k).toNat
  else if 0 < n ∧ n ≤ 21 then
    String.mk (ds.take n.toNat) ++ "." ++ String.mk (ds.drop n.toNat)
  else if -6 < n ∧ n ≤ 0 then "0." ++ zeros (-n).toNat ++ String.mk ds
  else
    let e := n - 1
    let expo := (if e < 0 then "-" else "+") ++ Nat.repr e.natAbs
    if ds.length = 1 then String.mk ds ++ "e" ++ expo
    else String.mk (ds.take 1) ++ "." ++ String.mk (ds.drop 1) ++ "e" ++ expo

/-- The text of a positive binary64 value: the shortest decimal that rounds to it. -/
def posToString (x : ℚ) : String :=
  let n := decExp x
  let ks := shortestDigits x n 17 1
  if ks.2 = (10 : ℤ) ^ ks.1 then layoutDigits ['1'] (n + 1)
  else layoutDigits (Nat.toDigits 10 ks.2.toNat) n

/-- ECMAScript `Number::toString` (radix 10), which is also `ToString` on a
Number and what a template literal or a JSX text node shows for it. -/
def Number.toString : Number → String
  | .nan => "NaN"
  | .posInf => "Infinity"
  | .negInf => "-Infinity"
  | .fin q => if q = 0 then "0" else if q < 0 then "-" ++ posToString (-q) else posToString q

/-! ## Values -/

/-- A JavaScript value, as far as the source handles them: the values JSON can
carry, and `undefined`. An object is the list of its own properties, each key
once. -/
inductive Value where
  | undefined
  | null
  | bool (b : Bool)
  | num (n : Number)
  | str (s : String)
  | arr (items : List Value)
  | obj (fields : List (String × Value))

mutual
/-- Equality of values is decidable. -/
def Value.decEq : (a b : Value) → Decidable (a = b)
  | .undefined, .undefined => isTrue rfl
  | .null, .null => isTrue rfl
  | .bool a, .bool b => if h : a = b then isTrue (h ▸ rfl) else isFalse (fun e => h (Value.bool.inj e))
  | .num a, .num b => if h : a = b then isTrue (h ▸ rfl) else isFalse (fun e => h (Value.num.inj e))
  | .str a, .str b => if h : a = b then isTrue (h ▸ rfl) else isFalse (fun e => h (Value.str.inj e))
  | .arr a, .arr b =>
    match Value.decEqItems a b with
    | isTrue h => isTrue (h ▸ rfl)
    | isFalse h => isFalse (fun e => h (Value.arr.inj e))
  | .obj a, .obj b =>
    match Value.decEqFields a b with
    | isTrue h => isTrue (h ▸ rfl)
    | isFalse h => isFalse (fun e => h (Value.obj.inj e))
  | .undefined, .null | .undefined, .bool _ | .undefined, .num _ | .undefined, .str _ | .undefined, .arr _ | .undefined, .obj _
  | .null, .undefined | .null, .bool _ | .null, .num _ | .null, .str _ | .null, .arr _ | .null, .obj _
  | .bool _, .undefined | .bool _, .null | .bool _, .num _ | .bool _, .str _ | .bool _, .arr _ | .bool _, .obj _
  | .num _, .undefined | .num _, .null | .num _, .bool _ | .num _, .str _ | .num _, .arr _ | .num _, .obj _
  | .str _, .undefined | .str _, .null | .str _, .bool _ | .str _, .num _ | .str _, .arr _ | .str _, .obj _
  | .arr _, .undefined | .arr _, .null | .arr _, .bool _ | .arr _, .num _ | .arr _, .str _ | .arr _, .obj _
  | .obj _, .undefined | .obj _, .null | .obj _, .bool _ | .obj _, .num _ | .obj _, .str _ | .obj _, .arr _ => isFalse nofun
/-- Equality of lists of values is decidable. -/
def Value.decEqItems : (a b : List Value) → Decidable (a = b)
  | [], [] => isTrue rfl
  | [], _ :: _ => isFalse nofun
  | _ :: _, [] => isFalse nofun
  | x :: xs, y :: ys =>
    match Value.decEq x y, Value.decEqItems xs ys with
    | isTrue h, isTrue t => isTrue (h ▸ t ▸ rfl)
    | isFalse h, _ => isFalse (fun e => h (List.cons.inj e).1)
    | _, isFalse t => isFalse (fun e => t (List.cons.inj e).2)
/-- Equality of property lists is decidable. -/
def Value.decEqFields : (a b : List (String × Value)) → Decidable (a = b)
  | [], [] => isTrue rfl
  | [], _ :: _ => isFalse nofun
  | _ :: _, [] => isFalse nofun
  | (k, x) :: xs, (l, y) :: ys =>
    if hk : k = l then
      match Value.decEq x y, Value.decEqFields xs ys with
      | isTrue h, isTrue t => isTrue (hk ▸ h ▸ t ▸ rfl)
      | isFalse h, _ => isFalse (fun e => h (Prod.mk.inj (List.cons.inj e).1).2)
      | _, isFalse t => isFalse (fun e => t (List.cons.inj e).2)
    else isFalse (fun e => hk (Prod.mk.inj (List.cons.inj e).1).1)
end

instance : DecidableEq Value := Value.decEq

/-- ECMAScript `ToBoolean`: `undefined`, `null`, `false`, `0`, `NaN` and the empty
string are falsy, every other value is truthy. -/
def Value.truthy : Value → Bool
  | .undefined => false
  | .null => false
  | .bool b => b
  | .num .nan => false
  | .num (.fin q) => decide (q ≠ 0)
  | .num _ => true
  | .str s => decide (s ≠ "")
  | .arr _ => true
  | .obj _ => true

mutual
/-- ECMAScript `ToString`: an array is its elements joined by commas, an object
without a `toString` of its own is `[object Object]`. -/
def Value.toStr : Value → String
  | .undefined => "undefined"
  | .null => "null"
  | .bool b => if b then "true" else "false"
  | .num n => n.toString
  | .str s => s
  | .arr items => Value.joinItems items
  | .obj _ => "[object Object]"
/-- The text of the elements, as `Array.prototype.join` writes them: separated by
commas, `undefined` and `null` as the empty string. -/
def Value.joinItems : List Value → String
  | [] => ""
  | [v] => Value.itemStr v
  | v :: w :: vs => Value.itemStr v ++ "," ++ Value.joinItems (w :: vs)
/-- The text of one array element inside `join`. -/
def Value.itemStr : Value → String
  | .undefined => ""
  | .null => ""
  | .bool b => if b then "true" else "false"
  | .num n => n.toString
  | .str s => s
  | .arr items => Value.joinItems items
  | .obj _ => "[object Object]"
end

/-- A JavaScript `Error`, as far as it is observed: its `message`. -/
structure Error where
  message : String
deriving DecidableEq

/-- The constructor call `new Error(v)`: no message for `undefined`, otherwise the
text of `v`. -/
def Error.new (v : Value) : Error :=
  match v with
  | .undefined => { message := "" }
  | v => { message := v.toStr }

/-- Own property lookup in a list of properties. -/
def lookupField (key : String) : List (String × Value) → Value
  | [] => .undefined
  | (k, v) :: rest => if k = key then v else lookupField key rest

/-- Property access `v.key` for a key no prototype defines (all keys the source
reads are such): a `TypeError` on `undefined` and `null`, the own property of an
object, `undefined` on every other value. -/
def Value.get (v : Value) (key : String) : Except Error Value :=
  match v with
  | .undefined => .error { message := "Cannot read properties of undefined (reading '" ++ key ++ "')" }
  | .null => .error { message := "Cannot read properties of null (reading '" ++ key ++ "')" }
  | .obj fields => .ok (lookupField key fields)
  | _ => .ok .undefined

deriving instance DecidableEq for Except

/-- The operator `a || b`: `a` when it is truthy, else `b`. -/
def Value.or (a b : Value) : Value := if a.truthy then a else b

/-- The operator `a && b`: `a` when it is falsy, else `b`. -/
def Value.and (a b : Value) : Value := if a.truthy then b else a

end JS

/-! # `src/api/index.js` -/

namespace Api

open JS

/-- A call of `fetch`: the URL, the method, the headers, and the value whose
`JSON.stringify` text is the body. -/
structure Request where
  url : String
  method : String
  headers : List (String × String)
  body : Option Value
deriving DecidableEq

/-- What the source reads of a `Response`: `res.ok`, and the outcome of
`res.json()`, which is rejected when the body is not JSON. -/
structure Response where
  ok : Bool
  json : Except Error Value
deriving DecidableEq

/-- The network as `fetch` presents it: each call resolves to a response or is
rejected. -/
abbrev Fetch := Request → Except Error Response

/-- The constant `API_BASE`. -/
def API_BASE : String := "/api"

/-- The function `calculateWindow(data)`: a resolved promise is `Except.ok`, a
rejected one `Except.error`. -/
def calculateWindow (fetch : Fetch) (data : Value) : Except Error Value := do
  let res ← fetch
    { url := API_BASE ++ "/calculate"
      method := "POST"
      headers := [("Content-Type", "application/json")]
      body := some data }
  if !res.ok then
    let error ← res.json
    let detail ← error.get "detail"
    throw (Error.new (detail.or (.str "Calculation failed")))
  res.json

/-- A response with status 422 whose `detail` is a list of field errors, the shape
a request-validation failure is reported in. -/
def fieldErrorResponse : Response :=
  { ok := false
    json := .ok (.obj
      [ ("detail", .arr
          [ .obj [ ("loc", .arr [.str "body", .str "ug_value"]),
                   ("msg", .str "Field required") ] ]) ]) }

/-- A `detail` that is a non-empty string, as an explicit failure is reported. -/
def notFoundResponse : Response :=
  { ok := false, json := .ok (.obj [("detail", .str "Series not found")]) }

end Api

/-! # `src/App.jsx`: translations and the results context -/

namespace App

/-- The two languages the language switcher offers (`setLanguage('el')`,
`setLanguage('en')`); the provider starts in `el`. -/
inductive Language where
  | el
  | en
deriving DecidableEq

/-- The table `translations.en`. -/
def translationsEn : List (String × String) :=
  [
    ("calculator", "U-Value Calculator"),
    ("admin", "Admin"),
    ("backToSite", "Back to Site"),
    ("lastResults", "Last Results"),
    ("step", "Step"),
    ("step1Title", "Select Window Type"),
    ("step2Title", "Select Series"),
    ("step3Title", "Select Window Category"),
    ("step4Title", "Select Driver"),
    ("step5Title", "Select Sash"),
    ("step6Title", "Enter Dimensions"),
    ("step7Title", "Results"),
    ("sliding", "Sliding"),
    ("opening", "Opening"),
    ("next", "Next"),
    ("back", "Back"),
    ("calculate", "Calculate"),
    ("calculating", "Calculating..."),
    ("newCalculation", "New Calculation"),
    ("glasses", "Glasses"),
    ("glassPanels", "glass panels"),
    ("code", "Code"),
    ("value", "value"),
    ("driver", "Driver"),
    ("sash", "Sash"),
    ("selectDriver", "Select a driver (case profile) for this category:"),
    ("selectSash", "Select a sash (glass profile) for this series:"),
    ("plaisioHeight", "Frame Height"),
    ("plaisioWidth", "Frame Width"),
    ("ugValue", "Ug Value"),
    ("psiValue", "Psi Value (Ψ)"),
    ("narrowOption", "Narrow Overlap (Στενή Επαλληλία)"),
    ("narrowDescription", "Check this for narrow overlap configuration, affects Akentrou calculation"),
    ("addRolo", "Add Roller Shutter (Ρολό)"),
    ("roloHeight", "Roller Height"),
    ("urValue", "Ur Value"),
    ("results", "Results"),
    ("overallUValue", "Overall U-value (Uw)"),
    ("configuration", "Configuration"),
    ("series", "Series"),
    ("category", "Category"),
    ("rolo", "Roller Shutter"),
    ("yes", "Yes"),
    ("no", "No"),
    ("noResults", "No calculations yet"),
    ("specialCalc", "Special calculation"),
    ("specialCalcUsed", "Special calculation (Φιλητό) applied"),
    ("roloIncluded", "Roller shutter included in calculation"),
    ("roloOpen", "Uw (Roller Open)"),
    ("roloClosed", "Uw (Roller Closed)"),
    ("original", "Original"),
    ("effective", "Effective"),
    ("roloDescription", "FH will be reduced by roller height for calculation"),
    ("validationError", "Please fix the errors in the form before calculating")
  ]

/-- The table `translations.el`. -/
def translationsEl : List (String × String) :=
  [
    ("calculator", "Υπολογιστής U-Value"),
    ("admin", "Διαχείριση"),
    ("backToSite", "Επιστροφή"),
    ("lastResults", "Τελευταία Αποτελέσματα"),
    ("step", "Βήμα"),
    ("step1Title", "Επιλογή Τύπου Παραθύρου"),
    ("step2Title", "Επιλογή Σειράς"),
    ("step3Title", "Επιλογή Κατηγορίας Παραθύρου"),
    ("step4Title", "Επιλογή Οδηγού"),
    ("step5Title", "Επιλογή Φύλλου"),
    ("step6Title", "Εισαγωγή Διαστάσεων"),
    ("step7Title", "Αποτελέσματα"),
    ("sliding", "Συρόμενα"),
    ("opening", "Ανοιγόμενα"),
    ("next", "Επόμενο"),
    ("back", "Πίσω"),
    ("calculate", "Υπολογισμός"),
    ("calculating", "Υπολογισμός..."),
    ("newCalculation", "Νέος Υπολογισμός"),
    ("glasses", "Φύλλα"),
    ("glassPanels", "φύλλα"),
    ("code", "Κωδικός"),
    ("value", "τιμή"),
    ("driver", "Οδηγός"),
    ("sash", "Φύλλο"),
    ("selectDriver", "Επιλέξτε οδηγό (προφίλ κάσας) για αυτή την κατηγορία:"),
    ("selectSash", "Επιλέξτε φύλλο (προφίλ υαλοπίνακα) για αυτή τη σειρά:"),
    ("plaisioHeight", "Ύψος Πλαισίου"),
    ("plaisioWidth", "Πλάτος Πλαισίου"),
    ("ugValue", "Τιμή Ug"),
    ("psiValue", "Τιμή Psi (Ψ)"),
    ("narrowOption", "Στενή Επαλληλία"),
    ("narrowDescription", "Επιλέξτε για διαμόρφωση στενής επαλληλίας, επηρεάζει τον υπολογισμό Akentrou"),
    ("addRolo", "Προσθήκη Ρολού"),
    ("roloHeight", "Ύψος Ρολού"),
    ("urValue", "Τιμή Ur"),
    ("results", "Αποτελέσματα"),
    ("overallUValue", "Συνολική Τιμή U (Uw)"),
    ("configuration", "Διαμόρφωση"),
    ("series", "Σειρά"),
    ("category", "Κατηγορία"),
    ("rolo", "Ρολό"),
    ("yes", "Ναι"),
    ("no", "Όχι"),
    ("noResults", "Δεν υπάρχουν υπολογισμοί"),
    ("specialCalc", "Ειδικός υπολογισμός"),
    ("specialCalcUsed", "Εφαρμόστηκε ειδικός υπολογισμός (Φιλητό)"),
    ("roloIncluded", "Το ρολό συμπεριλαμβάνεται στον υπολογισμό"),
    ("roloOpen", "Uw (Ρολό Ανοιχτό)"),
    ("roloClosed", "Uw (Ρολό Κλειστό)"),
    ("original", "Αρχικό"),
    ("effective", "Ενεργό"),
    ("roloDescription", "Το FH θα μειωθεί κατά το ύψος του ρολού για τον υπολογισμό"),
    ("validationError", "Παρακαλώ διορθώστε τα σφάλματα πριν τον υπολογισμό")
  ]

/-- The table `translations`, by language. -/
def translations : Language → List (String × String)
  | .en => translationsEn
  | .el => translationsEl

/-- The lookup `translations[language][key] || key`. -/
def t (language : Language) (key : String) : String :=
  match (translations language).lookup key with
  | some text => if text ≠ "" then text else key
  | none => key

/-- The state of `ResultsProvider`: the last calculation result (`null` before
the first one) and the request to show it. -/
structure Results where
  lastResults : JS.Value
  shouldShowResults : Bool
deriving DecidableEq

/-- The initial state of `ResultsProvider`. -/
def Results.init : Results := { lastResults := .null, shouldShowResults := false }

/-- The function `saveResults(results)`. -/
def saveResults (results : JS.Value) (c : Results) : Results := { c with lastResults := results }

/-- The function `goToResults()`. -/
def goToResults (c : Results) : Results := { c with shouldShowResults := true }

/-- The function `clearShowResults()`. -/
def clearShowResults (c : Results) : Results := { c with shouldShowResults := false }

end App

/-! # `src/pages/Calculator.jsx` -/

namespace Calculator

open JS

/-- One entry of `LIMITS`. -/
structure Limit where
  min : Number
  max : Number
deriving DecidableEq

/-- The table `LIMITS` ("Validation limits"). -/
def LIMITS : List (String × Limit) :=
  [ ("plaisioHeight", { min := lit 300, max := lit 5000 }),
    ("plaisioWidth", { min := lit 300, max := lit 10000 }),
    ("ugValue", { min := lit (3 / 10), max := lit 7 }),
    ("roloHeight", { min := lit 100, max := lit 1000 }),
    ("urValue", { min := lit (6 / 10), max := lit 10 }) ]

/-- One entry of `PSI_OPTIONS`. -/
structure PsiOption where
  value : String
  label : String
deriving DecidableEq

/-- The table `PSI_OPTIONS` ("Standard Psi values"). -/
def PSI_OPTIONS : List PsiOption :=
  [ { value := "0.05", label := "0.05" },
    { value := "0.08", label := "0.08" },
    { value := "0.11", label := "0.11" } ]

/-- The object held in `validationErrors`: per key, `null` (`none`) or a
message. -/
abbrev Errors := List (String × Option String)

/-- The assignment `errors[key] = e`, also the spread `{...errors, [key]: e}`. -/
def Errors.set : Errors → String → Option String → Errors
  | [], key, e => [(key, e)]
  | (k, v) :: rest, key, e =>
    if k = key then (key, e) :: rest else (k, v) :: Errors.set rest key e

/-- The call `Object.values(errors)`. -/
def Errors.values (errors : Errors) : List (Option String) := errors.map Prod.snd

/-- The function `validateField(name, value)` on a field text. A name that is no
key of `LIMITS` has no limit (for a name `Object.prototype` defines, the value
found has no `min` and no `max`, both comparisons are false, and the result is
`null` as well). -/
def validateField (name : String) (value : String) : Option String :=
  if value = "" then none
  else
    let numValue := parseFloat value
    match LIMITS.lookup name with
    | none => none
    | some limit =>
      if numValue.lt limit.min then some ("Min: " ++ limit.min.toString)
      else if numValue.gt limit.max then some ("Max: " ++ limit.max.toString)
      else none

/-- The state of the `Calculator` component, one field per `useState` cell, with
the two contexts it reads: the language and the results context. -/
structure State where
  step : ℤ
  selectedType : Value
  selectedSeries : Value
  selectedCategory : Value
  selectedDriver : Value
  selectedSash : Value
  plaisioHeight : String
  plaisioWidth : String
  ugValue : String
  psiValue : String
  isNarrow : Bool
  hasRolo : Bool
  roloHeight : String
  urValue : String
  validationErrors : Errors
  types : Value
  seriesList : Value
  categories : Value
  drivers : Value
  sashes : Value
  results : Value
  error : Option String
  loading : Bool
  language : App.Language
  ctx : App.Results
deriving DecidableEq

/-- The state on mount, under a given language and results context. -/
def State.mount (language : App.Language) (ctx : App.Results) : State :=
  { step := 1
    selectedType := .null
    selectedSeries := .null
    selectedCategory := .null
    selectedDriver := .null
    selectedSash := .null
    plaisioHeight := ""
    plaisioWidth := ""
    ugValue := "1.0"
    psiValue := "0.05"
    isNarrow := false
    hasRolo := false
    roloHeight := ""
    urValue := ""
    validationErrors := []
    types := .arr []
    seriesList := .arr []
    categories := .arr []
    drivers := .arr []
    sashes := .arr []
    results := .null
    error := none
    loading := false
    language := language
    ctx := ctx }

/-- The state when the application starts. -/
def State.init : State := State.mount .el App.Results.init

/-- The object `errors` that `validateAllFields` builds. -/
def allFieldsErrors (s : State) : Errors :=
  let errors : Errors := []
  let errors := errors.set "plaisioHeight" (validateField "plaisioHeight" s.plaisioHeight)
  let errors := errors.set "plaisioWidth" (validateField "plaisioWidth" s.plaisioWidth)
  let errors := errors.set "ugValue" (validateField "ugValue" s.ugValue)
  if s.hasRolo then
    let errors := errors.set "roloHeight" (validateField "roloHeight" s.roloHeight)
    errors.set "urValue" (validateField "urValue" s.urValue)
  else errors

/-- The function `validateAllFields()`: the state with `validationErrors` set, and
the returned boolean. -/
def validateAllFields (s : State) : State × Bool :=
  let errors := allFieldsErrors s
  ({ s with validationErrors := errors }, !(errors.values.any (fun e => e ≠ none)))

/-- The function `canProceed()`; at step 6 it returns the value of the `&&`
chain, a string or a boolean. -/
def canProceed (s : State) : Value :=
  if s.step = 1 then .bool (s.selectedType ≠ .null)
  else if s.step = 2 then .bool (s.selectedSeries ≠ .null)
  else if s.step = 3 then .bool (s.selectedCategory ≠ .null)
  else if s.step = 4 then .bool (s.selectedDriver ≠ .null)
  else if s.step = 5 then .bool (s.selectedSash ≠ .null)
  else if s.step = 6 then
    ((Value.str s.plaisioHeight).and (Value.str s.plaisioWidth)).and
      ((Value.bool (!s.hasRolo)).or ((Value.str s.roloHeight).and (Value.str s.urValue)))
  else .bool false

/-- The object literal `handleCalculate` passes to `calculateWindow`; reading
`.id` of a selection that is `null` throws. -/
def calculateData (s : State) : Except Error Value := do
  let series_id ← s.selectedSeries.get "id"
  let category_id ← s.selectedCategory.get "id"
  let driver_id ← s.selectedDriver.get "id"
  let sash_id ← s.selectedSash.get "id"
  pure (.obj
    [ ("series_id", series_id),
      ("category_id", category_id),
      ("driver_id", driver_id),
      ("sash_id", sash_id),
      ("plaisio_height", .num (parseFloat s.plaisioHeight)),
      ("plaisio_width", .num (parseFloat s.plaisioWidth)),
      ("ug_value", .num (parseFloat s.ugValue)),
      ("psi_value", .num (parseFloat s.psiValue)),
      ("is_narrow", .bool s.isNarrow),
      ("has_rolo", .bool s.hasRolo),
      ("rolo_height", if s.hasRolo then .num (parseFloat s.roloHeight) else .null),
      ("ur_value", if s.hasRolo then .num (parseFloat s.urValue) else .null) ])

/-- The expression `err.message || 'Calculation failed'`. -/
def errorText (err : Error) : String :=
  if err.message ≠ "" then err.message else "Calculation failed"

/-- The function `handleCalculate` up to its `await`: the state it leaves, and the
data it calls `calculateWindow` with, if it gets that far. When building the data
throws, the `catch` branch and `setLoading(false)` run at once. -/
def handleCalculateBegin (s : State) : State × Option Value :=
  let v := validateAllFields s
  if !v.2 then ({ v.1 with error := some (App.t s.language "validationError") }, none)
  else
    let s1 : State := { v.1 with loading := true, error := none }
    match calculateData s with
    | .error err => ({ s1 with error := some (errorText err), loading := false }, none)
    | .ok data => (s1, some data)

/-- The function `handleCalculate` from its `await` on, given how the promise of
`calculateWindow` settled. -/
def handleCalculateEnd (outcome : Except Error Value) (s : State) : State :=
  match outcome with
  | .ok result =>
    { s with results := result, ctx := App.saveResults result s.ctx, step := 7, loading := false }
  | .error err => { s with error := some (errorText err), loading := false }

/-- The function `handleCalculate`, run to its end against a network `fetch`. -/
def handleCalculate (fetch : Api.Fetch) (s : State) : State :=
  match handleCalculateBegin s with
  | (s1, none) => s1
  | (s1, some data) => handleCalculateEnd (Api.calculateWindow fetch data) s1

/-- The calls of `calculateWindow` that `handleCalculate` makes: the data of each. -/
def handleCalculateRequests (s : State) : List Value :=
  (handleCalculateBegin s).2.toList

/-- The function `resetCalculator()`. -/
def resetCalculator (s : State) : State :=
  { s with
    step := 1
    selectedType := .null
    selectedSeries := .null
    selectedCategory := .null
    selectedDriver := .null
    selectedSash := .null
    plaisioHeight := ""
    plaisioWidth := ""
    ugValue := "1.0"
    psiValue := "0.05"
    isNarrow := false
    hasRolo := false
    validationErrors := []
    roloHeight := ""
    urValue := ""
    results := .null
    error := none }

/-- The function `handleBack()`. -/
def handleBack (s : State) : State :=
  let s1 : State := if s.step = 7 then { s with results := .null } else s
  { s1 with step := s.step - 1 }

/-- The effect on `[shouldShowResults, lastResults]`. -/
def showResultsEffect (s : State) : State :=
  if s.ctx.shouldShowResults && s.ctx.lastResults.truthy then
    { s with results := s.ctx.lastResults, step := 7, ctx := App.clearShowResults s.ctx }
  else s

/-! ## The wizard as a transition system

One action per control the component renders (with the condition under which it
is rendered and enabled), and one per event from outside: a list or a calculation
arriving from the network, the language switcher and the "last results" button of
the header, and a visit to `/admin` and back, which mounts the component afresh.
Requests in flight are not tracked beyond `loading`: a list may arrive at any
time, and so may the answer to a calculation whose component is gone. -/

/-- The elements of an array; a value that is no array has none to render. -/
def items : Value → List Value
  | .arr xs => xs
  | _ => []

/-- The five lists the component loads. -/
inductive Load where
  | types
  | series
  | categories
  | drivers
  | sashes
deriving DecidableEq

/-- The message each loader reports when its request fails. -/
def Load.failure : Load → String
  | .types => "Failed to load types"
  | .series => "Failed to load series"
  | .categories => "Failed to load categories"
  | .drivers => "Failed to load drivers"
  | .sashes => "Failed to load sashes"

/-- The setter each loader calls with the answer. -/
def Load.store (which : Load) (data : Value) (s : State) : State :=
  match which with
  | .types => { s with types := data }
  | .series => { s with seriesList := data }
  | .categories => { s with categories := data }
  | .drivers => { s with drivers := data }
  | .sashes => { s with sashes := data }

/-- The events of the wizard. -/
inductive Action where
  | selectType (item : Value)
  | selectSeries (item : Value)
  | selectCategory (item : Value)
  | selectDriver (item : Value)
  | selectSash (item : Value)
  | changePlaisioHeight (value : String)
  | changePlaisioWidth (value : String)
  | changeUgValue (value : String)
  | changePsiValue (value : String)
  | changeIsNarrow (checked : Bool)
  | changeHasRolo (checked : Bool)
  | changeRoloHeight (value : String)
  | changeUrValue (value : String)
  | next
  | back
  | calculate
  | calculateSettled (outcome : Except Error Value)
  | newCalculation
  | showLastResults
  | setLanguage (language : App.Language)
  | loaded (which : Load) (data : Value)
  | loadFailed (which : Load)
  | remount
  | staleSettled (outcome : Except Error Value)

/-- Whether the control of an action is on the page and enabled (for an event
from outside: whether it can occur). -/
def enabled (s : State) : Action → Bool
  | .selectType item => s.step = 1 && decide (item ∈ items s.types)
  | .selectSeries item => s.step = 2 && decide (item ∈ items s.seriesList)
  | .selectCategory item => s.step = 3 && decide (item ∈ items s.categories)
  | .selectDriver item => s.step = 4 && decide (item ∈ items s.drivers)
  | .selectSash item => s.step = 5 && decide (item ∈ items s.sashes)
  | .changePlaisioHeight _ => s.step = 6
  | .changePlaisioWidth _ => s.step = 6
  | .changeUgValue _ => s.step = 6
  | .changePsiValue value => s.step = 6 && decide (value ∈ PSI_OPTIONS.map PsiOption.value)
  | .changeIsNarrow _ => s.step = 6
  | .changeHasRolo _ => s.step = 6
  | .changeRoloHeight _ => s.step = 6 && s.hasRolo
  | .changeUrValue _ => s.step = 6 && s.hasRolo
  | .next => decide (s.step < 6) && (canProceed s).truthy
  | .back => (decide (1 < s.step) && decide (s.step < 7)) || s.step = 7
  | .calculate => s.step = 6 && (canProceed s).truthy && !s.loading
  | .calculateSettled _ => s.loading
  | .newCalculation => s.step = 7
  | .showLastResults => s.ctx.lastResults.truthy
  | .setLanguage _ => true
  | .loaded _ _ => true
  | .loadFailed _ => true
  | .remount => true
  | .staleSettled _ => true

/-- The handler of each action. -/
def Action.apply (s : State) : Action → State
  | .selectType item => { s with selectedType := item }
  | .selectSeries item => { s with selectedSeries := item }
  | .selectCategory item => { s with selectedCategory := item }
  | .selectDriver item => { s with selectedDriver := item }
  | .selectSash item => { s with selectedSash := item }
  | .changePlaisioHeight value =>
    { s with
      plaisioHeight := value
      validationErrors := s.validationErrors.set "plaisioHeight" (validateField "plaisioHeight" value) }
  | .changePlaisioWidth value =>
    { s with
      plaisioWidth := value
      validationErrors := s.validationErrors.set "plaisioWidth" (validateField "plaisioWidth" value) }
  | .changeUgValue value =>
    { s with
      ugValue := value
      validationErrors := s.validationErrors.set "ugValue" (validateField "ugValue" value) }
  | .changePsiValue value => { s with psiValue := value }
  | .changeIsNarrow checked => { s with isNarrow := checked }
  | .changeHasRolo checked => { s with hasRolo := checked }
  | .changeRoloHeight value =>
    { s with
      roloHeight := value
      validationErrors := s.validationErrors.set "roloHeight" (validateField "roloHeight" value) }
  | .changeUrValue value =>
    { s with
      urValue := value
      validationErrors := s.validationErrors.set "urValue" (validateField "urValue" value) }
  | .next => { s with step := s.step + 1 }
  | .back => handleBack s
  | .calculate => (handleCalculateBegin s).1
  | .calculateSettled outcome => handleCalculateEnd outcome s
  | .newCalculation => resetCalculator s
  | .showLastResults => showResultsEffect { s with ctx := App.goToResults s.ctx }
  | .setLanguage language => { s with language := language }
  | .loaded which data => which.store data s
  | .loadFailed which => { s with error := some which.failure }
  | .remount => showResultsEffect (State.mount s.language s.ctx)
  | .staleSettled outcome =>
    match outcome with
    | .ok result => { s with ctx := App.saveResults result s.ctx }
    | .error _ => s

/-- The states the wizard can be in: the initial one, and every state an enabled
action leads to from such a state. -/
inductive Reachable : State → Prop where
  | init : Reachable State.init
  | step (s : State) (a : Action) : Reachable s → enabled s a = true → Reachable (a.apply s)

/-- Run a list of actions from a state, as long as each one is enabled. -/
def run (s : State) : List Action → Option State
  | [] => some s
  | a :: rest => if enabled s a then run (a.apply s) rest else none

/-! ## A sample session -/

/-- A small catalog, as the list requests might answer it. -/
def sampleItem (id : ℚ) (name : String) : Value :=
  .obj [("id", .num (.fin id)), ("name", .str name)]

/-- A session that walks the wizard up to the parameters step and fills in a
frame of 1500 mm by 2000 mm. -/
def sampleSession : List Action :=
  [ .loaded .types (.arr [sampleItem 1 "Sliding"]),
    .selectType (sampleItem 1 "Sliding"),
    .next,
    .loaded .series (.arr [sampleItem 2 "S500"]),
    .selectSeries (sampleItem 2 "S500"),
    .next,
    .loaded .categories (.arr [sampleItem 3 "Two sashes"]),
    .loaded .sashes (.arr [sampleItem 5 "Sash 24"]),
    .selectCategory (sampleItem 3 "Two sashes"),
    .next,
    .loaded .drivers (.arr [sampleItem 4 "Case 60"]),
    .selectDriver (sampleItem 4 "Case 60"),
    .next,
    .selectSash (sampleItem 5 "Sash 24"),
    .next,
    .changePlaisioHeight "1500",
    .changePlaisioWidth "2000" ]

/-- The form the sample session leaves: step 6, all five selections made, height
1500, width 2000, Ug `1.0`, Psi `0.05`, no roller shutter. -/
def sampleForm : State :=
  { State.init with
    step := 6
    selectedType := sampleItem 1 "Sliding"
    selectedSeries := sampleItem 2 "S500"
    selectedCategory := sampleItem 3 "Two sashes"
    selectedDriver := sampleItem 4 "Case 60"
    selectedSash := sampleItem 5 "Sash 24"
    plaisioHeight := "1500"
    plaisioWidth := "2000"
    validationErrors := [("plaisioHeight", none), ("plaisioWidth", none)]
    types := .arr [sampleItem 1 "Sliding"]
    seriesList := .arr [sampleItem 2 "S500"]
    categories := .arr [sampleItem 3 "Two sashes"]
    drivers := .arr [sampleItem 4 "Case 60"]
    sashes := .arr [sampleItem 5 "Sash 24"] }

/-- A network that is down: every `fetch` is rejected. -/
def offline : Api.Fetch := fun _ => .error { message := "Failed to fetch" }

/-- The sample form with a frame height of 299 mm. -/
def lowHeightForm : State := { sampleForm with plaisioHeight := "299" }

/-- The sample form after the Ug field has been cleared. -/
def clearedUgForm : State :=
  { sampleForm with
    ugValue := ""
    validationErrors := [("plaisioHeight", none), ("plaisioWidth", none), ("ugValue", none)] }

/-- The sample form with the roller shutter ticked and only its height given. -/
def rollerHeightOnlyForm : State :=
  { sampleForm with
    hasRolo := true
    roloHeight := "300"
    validationErrors := [("plaisioHeight", none), ("plaisioWidth", none), ("roloHeight", none)] }

end Calculator

/-! # The specification's statements -/

namespace Spec

open JS Calculator

/-- The bounded fields and their closed ranges, as the specification lists them
(section 4.1): the field, the least and the greatest accepted value. -/
def ranges : List (String × String × String) :=
  [ ("plaisioHeight", "300", "5000"),
    ("plaisioWidth", "300", "10000"),
    ("ugValue", "0.3", "7.0"),
    ("roloHeight", "100", "1000"),
    ("urValue", "0.6", "10.0") ]

/-- A value lies in the closed range from `lo` to `hi`, as JavaScript compares
numbers. -/
def inRange (lo hi : String) (v : Number) : Prop :=
  (parseFloat lo).le v = true ∧ v.le (parseFloat hi) = true

/-- An input is a non-empty text that parses to a number. -/
def numeric (text : String) : Prop := text ≠ "" ∧ parseFloat text ≠ .nan

/-- The text the form holds for a bounded field. -/
def fieldText (s : State) (name : String) : String :=
  if name = "plaisioHeight" then s.plaisioHeight
  else if name = "plaisioWidth" then s.plaisioWidth
  else if name = "ugValue" then s.ugValue
  else if name = "roloHeight" then s.roloHeight
  else if name = "urValue" then s.urValue
  else ""

/-- The two fields of the roller-shutter block. -/
def isRollerField (name : String) : Prop := name = "roloHeight" ∨ name = "urValue"

end Spec

/-! # The calculation engine behind `POST /api/calculate`

The engine is not among the sources: the front end only calls it and displays what
it returns. It is modelled here from the specification (sections 3 and 4), over
exact rationals. The specification leaves the formulas of the frame sub-areas open
(section 9), so the frame split is a parameter of the model. -/

namespace Engine

/-- Modelled from the spec: a Series row (section 3), the engine's source being
absent. -/
structure Series where
  a : ℚ
  b : ℚ
  x : ℚ
  uf1 : ℚ
  uf2 : ℚ
  e : ℚ
  f : ℚ
  e_narrow : Option ℚ
  f_narrow : Option ℚ

/-- Modelled from the spec: a Category row (section 3), the engine's source being
absent. -/
structure Category where
  num_glasses : ℕ
  has_special_calculation : Bool

/-- Modelled from the spec: a Sash row (section 3), the engine's source being
absent. -/
structure Sash where
  b_override : Option ℚ

/-- Modelled from the spec: a Parameter row, keyed by series and category
(section 3), the engine's source being absent. -/
structure Parameter where
  gw_divisor : ℕ
  gw_offset : ℚ
  gh_offset : ℚ
  narrow_gw_offset : Option ℚ

/-- Modelled from the spec: the Catalog Store interface (section 6), the engine's
source being absent; a driver is looked up for existence only. -/
structure Catalog where
  getSeries : ℕ → Option Series
  getCategory : ℕ → Option Category
  getSash : ℕ → Option Sash
  getDriver : ℕ → Bool
  getParams : ℕ → ℕ → Option Parameter

/-- Modelled from the spec: the optional roller-shutter block of a request, whose
two sub-fields may each be missing (section 4.1). -/
structure RollerBlock where
  rolo_height : Option ℚ
  ur_value : Option ℚ

/-- Modelled from the spec: a Calculation Request (sections 3 and 6), the engine's
source being absent. -/
structure Request where
  series_id : ℕ
  category_id : ℕ
  driver_id : ℕ
  sash_id : ℕ
  plaisio_height : ℚ
  plaisio_width : ℚ
  ug_value : ℚ
  psi_value : ℚ
  is_narrow : Bool
  roller : Option RollerBlock

/-- Modelled from the spec: the four error kinds (section 7). -/
inductive Error where
  | validation (fields : List String)
  | notFound (entity : String)
  | configuration (capability : String)
  | geometry
deriving DecidableEq

/-- Modelled from the spec: the accepted standard values of Psi (section 4.1). -/
def psiValues : List ℚ := [5 / 100, 8 / 100, 11 / 100]

/-- Modelled from the spec: the name of a field when its value is outside the
closed range (section 4.1). -/
def outOfRange (field : String) (lo hi v : ℚ) : List String :=
  if lo ≤ v ∧ v ≤ hi then [] else [field]

/-- Modelled from the spec: the fields of a roller block that are missing or out
of range; both sub-fields are required together (section 4.1). -/
def rollerFaults (r : RollerBlock) : List String :=
  (match r.rolo_height with
    | none => ["rolo_height"]
    | some h => outOfRange "rolo_height" 100 1000 h) ++
  (match r.ur_value with
    | none => ["ur_value"]
    | some u => outOfRange "ur_value" (6 / 10) 10 u)

/-- Modelled from the spec: every field of the request that fails validation
(section 4.1). -/
def faults (req : Request) : List String :=
  outOfRange "plaisio_height" 300 5000 req.plaisio_height ++
  outOfRange "plaisio_width" 300 10000 req.plaisio_width ++
  outOfRange "ug_value" (3 / 10) 7 req.ug_value ++
  (if req.psi_value ∈ psiValues then [] else ["psi_value"]) ++
  (match req.roller with
    | none => []
    | some r => rollerFaults r)

/-- Modelled from the spec: the roller height and Ur of a block that has both. -/
def rollerValues (r : RollerBlock) : Option (ℚ × ℚ) :=
  match r.rolo_height, r.ur_value with
  | some h, some u => some (h, u)
  | _, _ => none

/-- Modelled from the spec: the Validator (section 4.1). It fails with a
`ValidationError` listing every offending field, and otherwise hands on the roller
height and Ur, if the request has a roller block. -/
def validate (req : Request) : Except Error (Option (ℚ × ℚ)) :=
  if faults req = [] then .ok (req.roller.bind rollerValues)
  else .error (.validation (faults req))

/-- Modelled from the spec: a Resolved Configuration (sections 3 and 4.2). -/
structure Resolved where
  a : ℚ
  b : ℚ
  x : ℚ
  uf1 : ℚ
  uf2 : ℚ
  e : ℚ
  f : ℚ
  gw_divisor : ℕ
  gw_offset : ℚ
  gh_offset : ℚ
  num_glasses : ℕ
  has_special_calculation : Bool

/-- Modelled from the spec: a catalog lookup that fails with `NotFoundError`. -/
def find {α : Type} (entity : String) : Option α → Except Error α
  | some v => .ok v
  | none => .error (.notFound entity)

/-- Modelled from the spec: a narrow-mode coefficient, whose absence is a
`ConfigurationError` (section 4.2). -/
def narrowOnly {α : Type} (capability : String) : Option α → Except Error α
  | some v => .ok v
  | none => .error (.configuration capability)

/-- Modelled from the spec: the Parameter Resolver (section 4.2). -/
def resolve (catalog : Catalog) (req : Request) : Except Error Resolved := do
  let series ← find "series" (catalog.getSeries req.series_id)
  let category ← find "category" (catalog.getCategory req.category_id)
  if !catalog.getDriver req.driver_id then throw (.notFound "driver")
  let sash ← find "sash" (catalog.getSash req.sash_id)
  let params ← find "params" (catalog.getParams req.series_id req.category_id)
  let e ← if req.is_narrow then narrowOnly "e_narrow" series.e_narrow else pure series.e
  let f ← if req.is_narrow then narrowOnly "f_narrow" series.f_narrow else pure series.f
  let gw_offset ←
    if req.is_narrow then narrowOnly "narrow_gw_offset" params.narrow_gw_offset
    else pure params.gw_offset
  pure
    { a := series.a
      b := sash.b_override.getD series.b
      x := series.x
      uf1 := series.uf1
      uf2 := series.uf2
      e := e
      f := f
      gw_divisor := params.gw_divisor
      gw_offset := gw_offset
      gh_offset := params.gh_offset
      num_glasses := category.num_glasses
      has_special_calculation := category.has_special_calculation }

/-- Modelled from the spec: the frame sub-areas of one pass (section 4.3). -/
structure FrameAreas where
  Af1 : ℚ
  Af2 : ℚ
  Aff2 : ℚ

/-- Modelled from the spec: the frame split, which section 9 leaves to "a
pluggable per-series/category correction": from the configuration, `FW` and the
effective `FH` to the frame sub-areas. -/
abbrev FrameSplit := Resolved → ℚ → ℚ → FrameAreas

/-- Modelled from the spec: what the Geometry Engine produces (section 4.3). -/
structure Geometry where
  GW : ℚ
  GH : ℚ
  Ag : ℚ
  Ig : ℚ
  Af1 : ℚ
  Af2 : ℚ
  Aff2 : Option ℚ
  Aw : ℚ

/-- Modelled from the spec: the Geometry Engine (section 4.3), on the frame width
and the effective frame height. -/
def geometry (split : FrameSplit) (cfg : Resolved) (FW FH : ℚ) : Except Error Geometry :=
  let GW := FW / cfg.gw_divisor - cfg.gw_offset
  let GH := FH - cfg.gh_offset
  if 0 < GW ∧ 0 < GH then
    .ok
      { GW := GW
        GH := GH
        Ag := GW * GH * cfg.num_glasses / 1000000
        Ig := cfg.num_glasses * (2 * (GW + GH)) / 1000
        Af1 := (split cfg FW FH).Af1
        Af2 := (split cfg FW FH).Af2
        Aff2 := if cfg.has_special_calculation then some (split cfg FW FH).Aff2 else none
        Aw := FW * FH / 1000000 }
  else .error .geometry

/-- Modelled from the spec: the named breakdown of one pass (section 4.4): the
inputs, the resolved coefficients and the intermediates. -/
structure Breakdown where
  FW : ℚ
  FH : ℚ
  Ug : ℚ
  Psi : ℚ
  cfg : Resolved
  GW : ℚ
  GH : ℚ
  Af1 : ℚ
  Af2 : ℚ
  Aff2 : Option ℚ
  Ag : ℚ
  Aw : ℚ
  Ig : ℚ
  Ar : Option ℚ

/-- Modelled from the spec: a Calculation Result (sections 3 and 4.4): `Uw`, or
`Uw_open` and `Uw_closed` when a roller shutter is present, with the breakdown of
the pass at the full frame height and, with a roller, of the pass at the reduced
height. -/
structure Result where
  Uw : Option ℚ
  Uw_open : Option ℚ
  Uw_closed : Option ℚ
  is_narrow : Bool
  has_rolo : Bool
  breakdown : Breakdown
  closed : Option Breakdown

/-- Modelled from the spec: the breakdown of a pass. -/
def breakdownOf (req : Request) (cfg : Resolved) (FH : ℚ) (g : Geometry) (Ar : Option ℚ) :
    Breakdown :=
  { FW := req.plaisio_width
    FH := FH
    Ug := req.ug_value
    Psi := req.psi_value
    cfg := cfg
    GW := g.GW
    GH := g.GH
    Af1 := g.Af1
    Af2 := g.Af2
    Aff2 := g.Aff2
    Ag := g.Ag
    Aw := g.Aw
    Ig := g.Ig
    Ar := Ar }

/-- Modelled from the spec: the headline of a pass without roller box,
`(Af1·uf1 + Af2·uf2 + Ag·Ug + Ig·Ψ) / Aw` (section 4.4). -/
def headline (cfg : Resolved) (g : Geometry) (Ug Psi : ℚ) : ℚ :=
  (g.Af1 * cfg.uf1 + g.Af2 * cfg.uf2 + g.Ag * Ug + g.Ig * Psi) / g.Aw

/-- Modelled from the spec: the headline of the pass with the shutter closed, with
the roller-box area `Ar` weighted by `Ur` (section 4.4). -/
def headlineClosed (cfg : Resolved) (g : Geometry) (Ug Psi Ar Ur : ℚ) : ℚ :=
  (g.Af1 * cfg.uf1 + g.Af2 * cfg.uf2 + g.Ag * Ug + g.Ig * Psi + Ar * Ur) / (g.Aw + Ar)

/-- Modelled from the spec: the operation `calculate(request)` (sections 2, 4.4
and 6): Validator, Parameter Resolver, Geometry Engine, Transmittance Calculator;
any failure aborts the whole request. -/
def calculate (catalog : Catalog) (split : FrameSplit) (req : Request) :
    Except Error Result := do
  let roller ← validate req
  let cfg ← resolve catalog req
  let g ← geometry split cfg req.plaisio_width req.plaisio_height
  match roller with
  | none =>
    pure
      { Uw := some (headline cfg g req.ug_value req.psi_value)
        Uw_open := none
        Uw_closed := none
        is_narrow := req.is_narrow
        has_rolo := false
        breakdown := breakdownOf req cfg req.plaisio_height g none
        closed := none }
  | some (rolo_height, Ur) =>
    let g1 ← geometry split cfg req.plaisio_width (req.plaisio_height - rolo_height)
    let Ar := req.plaisio_width * rolo_height / 1000000
    pure
      { Uw := none
        Uw_open := some (headline cfg g req.ug_value req.psi_value)
        Uw_closed := some (headlineClosed cfg g1 req.ug_value req.psi_value Ar Ur)
        is_narrow := req.is_narrow
        has_rolo := true
        breakdown := breakdownOf req cfg req.plaisio_height g none
        closed := some (breakdownOf req cfg (req.plaisio_height - rolo_height) g1 (some Ar)) }

/-- The catalog of the specification's scenario (section 8): one series, one
category, one sash and their parameter row, all under the id 1. -/
def scenarioCatalog : Catalog :=
  { getSeries := fun id =>
      if id = 1 then
        some
          { a := 5, b := 8, x := 3, uf1 := 2, uf2 := 5 / 2, e := 10, f := 10
            e_narrow := none, f_narrow := none }
      else none
    getCategory := fun id =>
      if id = 1 then some { num_glasses := 1, has_special_calculation := false } else none
    getSash := fun id => if id = 1 then some { b_override := none } else none
    getDriver := fun id => id = 1
    getParams := fun sid cid =>
      if sid = 1 ∧ cid = 1 then
        some { gw_divisor := 1, gw_offset := 20, gh_offset := 20, narrow_gw_offset := none }
      else none }

/-- The request of the specification's scenario (section 8): `FW = 1000`,
`FH = 1200`, `Ug = 1.1`, `Ψ = 0.05`, not narrow, no roller. -/
def scenarioRequest : Request :=
  { series_id := 1
    category_id := 1
    driver_id := 1
    sash_id := 1
    plaisio_height := 1200
    plaisio_width := 1000
    ug_value := 11 / 10
    psi_value := 5 / 100
    is_narrow := false
    roller := none }

/-- A frame split for the scenario: the frame area outside the glass, all of it
counted as outer frame. -/
def scenarioSplit : FrameSplit := fun cfg FW FH =>
  { Af1 :=
      FW * FH / 1000000 -
        (FW / cfg.gw_divisor - cfg.gw_offset) * (FH - cfg.gh_offset) * cfg.num_glasses / 1000000
    Af2 := 0
    Aff2 := 0 }

end Engine

/-! # More of the JavaScript runtime: what the results view and the admin editor use -/

namespace JS

/-- The digits of `Number.prototype.toFixed` for a value `0 ≤ x < 10 ^ 21`: the
integer `n` nearest to `x × 10 ^ digits` (the larger one on a tie), written with a
decimal point before its last `digits` digits. -/
def fixedDigits (digits : ℕ) (x : ℚ) : String :=
  let n : ℕ := (Rat.floor (x * (10 ^ digits : ℕ) + 1 / 2)).toNat
  let m := Nat.toDigits 10 n
  if digits = 0 then String.mk m
  else
    let padded := List.replicate (digits + 1 - m.length) '0' ++ m
    String.mk (padded.take (padded.length - digits)) ++ "." ++
      String.mk (padded.drop (padded.length - digits))

/-- ECMAScript `Number.prototype.toFixed(digits)`. -/
def Number.toFixed (digits : ℕ) : Number → String
  | .nan => "NaN"
  | .posInf => "Infinity"
  | .negInf => "-Infinity"
  | .fin q =>
    if q < 0 then
      (if pow10 21 ≤ -q then "-" ++ posToString (-q) else "-" ++ fixedDigits digits (-q))
    else if pow10 21 ≤ q then posToString q
    else fixedDigits digits q

/-- The call `v?.toFixed(digits)`: `undefined` on `undefined` and `null`, the text
on a Number, and a `TypeError` on every other value, none of which has a method
`toFixed`. -/
def Value.optToFixed (v : Value) (digits : ℕ) : Except Error Value :=
  match v with
  | .undefined => .ok .undefined
  | .null => .ok .undefined
  | .num n => .ok (.str (n.toFixed digits))
  | _ => .error { message := "toFixed is not a function" }

/-- The operator `a === b`. Two arrays or two objects are equal only when they are
one and the same object; the values of this model carry no identity, and two of
them are never taken to be the same object. -/
def Value.strictEq : Value → Value → Bool
  | .undefined, .undefined => true
  | .null, .null => true
  | .bool a, .bool b => a = b
  | .num .nan, .num _ => false
  | .num _, .num .nan => false
  | .num a, .num b => a = b
  | .str a, .str b => a = b
  | _, _ => false

mutual
/-- What React displays for a value placed as a child of an element: the text of a
string or a Number, nothing for a boolean, `null` or `undefined`, the children of
an array one after the other, and an error ("Objects are not valid as a React
child") for an object. -/
def Value.renderChild : Value → Except Error String
  | .undefined => .ok ""
  | .null => .ok ""
  | .bool _ => .ok ""
  | .num n => .ok n.toString
  | .str s => .ok s
  | .arr items => Value.renderChildren items
  | .obj _ => .error { message := "Objects are not valid as a React child" }
/-- What React displays for a list of children. -/
def Value.renderChildren : List Value → Except Error String
  | [] => .ok ""
  | v :: vs =>
    match Value.renderChild v, Value.renderChildren vs with
    | .ok a, .ok b => .ok (a ++ b)
    | .error e, _ => .error e
    | _, .error e => .error e
end

/-- The element access `v[0]`: a `TypeError` on `undefined` and `null`, the first
element of an array, the first character of a string, `undefined` elsewhere. -/
def Value.first (v : Value) : Except Error Value :=
  match v with
  | .undefined => .error { message := "Cannot read properties of undefined (reading '0')" }
  | .null => .error { message := "Cannot read properties of null (reading '0')" }
  | .arr (x :: _) => .ok x
  | .str s =>
    (match s.toList with
      | c :: _ => .ok (.str (String.mk [c]))
      | [] => .ok .undefined)
  | .obj fields => .ok (lookupField "0" fields)
  | _ => .ok .undefined

/-- The optional access `v?.key`: `undefined` on `undefined` and `null`. -/
def Value.optGet (v : Value) (key : String) : Value :=
  match v with
  | .obj fields => lookupField key fields
  | _ => .undefined

/-- The elements of a list with their indices as keys, from index `i` on. -/
def indexed (i : ℕ) : List Value → List (String × Value)
  | [] => []
  | v :: vs => (Nat.repr i, v) :: indexed (i + 1) vs

/-- The own enumerable properties a spread `{...v}` copies: those of an object,
the elements of an array and the characters of a string under their indices, none
for any other value. -/
def Value.ownFields : Value → List (String × Value)
  | .obj fields => fields
  | .arr items => indexed 0 items
  | .str s => indexed 0 (s.toList.map (fun c => Value.str (String.mk [c])))
  | _ => []

/-- A list of properties with `key` set to `v`: in place when the key is there,
at the end when it is not. -/
def setField : List (String × Value) → String → Value → List (String × Value)
  | [], key, v => [(key, v)]
  | (k, w) :: rest, key, v =>
    if k = key then (key, v) :: rest else (k, w) :: setField rest key v

/-- The object literal `{...v, [key]: w}`. -/
def Value.spreadSet (v : Value) (key : String) (w : Value) : Value :=
  .obj (setField v.ownFields key w)

/-- The elements a call `v.map(...)` or `v.filter(...)` runs over: those of an
array; on any other value the call throws (`undefined` and `null` have no
properties, no other value of this model has such a method). -/
def Value.elements (v : Value) : Except Error (List Value) :=
  match v with
  | .arr items => .ok items
  | .undefined => .error { message := "Cannot read properties of undefined" }
  | .null => .error { message := "Cannot read properties of null" }
  | _ => .error { message := "is not a function" }

/-- The elements a spread `[...v]` copies: those of an array, the characters of a
string; any other value of this model is not iterable, and the spread throws. -/
def Value.iterate (v : Value) : Except Error (List Value) :=
  match v with
  | .arr items => .ok items
  | .str s => .ok (s.toList.map (fun c => Value.str (String.mk [c])))
  | _ => .error { message := "is not iterable" }

/-- The call `text.replace(',', '.')` on characters: the first comma becomes a
point. -/
def replaceFirstComma : List Char → List Char
  | [] => []
  | c :: cs => if c = ',' then '.' :: cs else c :: replaceFirstComma cs

/-- The call `text.replace(',', '.')`. -/
def replaceComma (text : String) : String := String.mk (replaceFirstComma text.toList)

end JS

/-! # `src/api/index.js`: the admin API -/

namespace Api

open JS

/-- The object `endpointMap` of `updateRecord`, `createRecord` and `deleteRecord`
(the same in all three). -/
def endpointMap : List (String × String) :=
  [ ("categories", "categories"),
    ("series", "series"),
    ("drivers", "drivers"),
    ("sashes", "sashes"),
    ("driver_categories", "driver-categories"),
    ("series_category_params", "series-category-params") ]

/-- The text `${endpointMap[table]}` in a URL: the entry of the table, and
`undefined` for a name that has none (a name `Object.prototype` defines would
give the text of that property; the rest of the URL is the same). -/
def endpointText (table : String) : String :=
  match endpointMap.lookup table with
  | some endpoint => endpoint
  | none => "undefined"

/-- The call of `fetch` that `getAllData()` makes. -/
def getAllDataRequest : Request :=
  { url := API_BASE ++ "/admin/all-data", method := "GET", headers := [], body := none }

/-- The function `getAllData()`. -/
def getAllData (fetch : Fetch) : Except Error Value := do
  let res ← fetch getAllDataRequest
  res.json

/-- The call of `fetch` that `updateRecord(table, id, data)` makes. -/
def updateRequest (table : String) (id : Value) (data : Value) : Request :=
  { url := API_BASE ++ "/admin/" ++ endpointText table ++ "/" ++ id.toStr
    method := "PUT"
    headers := [("Content-Type", "application/json")]
    body := some data }

/-- The function `updateRecord(table, id, data)`. -/
def updateRecord (fetch : Fetch) (table : String) (id : Value) (data : Value) :
    Except Error Value := do
  let res ← fetch (updateRequest table id data)
  res.json

/-- The call of `fetch` that `createRecord(table, data)` makes. -/
def createRequest (table : String) (data : Value) : Request :=
  { url := API_BASE ++ "/admin/" ++ endpointText table
    method := "POST"
    headers := [("Content-Type", "application/json")]
    body := some data }

/-- The function `createRecord(table, data)`. -/
def createRecord (fetch : Fetch) (table : String) (data : Value) : Except Error Value := do
  let res ← fetch (createRequest table data)
  res.json

/-- The call of `fetch` that `deleteRecord(table, id)` makes. -/
def deleteRequest (table : String) (id : Value) : Request :=
  { url := API_BASE ++ "/admin/" ++ endpointText table ++ "/" ++ id.toStr
    method := "DELETE"
    headers := []
    body := none }

/-- The function `deleteRecord(table, id)`. -/
def deleteRecord (fetch : Fetch) (table : String) (id : Value) : Except Error Value := do
  let res ← fetch (deleteRequest table id)
  res.json

/-- A network on which every request is answered with status 200 and an empty
JSON object. -/
def accepting : Fetch := fun _ => .ok { ok := true, json := .ok (.obj []) }

end Api

/-! # `src/pages/Calculator.jsx`: the results view (`renderStep`, case 7) -/

namespace Calculator

open JS

/-- One value on the results page: the label next to it, its text, and the unit
after it. -/
structure Node where
  label : String
  text : String
  unit : String
deriving DecidableEq

/-- The results page, block by block in the order of the source: the headline
values, the roller-height box, the calculated values, the `Afilitou` box, the
configuration summary and the debug block. -/
structure ResultsView where
  headline : List Node
  rolo : List Node
  values : List Node
  afilitou : List Node
  configuration : List Node
  debug : List Node
deriving DecidableEq

/-- What `{cond && (...)}` displays: the block when `cond` is truthy; otherwise
`cond` itself, which React shows when it is a Number (`0` or `NaN`) and not when
it is `false`, `null`, `undefined` or the empty string. -/
def guarded (cond : Value) (body : Except Error (List Node)) : Except Error (List Node) :=
  if cond.truthy then body
  else
    match cond with
    | .num n => .ok [{ label := "", text := n.toString, unit := "" }]
    | _ => .ok []

/-- A value placed as a child, with its label and unit. -/
def childNode (label : String) (v : Value) (unit : String) : Except Error Node := do
  let text ← v.renderChild
  pure { label := label, text := text, unit := unit }

/-- The text of a headline value: the three-digit text of a Number, nothing for a
value that is `null` or absent. -/
def headlineText (v : Value) : Option String :=
  match v with
  | .num n => some (n.toFixed 3)
  | .null => some ""
  | .undefined => some ""
  | _ => none

/-- The headline block: `Uw_open` and `Uw_closed` when `results.has_rolo` is
truthy, `Uw` otherwise, each through `?.toFixed(3)`. -/
def headlineBlock (language : App.Language) (results : Value) : Except Error (List Node) := do
  let has_rolo ← results.get "has_rolo"
  if has_rolo.truthy then
    let uwOpen ← (← results.get "Uw_open").optToFixed 3
    let uwClosed ← (← results.get "Uw_closed").optToFixed 3
    pure
      [ ← childNode (App.t language "roloOpen") uwOpen "W/(m²·K)",
        ← childNode (App.t language "roloClosed") uwClosed "W/(m²·K)" ]
  else
    let uw ← (← results.get "Uw").optToFixed 3
    pure [ ← childNode (App.t language "overallUValue") uw "W/(m²·K)" ]

/-- The roller-height box, shown under `results.has_rolo`. -/
def roloBlock (language : App.Language) (results : Value) : Except Error (List Node) := do
  guarded (← results.get "has_rolo") (do
    pure
      [ ← childNode ("FH " ++ App.t language "original") (← results.get "FH_original") "mm",
        ← childNode (App.t language "roloHeight") (← results.get "rolo_height") "mm",
        ← childNode ("FH' (" ++ App.t language "effective" ++ ")")
          (← results.get "FH_effective") "mm" ])

/-- The first eight calculated values: label (also the property read), digits of
`toFixed`, unit. -/
def valueItems : List (String × ℕ × String) :=
  [ ("l", 4, "m"), ("GW", 2, "mm"), ("GH", 2, "mm"), ("Af1", 4, "m²"), ("Af2", 4, "m²"),
    ("Af", 4, "m²"), ("Ag", 4, "m²"), ("Ig", 4, "m") ]

/-- One calculated value: `results[label]?.toFixed(digits)`, displayed as
`{item.value || '-'}`. -/
def valueNode (results : Value) (item : String × ℕ × String) : Except Error Node := do
  let value ← (← results.get item.1).optToFixed item.2.1
  childNode item.1 (value.or (.str "-")) item.2.2

/-- The calculated values of a list of items, in order. -/
def valueNodes (results : Value) : List (String × ℕ × String) → Except Error (List Node)
  | [] => .ok []
  | item :: rest =>
    match valueNode results item, valueNodes results rest with
    | .ok n, .ok ns => .ok (n :: ns)
    | .error err, _ => .error err
    | _, .error err => .error err

/-- The ninth calculated value, `Aff2`, with value and unit only under
`results.has_special`. -/
def aff2Node (results : Value) : Except Error Node := do
  let has_special ← results.get "has_special"
  if has_special.truthy then
    let value ← (← results.get "Aff2").optToFixed 4
    childNode "Aff2" (value.or (.str "-")) "m²"
  else childNode "Aff2" ((Value.str "").or (.str "-")) ""

/-- The block of calculated values. -/
def valuesBlock (results : Value) : Except Error (List Node) := do
  let first ← valueNodes results valueItems
  let last ← aff2Node results
  pure (first ++ [last])

/-- The `Afilitou` box, shown under `results.Afilitou`. -/
def afilitouBlock (results : Value) : Except Error (List Node) := do
  let afilitou ← results.get "Afilitou"
  guarded afilitou (do
    pure [ ← childNode "Afilitou" (← afilitou.optToFixed 4) "m²" ])

/-- The configuration summary. -/
def configurationBlock (language : App.Language) (results : Value) :
    Except Error (List Node) := do
  let series ← childNode (App.t language "series") (← results.get "series_name") ""
  let category ← childNode (App.t language "category") (← results.get "category_name") ""
  let driver ← childNode (App.t language "driver") (← results.get "driver_name") ""
  let sash ← childNode (App.t language "sash") (← results.get "sash_name") ""
  let glasses ← childNode (App.t language "glasses") (← results.get "num_glasses") ""
  let narrow ← guarded (← results.get "is_narrow")
    (pure [{ label := App.t language "narrowOption", text := App.t language "yes", unit := "" }])
  let rolo ← guarded (← results.get "has_rolo")
    (pure [{ label := App.t language "rolo", text := App.t language "yes", unit := "" }])
  pure ([series, category, driver, sash, glasses] ++ narrow ++ rolo)

/-- How a debug quantity is displayed: as it is (`{debug.x}`), with a dash for a
falsy value (`{debug.x || '-'}`), or as `Yes` or `No` (`{debug.x ? 'Yes' : 'No'}`). -/
inductive Display where
  | plain
  | orDash
  | yesNo
deriving DecidableEq

/-- One quantity of the debug block: the label shown, the property of
`results.debug` read, how it is displayed, and the unit. -/
structure DebugItem where
  label : String
  field : String
  display : Display
  unit : String
deriving DecidableEq

/-- The quantities of the debug block, in the order of the source. -/
def debugItems : List DebugItem :=
  [ { label := "FW", field := "input_FW", display := .plain, unit := "mm" },
    { label := "FH", field := "input_FH", display := .plain, unit := "mm" },
    { label := "Ug", field := "Ug", display := .plain, unit := "" },
    { label := "Ψ", field := "Psi", display := .plain, unit := "" },
    { label := "a", field := "a", display := .plain, unit := "" },
    { label := "b", field := "b", display := .plain, unit := "" },
    { label := "x", field := "x", display := .plain, unit := "" },
    { label := "uf1", field := "uf1", display := .plain, unit := "" },
    { label := "uf2", field := "uf2", display := .plain, unit := "" },
    { label := "e", field := "e", display := .plain, unit := "" },
    { label := "f", field := "f", display := .plain, unit := "" },
    { label := "e'", field := "e_narrow", display := .orDash, unit := "" },
    { label := "f'", field := "f_narrow", display := .orDash, unit := "" },
    { label := "gw_divisor", field := "gw_divisor", display := .plain, unit := "" },
    { label := "gw_offset", field := "gw_offset", display := .plain, unit := "" },
    { label := "gh_offset", field := "gh_offset", display := .plain, unit := "" },
    { label := "narrow_gw", field := "narrow_gw_offset", display := .orDash, unit := "" },
    { label := "l", field := "l", display := .plain, unit := "" },
    { label := "GW", field := "GW", display := .plain, unit := "" },
    { label := "GH", field := "GH", display := .plain, unit := "" },
    { label := "Kentro_h", field := "Kentro_height", display := .plain, unit := "" },
    { label := "kentro_w", field := "kentro_width", display := .plain, unit := "" },
    { label := "akentrou_val", field := "akentrou_value", display := .plain, unit := "" },
    { label := "Akoufomatos", field := "Akoufomatos", display := .plain, unit := "" },
    { label := "Af1", field := "Af1", display := .plain, unit := "" },
    { label := "Af2", field := "Af2", display := .plain, unit := "" },
    { label := "Aff2", field := "Aff2", display := .plain, unit := "" },
    { label := "Af", field := "Af", display := .plain, unit := "" },
    { label := "Ag", field := "Ag", display := .plain, unit := "" },
    { label := "Aw", field := "Aw", display := .plain, unit := "" },
    { label := "Afilitou", field := "Afilitou", display := .orDash, unit := "" },
    { label := "Ar", field := "Ar", display := .orDash, unit := "" },
    { label := "Ig (m)", field := "Ig", display := .plain, unit := "" },
    { label := "Af×Uf", field := "Af_Uf", display := .plain, unit := "" },
    { label := "Uw", field := "Uw_final", display := .plain, unit := "" },
    { label := "num_glasses", field := "num_glasses", display := .plain, unit := "" },
    { label := "has_special", field := "has_special", display := .yesNo, unit := "" },
    { label := "is_narrow", field := "is_narrow", display := .yesNo, unit := "" } ]

/-- The child a debug quantity is displayed as. -/
def debugChild (display : Display) (v : Value) : Value :=
  match display with
  | .plain => v
  | .orDash => v.or (.str "-")
  | .yesNo => if v.truthy then .str "Yes" else .str "No"

/-- One quantity of the debug block, read from `results.debug`. -/
def debugNode (debug : Value) (item : DebugItem) : Except Error Node := do
  childNode item.label (debugChild item.display (← debug.get item.field)) item.unit

/-- The quantities of a list of debug items, in order. -/
def debugNodes (debug : Value) : List DebugItem → Except Error (List Node)
  | [] => .ok []
  | item :: rest =>
    match debugNode debug item, debugNodes debug rest with
    | .ok n, .ok ns => .ok (n :: ns)
    | .error err, _ => .error err
    | _, .error err => .error err

/-- The debug block, shown under `results.debug`. -/
def debugBlock (results : Value) : Except Error (List Node) := do
  let debug ← results.get "debug"
  guarded debug (debugNodes debug debugItems)

/-- The results page of step 7 for a truthy `results`: the fragment inside
`{results && (...)}`. An error is the exception that rendering throws. -/
def renderResults (language : App.Language) (results : Value) : Except Error ResultsView := do
  let headline ← headlineBlock language results
  let rolo ← roloBlock language results
  let values ← valuesBlock results
  let afilitou ← afilitouBlock results
  let configuration ← configurationBlock language results
  let debug ← debugBlock results
  pure
    { headline := headline
      rolo := rolo
      values := values
      afilitou := afilitou
      configuration := configuration
      debug := debug }

/-- A result of the standard scenario as the engine might report it, with a
narrow offset of `0` in its debug block. -/
def sampleResult : Value :=
  .obj
    [ ("Uw", .num (parseFloat "1.3127")),
      ("has_rolo", .bool false),
      ("is_narrow", .bool false),
      ("has_special", .bool false),
      ("GW", .num (.fin 980)),
      ("GH", .num (.fin 1180)),
      ("Ag", .num (parseFloat "1.1564")),
      ("series_name", .str "S500"),
      ("num_glasses", .num (.fin 1)),
      ("debug", .obj
        [ ("input_FW", .num (.fin 1000)),
          ("input_FH", .num (.fin 1200)),
          ("Ug", .num (parseFloat "1.1")),
          ("Psi", .num (parseFloat "0.05")),
          ("gw_divisor", .num (.fin 1)),
          ("gw_offset", .num (.fin 20)),
          ("gh_offset", .num (.fin 20)),
          ("narrow_gw_offset", .num (.fin 0)),
          ("e_narrow", .null),
          ("Ag", .num (parseFloat "1.1564")),
          ("Aw", .num (parseFloat "1.2")) ]) ]

/-- A result with a roller shutter, with its two headline values. -/
def sampleRollerResult : Value :=
  .obj
    [ ("Uw_open", .num (parseFloat "1.3127")),
      ("Uw_closed", .num (parseFloat "1.6502")),
      ("has_rolo", .bool true),
      ("FH_original", .num (.fin 1200)),
      ("rolo_height", .num (.fin 300)),
      ("FH_effective", .num (.fin 900)) ]

/-- A series without narrow coefficients, as the series request might answer
it. -/
def plainSeries : Value :=
  .obj
    [ ("id", .num (.fin 2)), ("name", .str "S500"), ("e", .num (.fin 10)),
      ("f", .num (.fin 10)), ("e_narrow", .null), ("f_narrow", .null) ]

/-- The sample session with the series without narrow coefficients, followed by a
tick of the narrow-overlap checkbox. -/
def narrowSession : List Action :=
  [ .loaded .types (.arr [sampleItem 1 "Sliding"]),
    .selectType (sampleItem 1 "Sliding"),
    .next,
    .loaded .series (.arr [plainSeries]),
    .selectSeries plainSeries,
    .next,
    .loaded .categories (.arr [sampleItem 3 "Two sashes"]),
    .loaded .sashes (.arr [sampleItem 5 "Sash 24"]),
    .selectCategory (sampleItem 3 "Two sashes"),
    .next,
    .loaded .drivers (.arr [sampleItem 4 "Case 60"]),
    .selectDriver (sampleItem 4 "Case 60"),
    .next,
    .selectSash (sampleItem 5 "Sash 24"),
    .next,
    .changePlaisioHeight "1500",
    .changePlaisioWidth "2000",
    .changeIsNarrow true ]

/-- The form the narrow session leaves. -/
def narrowForm : State :=
  { sampleForm with
    selectedSeries := plainSeries
    seriesList := .arr [plainSeries]
    isNarrow := true }

/-- A state of the wizard right after a calculation has answered with the sample
result. -/
def calculatedForm : State := handleCalculateEnd (.ok sampleResult) sampleForm

end Calculator

/-! # `src/pages/AdminInterface.jsx` -/

namespace AdminInterface

open JS

/-- The object held in `editingCell`. -/
structure EditingCell where
  table : String
  rowId : Value
  field : String
deriving DecidableEq

/-- The object held in `notification`. -/
structure Notification where
  message : String
  type : String
deriving DecidableEq

/-- The state of the `AdminInterface` component, one field per `useState` cell,
with the language it reads from its context. -/
structure State where
  data : Value
  loading : Bool
  activeTab : String
  editingCell : Option EditingCell
  editValue : String
  filterSeries : String
  notification : Option Notification
  language : App.Language
deriving DecidableEq

/-- The state on mount. -/
def State.mount (language : App.Language) : State :=
  { data := .obj
      [ ("categories", .arr []),
        ("series", .arr []),
        ("drivers", .arr []),
        ("sashes", .arr []),
        ("driver_categories", .arr []),
        ("series_category_params", .arr []) ]
    loading := true
    activeTab := "series"
    editingCell := none
    editValue := ""
    filterSeries := "all"
    notification := none
    language := language }

/-- What a handler leaves behind: the state, or the error that tore the component
down when a state updater threw while rendering; and the calls of `fetch` it
made. -/
abbrev Outcome := Except Error State × List Api.Request

/-- The function `showNotification(message, type)`, up to the timer that removes
the notification three seconds later. -/
def showNotification (message : String) (type : String) (s : State) : State :=
  { s with notification := some { message := message, type := type } }

/-- The function `handleCellClick(table, rowId, field, currentValue)`. -/
def handleCellClick (table : String) (rowId : Value) (field : String) (currentValue : Value)
    (s : State) : State :=
  { s with
    editingCell := some { table := table, rowId := rowId, field := field }
    editValue := if currentValue = .null then "" else currentValue.toStr }

/-- The array `numericFields` of `handleSave`. -/
def numericFields : List String :=
  [ "a", "b", "x", "uf1", "uf2", "e", "f", "e_narrow", "f_narrow", "b_override", "num_glasses",
    "gw_divisor", "gw_offset", "gh_offset", "narrow_gw_offset" ]

/-- The value `newValue` that `handleSave` computes from the field and the edit
text. -/
def newValue (field : String) (editValue : String) : Value :=
  let newValue : Value := .str editValue
  let newValue : Value :=
    if numericFields.contains field then
      (if editValue = "" then .null else .num (parseFloat (replaceComma editValue)))
    else newValue
  if field = "has_special_calculation" then
    .bool (editValue.toLower = "true" || editValue = "1")
  else newValue

/-- The row a `map` callback of `handleSave` returns:
`row.id === rowId ? { ...row, [field]: newValue } : row`. -/
def savedRow (cell : EditingCell) (newValue : Value) (row : Value) : Except Error Value := do
  let id ← row.get "id"
  pure (if id.strictEq cell.rowId then row.spreadSet cell.field newValue else row)

/-- The rows the `map` of `handleSave` returns, which throws as soon as its
callback does. -/
def savedRows (cell : EditingCell) (newValue : Value) : List Value → Except Error (List Value)
  | [] => .ok []
  | row :: rows =>
    match savedRow cell newValue row, savedRows cell newValue rows with
    | .ok r, .ok rs => .ok (r :: rs)
    | .error err, _ => .error err
    | _, .error err => .error err

/-- The state updater of `handleSave`:
`prev => ({ ...prev, [table]: prev[table].map(...) })`. -/
def savedData (cell : EditingCell) (newValue : Value) (prev : Value) : Except Error Value := do
  let rows ← (← prev.get cell.table).elements
  let rows ← savedRows cell newValue rows
  pure (prev.spreadSet cell.table (.arr rows))

/-- The function `handleSave` from its `await` on, for the cell and the value it
was started with, given how the promise of `updateRecord` settled. -/
def handleSaveEnd (cell : EditingCell) (newValue : Value) (outcome : Except Error Value)
    (s : State) : Except Error State :=
  match outcome with
  | .ok _ =>
    (match savedData cell newValue s.data with
      | .ok data =>
        .ok
          { showNotification (if s.language = .el then "Αποθηκεύτηκε" else "Saved") "success"
              { s with data := data } with
            editingCell := none }
      | .error err => .error err)
  | .error _ => .ok { showNotification "Error saving" "error" s with editingCell := none }

/-- The function `handleSave()`, run to its end against a network `fetch`. -/
def handleSave (fetch : Api.Fetch) (s : State) : Outcome :=
  match s.editingCell with
  | none => (.ok s, [])
  | some cell =>
    let value := newValue cell.field s.editValue
    let data := Value.obj [(cell.field, value)]
    (handleSaveEnd cell value (Api.updateRecord fetch cell.table cell.rowId data) s,
      [Api.updateRequest cell.table cell.rowId data])

/-- The function `handleKeyDown(e)`, on the key `e.key`. The two tests are made
one after the other; no key passes both. -/
def handleKeyDown (fetch : Api.Fetch) (key : String) (s : State) : Outcome :=
  if key = "Enter" then handleSave fetch s
  else if key = "Escape" then (.ok { s with editingCell := none }, [])
  else (.ok s, [])

/-- The expression `data[list][0]?.id || 1` of `addNewRow`. -/
def firstId (data : Value) (list : String) : Except Error Value := do
  let rows ← data.get list
  let first ← rows.first
  pure ((first.optGet "id").or (.num (lit 1)))

/-- The object `newRow` that `addNewRow(table)` builds. -/
def newRow (data : Value) (table : String) : Except Error Value :=
  if table = "series" then
    pure (.obj
      [ ("name", .str "New Series"), ("code", .str "NEW"), ("a", .num (lit 0)),
        ("b", .num (lit 0)), ("x", .num (lit 0)), ("uf1", .null), ("uf2", .null), ("e", .null),
        ("f", .null), ("e_narrow", .null), ("f_narrow", .null) ])
  else if table = "categories" then
    pure (.obj
      [ ("name", .str "New Category"), ("num_glasses", .num (lit 2)),
        ("has_special_calculation", .bool false) ])
  else if table = "drivers" then do
    let series_id ← firstId data "series"
    pure (.obj [("series_id", series_id), ("name", .str "New Driver")])
  else if table = "sashes" then do
    let series_id ← firstId data "series"
    pure (.obj [("series_id", series_id), ("name", .str "New Sash"), ("b_override", .null)])
  else if table = "series_category_params" then do
    let series_id ← firstId data "series"
    let category_id ← firstId data "categories"
    pure (.obj
      [ ("series_id", series_id), ("category_id", category_id), ("gw_divisor", .num (lit 2)),
        ("gw_offset", .num (lit 0)), ("gh_offset", .num (lit 0)), ("narrow_gw_offset", .null) ])
  else pure (.obj [])

/-- The state updater of `addNewRow`:
`prev => ({ ...prev, [table]: [...prev[table], created] })`. -/
def addedData (table : String) (created : Value) (prev : Value) : Except Error Value := do
  let rows ← (← prev.get table).iterate
  pure (prev.spreadSet table (.arr (rows ++ [created])))

/-- The function `addNewRow(table)`, run to its end against a network `fetch`.
When building the row throws, the function ends there, with no request and no
change of state. -/
def addNewRow (fetch : Api.Fetch) (table : String) (s : State) : Outcome :=
  match newRow s.data table with
  | .error _ => (.ok s, [])
  | .ok row =>
    ((match Api.createRecord fetch table row with
      | .ok created =>
        (match addedData table created s.data with
          | .ok data =>
            .ok (showNotification (if s.language = .el then "Προστέθηκε" else "Added") "success"
              { s with data := data })
          | .error err => .error err)
      | .error _ => .ok (showNotification "Error adding" "error" s)),
      [Api.createRequest table row])

/-- The rows the `filter` of `handleDeleteRow` keeps, those with
`row.id !== rowId`; it throws as soon as reading `row.id` does. -/
def keptRows (rowId : Value) : List Value → Except Error (List Value)
  | [] => .ok []
  | row :: rows =>
    match row.get "id", keptRows rowId rows with
    | .ok id, .ok rs => .ok (if id.strictEq rowId then rs else row :: rs)
    | .error err, _ => .error err
    | _, .error err => .error err

/-- The state updater of `handleDeleteRow`:
`prev => ({ ...prev, [table]: prev[table].filter(row => row.id !== rowId) })`. -/
def deletedData (table : String) (rowId : Value) (prev : Value) : Except Error Value := do
  let rows ← (← prev.get table).elements
  let kept ← keptRows rowId rows
  pure (prev.spreadSet table (.arr kept))

/-- The function `handleDeleteRow(table, rowId)`, run to its end against a network
`fetch`, given the answer to the `confirm` dialog. -/
def handleDeleteRow (fetch : Api.Fetch) (confirm : Bool) (table : String) (rowId : Value)
    (s : State) : Outcome :=
  if !confirm then (.ok s, [])
  else
    ((match Api.deleteRecord fetch table rowId with
      | .ok _ =>
        (match deletedData table rowId s.data with
          | .ok data =>
            .ok (showNotification (if s.language = .el then "Διαγράφηκε" else "Deleted") "warning"
              { s with data := data })
          | .error err => .error err)
      | .error _ => .ok (showNotification "Error deleting" "error" s)),
      [Api.deleteRequest table rowId])

/-- The function `fetchAllData()`, run to its end against a network `fetch`. -/
def fetchAllData (fetch : Api.Fetch) (s : State) : Outcome :=
  ((match Api.getAllData fetch with
    | .ok data => .ok { s with data := data, loading := false }
    | .error _ => .ok { showNotification "Error loading data" "error" s with loading := false }),
    [Api.getAllDataRequest])

/-- A small catalog as `getAllData` might answer it: one series, one category, one
sash and their parameter row. -/
def sampleData : Value :=
  .obj
    [ ("categories", .arr
        [ .obj [ ("id", .num (.fin 1)), ("name", .str "Two sashes"),
                 ("num_glasses", .num (.fin 2)), ("has_special_calculation", .bool false) ] ]),
      ("series", .arr
        [ .obj [ ("id", .num (.fin 1)), ("name", .str "S500"), ("code", .str "S5"),
                 ("a", .num (.fin 5)), ("b", .num (.fin 8)), ("x", .num (.fin 3)),
                 ("uf1", .num (.fin 2)), ("uf2", .num (.fin (5 / 2))), ("e", .num (.fin 10)),
                 ("f", .num (.fin 10)), ("e_narrow", .null), ("f_narrow", .null) ] ]),
      ("drivers", .arr []),
      ("sashes", .arr
        [ .obj [ ("id", .num (.fin 1)), ("series_id", .num (.fin 1)), ("name", .str "Sash 24"),
                 ("b_override", .null) ] ]),
      ("driver_categories", .arr []),
      ("series_category_params", .arr
        [ .obj [ ("id", .num (.fin 1)), ("series_id", .num (.fin 1)),
                 ("category_id", .num (.fin 1)), ("gw_divisor", .num (.fin 2)),
                 ("gw_offset", .num (.fin 20)), ("gh_offset", .num (.fin 20)),
                 ("narrow_gw_offset", .null) ] ]) ]

/-- The admin editor showing the sample catalog, with no cell being edited. -/
def sampleAdmin : State :=
  { State.mount .en with data := sampleData, loading := false }

/-- The sample editor after a click on the `num_glasses` cell of category 1 and
typing `0`. -/
def editingGlasses : State :=
  { sampleAdmin with
    activeTab := "categories"
    editingCell := some { table := "categories", rowId := .num (.fin 1), field := "num_glasses" }
    editValue := "0" }

/-- The sample editor after a click on the `num_glasses` cell of category 1 and
typing `3`. -/
def editingGlassesThree : State := { editingGlasses with editValue := "3" }

/-- The sample editor after a click on the `uf2` cell of series 1 and typing
`1,5`. -/
def editingUf2 : State :=
  { sampleAdmin with
    editingCell := some { table := "series", rowId := .num (.fin 1), field := "uf2" }
    editValue := "1,5" }

end AdminInterface

/-! # The specification's statements about the catalog -/

namespace Spec

open JS

/-- A value is an integer that is at least 1 (the constraint of the data model on
`num_glasses` and `gw_divisor`, section 3). -/
def atLeastOne (v : Value) : Prop := ∃ k : ℕ, 1 ≤ k ∧ v = .num (.fin k)

/-- The constraints of the data model on the tables of the admin editor: every
category's `num_glasses` and every parameter row's `gw_divisor` is an integer that
is at least 1. -/
def catalogOk (data : Value) : Prop :=
  (∀ rows, data.optGet "categories" = .arr rows →
      ∀ row ∈ rows, atLeastOne (row.optGet "num_glasses")) ∧
    (∀ rows, data.optGet "series_category_params" = .arr rows →
      ∀ row ∈ rows, atLeastOne (row.optGet "gw_divisor"))

/-- The fields the data model marks nullable (section 3). -/
def nullable : List String := ["e_narrow", "f_narrow", "b_override", "narrow_gw_offset"]

/-- The properties of a row that are `null`. -/
def nullFields (row : Value) : List String :=
  (row.ownFields.filter (fun p => p.2 = .null)).map Prod.fst

end Spec

namespace Engine

/-- The request of the specification's roller scenario (section 8): the scenario
request with `rolo_height = 300` and `Ur = 3.0`. -/
def rollerScenarioRequest : Request :=
  { scenarioRequest with roller := some { rolo_height := some 300, ur_value := some 3 } }

/-- The configuration the scenario resolves to. -/
def scenarioResolved : Resolved :=
  { a := 5, b := 8, x := 3, uf1 := 2, uf2 := 5 / 2, e := 10, f := 10, gw_divisor := 1
    gw_offset := 20, gh_offset := 20, num_glasses := 1, has_special_calculation := false }

/-- The request of the specification's scenario (section 8) with narrow-overlap
mode asked for; the scenario's series has no narrow coefficients. -/
def narrowScenarioRequest : Request := { scenarioRequest with is_narrow := true }

end Engine


/-! # `src/pages/Calculator.jsx`: sessions around the results step -/

namespace Calculator

open JS

/-- The sample session followed by a calculation that the engine answers with the
sample result. -/
def calculationSession : List Action :=
  sampleSession ++ [.calculate, .calculateSettled (.ok sampleResult)]

/-- The state the calculation session leaves: the sample form at step 7, showing
the sample result. -/
def settledForm : State :=
  handleCalculateEnd (.ok sampleResult) (handleCalculateBegin sampleForm).1

/-- The calculation session followed by "New calculation", the "Last results"
button of the header, and Back. -/
def lastResultsSession : List Action :=
  calculationSession ++ [.newCalculation, .showLastResults, .back]

/-- The state the last-results session leaves: step 6 of a wizard in which nothing
has been selected. -/
def skippedForm : State :=
  { State.init with
    step := 6
    types := .arr [sampleItem 1 "Sliding"]
    seriesList := .arr [sampleItem 2 "S500"]
    categories := .arr [sampleItem 3 "Two sashes"]
    drivers := .arr [sampleItem 4 "Case 60"]
    sashes := .arr [sampleItem 5 "Sash 24"]
    ctx := { lastResults := sampleResult, shouldShowResults := false } }

/-- The state `skippedForm` after a frame of 1500 mm by 2000 mm has been typed
in. -/
def skippedFilledForm : State :=
  Action.apply (Action.apply skippedForm (.changePlaisioHeight "1500")) (.changePlaisioWidth "2000")

end Calculator

namespace Spec

open JS

/-- The flow Type, Series, Category, Driver, Sash, Parameters on a state: at steps
2 to 6 the selections of all earlier steps are made. -/
def flow (s : Calculator.State) : Prop :=
  2 ≤ s.step ∧ s.step ≤ 6 →
    s.selectedType ≠ .null ∧ (3 ≤ s.step → s.selectedSeries ≠ .null) ∧
      (4 ≤ s.step → s.selectedCategory ≠ .null) ∧ (5 ≤ s.step → s.selectedDriver ≠ .null) ∧
      (s.step = 6 → s.selectedSash ≠ .null)

end Spec

namespace Api

/-- A network on which every request is refused with status 404 and a JSON body
that says why. -/
def rejecting : Fetch := fun _ => .ok notFoundResponse

end Api
/-! # Theorems -/

namespace Calculator

open JS

/-- A run of enabled actions from a reachable state ends in a reachable state. -/
theorem reachable_of_run {s s1 : State} (actions : List Action) (hs : Reachable s)
    (h : run s actions = some s1) : Reachable s1 := by
  induction actions generalizing s with
  | nil =>
    simp only [run, Option.some.injEq] at h
    exact h ▸ hs
  | cons a rest ih =>
    simp only [run] at h
    split at h
    · next he => exact ih (Reachable.step s a hs he) h
    · exact absurd h (by simp)

/-- The sample session runs from the initial state to the sample form. -/
theorem run_sampleSession : run State.init sampleSession = some sampleForm := by
  decide!

/-- The sample form is reachable. -/
theorem reachable_sampleForm : Reachable sampleForm :=
  reachable_of_run sampleSession Reachable.init run_sampleSession

/-- Each range of the specification is the entry of `LIMITS` for its field, with
finite bounds in the right order. -/
theorem lookup_of_range {name lo hi : String} (h : (name, lo, hi) ∈ Spec.ranges) :
    LIMITS.lookup name = some { min := parseFloat lo, max := parseFloat hi } ∧
      ∃ a b : ℚ, parseFloat lo = .fin a ∧ parseFloat hi = .fin b ∧ a ≤ b := by
  simp only [Spec.ranges, List.mem_cons, Prod.mk.injEq, List.mem_singleton, List.not_mem_nil,
    or_false] at h
  rcases h with ⟨rfl, rfl, rfl⟩ | ⟨rfl, rfl, rfl⟩ | ⟨rfl, rfl, rfl⟩ | ⟨rfl, rfl, rfl⟩ |
    ⟨rfl, rfl, rfl⟩
  · exact ⟨by decide!, 300, 5000, by decide!, by decide!, by norm_num⟩
  · exact ⟨by decide!, 300, 10000, by decide!, by decide!, by norm_num⟩
  · exact ⟨by decide!, 5404319552844595 / 18014398509481984, 7, by decide!, by decide!,
      by norm_num⟩
  · exact ⟨by decide!, 100, 1000, by decide!, by decide!, by norm_num⟩
  · exact ⟨by decide!, 5404319552844595 / 9007199254740992, 10, by decide!, by decide!,
      by norm_num⟩

/-- The function `validateField` on a non-empty text of a field that has limits. -/
theorem validateField_of_limit {name value : String} {limit : Limit}
    (hv : value ≠ "") (hl : LIMITS.lookup name = some limit) :
    validateField name value =
      if (parseFloat value).lt limit.min then some ("Min: " ++ limit.min.toString)
      else if (parseFloat value).gt limit.max then some ("Max: " ++ limit.max.toString)
      else none := by
  simp [validateField, hv, hl]

/-- The function `validateField` on a bounded field and a non-empty input that
parses to a number: no error exactly in the closed range, `Min` below it, `Max`
above it. -/
theorem validateField_cases (name lo hi input : String) (v : Number)
    (hfield : (name, lo, hi) ∈ Spec.ranges) (hne : input ≠ "")
    (hv : parseFloat input = v) (hnum : v ≠ .nan) :
    (validateField name input = none ↔
        (parseFloat lo).le v = true ∧ v.le (parseFloat hi) = true) ∧
      (v.lt (parseFloat lo) = true →
        validateField name input = some ("Min: " ++ (parseFloat lo).toString)) ∧
      (v.gt (parseFloat hi) = true →
        validateField name input = some ("Max: " ++ (parseFloat hi).toString)) := by
  obtain ⟨hl, a, b, ha, hb, hab⟩ := lookup_of_range hfield
  rw [validateField_of_limit hne hl, hv, ha, hb]
  cases v with
  | nan => exact absurd rfl hnum
  | posInf => simp [Number.lt, Number.gt, Number.le]
  | negInf => simp [Number.lt, Number.gt, Number.le]
  | fin q =>
    simp only [Number.lt, Number.gt, Number.le, decide_eq_true_eq]
    by_cases h1 : q < a
    · have h2 : ¬ a ≤ q := not_le.mpr h1
      have h3 : ¬ b < q := not_lt.mpr (le_trans (le_of_lt h1) hab)
      simp [h1, h2, h3]
    · by_cases h3 : b < q
      · have h4 : ¬ q ≤ b := not_le.mpr h3
        simp [h1, h3, h4]
      · simp [h1, h3, not_lt.mp h1, not_lt.mp h3]

/-- The texts of the two messages of each bounded field. -/
theorem range_messages :
    Spec.ranges.map (fun r =>
        (r.1, "Min: " ++ (parseFloat r.2.1).toString, "Max: " ++ (parseFloat r.2.2).toString)) =
      [ ("plaisioHeight", "Min: 300", "Max: 5000"),
        ("plaisioWidth", "Min: 300", "Max: 10000"),
        ("ugValue", "Min: 0.3", "Max: 7"),
        ("roloHeight", "Min: 100", "Max: 1000"),
        ("urValue", "Min: 0.6", "Max: 10") ] := by
  decide!

/-- A bounded field with a numeric input has an error message exactly when the
input is outside the field's range. -/
theorem validateField_isSome_iff {name lo hi input : String}
    (hfield : (name, lo, hi) ∈ Spec.ranges) (hnum : Spec.numeric input) :
    (∃ msg, validateField name input = some msg) ↔ ¬ Spec.inRange lo hi (parseFloat input) := by
  have h := (validateField_cases name lo hi input _ hfield hnum.1 rfl hnum.2).1
  rw [Spec.inRange, ← h]
  cases validateField name input <;> simp

/-- The object `validateAllFields` builds, key by key. -/
theorem allFieldsErrors_eq (s : State) :
    allFieldsErrors s =
      [ ("plaisioHeight", validateField "plaisioHeight" s.plaisioHeight),
        ("plaisioWidth", validateField "plaisioWidth" s.plaisioWidth),
        ("ugValue", validateField "ugValue" s.ugValue) ] ++
      (if s.hasRolo then
        [ ("roloHeight", validateField "roloHeight" s.roloHeight),
          ("urValue", validateField "urValue" s.urValue) ]
      else []) := by
  cases h : s.hasRolo <;> simp [allFieldsErrors, Errors.set, h]

/-- C1. For each bounded field with its range in `LIMITS` (frame height
[300, 5000], frame width [300, 10000], Ug [0.3, 7.0], roller height [100, 1000],
Ur [0.6, 10.0]) and every non-empty input whose parsed value is a number `v` (not
`NaN`), `validateField` returns `null` exactly when `min <= v <= max`, bounds
included; it returns `Min: <min>` when `v < min` and `Max: <max>` when `v > max`. -/
theorem validateField_range (name lo hi input : String) (v : Number)
    (hfield : (name, lo, hi) ∈ Spec.ranges) (hne : input ≠ "")
    (hv : parseFloat input = v) (hnum : v ≠ .nan) :
    LIMITS.lookup name = some { min := parseFloat lo, max := parseFloat hi } ∧
      (validateField name input = none ↔
        (parseFloat lo).le v = true ∧ v.le (parseFloat hi) = true) ∧
      (v.lt (parseFloat lo) = true →
        validateField name input = some ("Min: " ++ (parseFloat lo).toString)) ∧
      (v.gt (parseFloat hi) = true →
        validateField name input = some ("Max: " ++ (parseFloat hi).toString)) :=
  ⟨(lookup_of_range hfield).1, validateField_cases name lo hi input v hfield hne hv hnum⟩

/-- C1 at the frame height `299`, below the least accepted value `300`. -/
theorem validateField_range_witness :
    ("plaisioHeight", "300", "5000") ∈ Spec.ranges ∧ "299" ≠ "" ∧
      parseFloat "299" = .fin 299 ∧ Number.fin 299 ≠ .nan ∧
      (LIMITS.lookup "plaisioHeight" = some { min := parseFloat "300", max := parseFloat "5000" } ∧
        (validateField "plaisioHeight" "299" = none ↔
          (parseFloat "300").le (.fin 299) = true ∧ (Number.fin 299).le (parseFloat "5000") = true) ∧
        ((Number.fin 299).lt (parseFloat "300") = true →
          validateField "plaisioHeight" "299" = some ("Min: " ++ (parseFloat "300").toString)) ∧
        ((Number.fin 299).gt (parseFloat "5000") = true →
          validateField "plaisioHeight" "299" = some ("Max: " ++ (parseFloat "5000").toString))) :=
  ⟨by decide, by decide, by decide!, by decide,
    validateField_range "plaisioHeight" "300" "5000" "299" (.fin 299) (by decide) (by decide)
      (by decide!) (by decide)⟩

/-- The entry of each key in the object `validateAllFields` builds. -/
theorem lookup_allFieldsErrors (s : State) :
    (allFieldsErrors s).lookup "plaisioHeight" =
        some (validateField "plaisioHeight" s.plaisioHeight) ∧
      (allFieldsErrors s).lookup "plaisioWidth" =
        some (validateField "plaisioWidth" s.plaisioWidth) ∧
      (allFieldsErrors s).lookup "ugValue" = some (validateField "ugValue" s.ugValue) ∧
      (allFieldsErrors s).lookup "roloHeight" =
        (if s.hasRolo then some (validateField "roloHeight" s.roloHeight) else none) ∧
      (allFieldsErrors s).lookup "urValue" =
        (if s.hasRolo then some (validateField "urValue" s.urValue) else none) := by
  rw [allFieldsErrors_eq]
  cases h : s.hasRolo <;> simp [List.lookup]

/-- The boolean `validateAllFields` returns: whether each checked field is free of
an error. -/
theorem validateAllFields_snd (s : State) :
    (validateAllFields s).2 = true ↔
      validateField "plaisioHeight" s.plaisioHeight = none ∧
        validateField "plaisioWidth" s.plaisioWidth = none ∧
        validateField "ugValue" s.ugValue = none ∧
        (s.hasRolo = true →
          validateField "roloHeight" s.roloHeight = none ∧
            validateField "urValue" s.urValue = none) := by
  simp only [validateAllFields, allFieldsErrors_eq, Errors.values]
  cases h : s.hasRolo <;> simp [and_assoc]

/-- A value found under a key is one of the values of the object. -/
theorem mem_values_of_lookup {errors : Errors} {key : String} {e : Option String}
    (h : errors.lookup key = some e) : e ∈ errors.values := by
  induction errors with
  | nil => simp [List.lookup] at h
  | cons p rest ih =>
    obtain ⟨k, v⟩ := p
    simp only [List.lookup] at h
    simp only [Errors.values, List.map_cons, List.mem_cons]
    split at h
    · left
      exact (Option.some.inj h).symm
    · right
      exact ih h

/-- The boolean `validateAllFields` returns is true exactly when no entry of the
object it stored is a message. -/
theorem validateAllFields_snd_iff_entries (s : State) :
    (validateAllFields s).2 = true ↔
      ∀ name msg, (validateAllFields s).1.validationErrors.lookup name ≠ some (some msg) := by
  constructor
  · intro h name msg hl
    have hmem := mem_values_of_lookup hl
    simp only [validateAllFields, Bool.not_eq_true', List.any_eq_false] at h
    have := h _ hmem
    simp at this
  · intro h
    obtain ⟨l1, l2, l3, l4, l5⟩ := lookup_allFieldsErrors s
    have e1 := h "plaisioHeight"
    have e2 := h "plaisioWidth"
    have e3 := h "ugValue"
    have e4 := h "roloHeight"
    have e5 := h "urValue"
    simp only [validateAllFields, l1, l2, l3, l4, l5] at e1 e2 e3 e4 e5
    rw [validateAllFields_snd]
    refine ⟨?_, ?_, ?_, ?_⟩
    · exact Option.eq_none_iff_forall_not_mem.mpr (fun m hm => e1 m (by rw [hm]))
    · exact Option.eq_none_iff_forall_not_mem.mpr (fun m hm => e2 m (by rw [hm]))
    · exact Option.eq_none_iff_forall_not_mem.mpr (fun m hm => e3 m (by rw [hm]))
    · intro hr
      simp only [hr, if_true] at e4 e5
      exact ⟨Option.eq_none_iff_forall_not_mem.mpr (fun m hm => e4 m (by rw [hm])),
        Option.eq_none_iff_forall_not_mem.mpr (fun m hm => e5 m (by rw [hm]))⟩

/-- C2. The function `validateAllFields` reports every out-of-range field: for
every form state with non-empty numeric inputs, the object it stores has a message
under `plaisioHeight`, `plaisioWidth` and `ugValue` (and, when `hasRolo` is set,
under `roloHeight` and `urValue`) exactly when that field's value is outside its
closed range, whatever the other fields hold, and it returns `true` exactly when
no entry is a message. A frame height of 299 gives `false` with `Min: 300`
recorded under `plaisioHeight`; a frame height of 300 with the other fields in
range gives `true`. -/
theorem validateAllFields_reports (s : State)
    (hh : Spec.numeric s.plaisioHeight) (hw : Spec.numeric s.plaisioWidth)
    (hu : Spec.numeric s.ugValue)
    (hr : s.hasRolo = true → Spec.numeric s.roloHeight ∧ Spec.numeric s.urValue) :
    (∀ name lo hi, (name, lo, hi) ∈ Spec.ranges →
        (Spec.isRollerField name → s.hasRolo = true) →
        ((∃ msg, (validateAllFields s).1.validationErrors.lookup name = some (some msg)) ↔
          ¬ Spec.inRange lo hi (parseFloat (Spec.fieldText s name)))) ∧
      ((validateAllFields s).2 = true ↔
        ∀ name msg, (validateAllFields s).1.validationErrors.lookup name ≠ some (some msg)) ∧
      (s.plaisioHeight = "299" →
        (validateAllFields s).2 = false ∧
          (validateAllFields s).1.validationErrors.lookup "plaisioHeight" =
            some (some "Min: 300")) ∧
      (s.plaisioHeight = "300" →
        Spec.inRange "300" "10000" (parseFloat s.plaisioWidth) →
        Spec.inRange "0.3" "7.0" (parseFloat s.ugValue) →
        (s.hasRolo = true →
          Spec.inRange "100" "1000" (parseFloat s.roloHeight) ∧
            Spec.inRange "0.6" "10.0" (parseFloat s.urValue)) →
        (validateAllFields s).2 = true) := by
  obtain ⟨l1, l2, l3, l4, l5⟩ := lookup_allFieldsErrors s
  have hstore : (validateAllFields s).1.validationErrors = allFieldsErrors s := rfl
  refine ⟨?_, validateAllFields_snd_iff_entries s, ?_, ?_⟩
  · intro name lo hi hmem hroll
    have hiff := fun (input : String) (hn : Spec.numeric input) =>
      @validateField_isSome_iff _ _ _ input hmem hn
    simp only [Spec.ranges, List.mem_cons, Prod.mk.injEq, List.mem_singleton,
      List.not_mem_nil, or_false] at hmem
    rcases hmem with ⟨rfl, rfl, rfl⟩ | ⟨rfl, rfl, rfl⟩ | ⟨rfl, rfl, rfl⟩ | ⟨rfl, rfl, rfl⟩ |
      ⟨rfl, rfl, rfl⟩
    · have hf : Spec.fieldText s "plaisioHeight" = s.plaisioHeight := by simp [Spec.fieldText]
      rw [hstore, l1, hf, ← hiff _ hh]
      simp
    · have hf : Spec.fieldText s "plaisioWidth" = s.plaisioWidth := by simp [Spec.fieldText]
      rw [hstore, l2, hf, ← hiff _ hw]
      simp
    · have hf : Spec.fieldText s "ugValue" = s.ugValue := by simp [Spec.fieldText]
      rw [hstore, l3, hf, ← hiff _ hu]
      simp
    · have hrolo := hroll (Or.inl rfl)
      have hf : Spec.fieldText s "roloHeight" = s.roloHeight := by simp [Spec.fieldText]
      rw [hstore, l4, hf, ← hiff _ (hr hrolo).1]
      simp [hrolo]
    · have hrolo := hroll (Or.inr rfl)
      have hf : Spec.fieldText s "urValue" = s.urValue := by simp [Spec.fieldText]
      rw [hstore, l5, hf, ← hiff _ (hr hrolo).2]
      simp [hrolo]
  · intro h299
    have hmin : validateField "plaisioHeight" "299" = some "Min: 300" := by decide!
    constructor
    · cases hb : (validateAllFields s).2
      · rfl
      · have := ((validateAllFields_snd s).mp hb).1
        rw [h299, hmin] at this
        exact absurd this (by simp)
    · rw [hstore, l1, h299, hmin]
  · intro h300 hwr hur hrr
    have none_of {name lo hi input : String} (hm : (name, lo, hi) ∈ Spec.ranges)
        (hn : Spec.numeric input) (hin : Spec.inRange lo hi (parseFloat input)) :
        validateField name input = none :=
      ((validateField_cases name lo hi input _ hm hn.1 rfl hn.2).1).mpr hin
    rw [validateAllFields_snd]
    refine ⟨?_, none_of (by decide) hw hwr, none_of (by decide) hu hur, ?_⟩
    · rw [h300]
      decide!
    · intro hrolo
      exact ⟨none_of (by decide) (hr hrolo).1 (hrr hrolo).1,
        none_of (by decide) (hr hrolo).2 (hrr hrolo).2⟩

/-- C2 at the sample form with a frame height of 299 mm: the inputs are numeric,
validation fails, and the message is recorded under `plaisioHeight`. -/
theorem validateAllFields_reports_witness :
    Spec.numeric lowHeightForm.plaisioHeight ∧ Spec.numeric lowHeightForm.plaisioWidth ∧
      Spec.numeric lowHeightForm.ugValue ∧ lowHeightForm.hasRolo = false ∧
      (validateAllFields lowHeightForm).2 = false ∧
      (validateAllFields lowHeightForm).1.validationErrors.lookup "plaisioHeight" =
        some (some "Min: 300") :=
  have hh : Spec.numeric lowHeightForm.plaisioHeight := ⟨by decide, by decide!⟩
  have hw : Spec.numeric lowHeightForm.plaisioWidth := ⟨by decide, by decide!⟩
  have hu : Spec.numeric lowHeightForm.ugValue := ⟨by decide, by decide!⟩
  have hr : lowHeightForm.hasRolo = false := by decide
  ⟨hh, hw, hu, hr,
    (validateAllFields_reports lowHeightForm hh hw hu
      (fun h => absurd (hr ▸ h) (by decide))).2.2.1 rfl⟩

/-- C3, the failing input. The sample session followed by clearing the Ug field
leads to a form at step 6 whose Calculate button is enabled; validation passes
there and `handleCalculate` calls `calculateWindow` with `ug_value` equal to `NaN`,
which is no number inside the range of Ug. -/
theorem handleCalculate_sends_cleared_ug :
    run State.init (sampleSession ++ [.changeUgValue ""]) = some clearedUgForm ∧
      clearedUgForm.step = 6 ∧ enabled clearedUgForm .calculate = true ∧
      (validateAllFields clearedUgForm).2 = true ∧
      (handleCalculateRequests clearedUgForm).map (fun data => data.get "ug_value") =
        [.ok (.num .nan)] := by
  decide!

/-- The text of `validationError` is not empty in either language. -/
theorem t_validationError_ne (language : App.Language) :
    App.t language "validationError" ≠ "" := by
  cases language <;> decide!

/-- The expression `err.message || 'Calculation failed'` is never empty. -/
theorem errorText_ne (err : Error) : errorText err ≠ "" := by
  unfold errorText
  split
  · assumption
  · decide

/-- The synchronous part of `handleCalculate`, by cases: validation fails, building
the data throws, or the data is sent. -/
theorem handleCalculateBegin_cases (s : State) :
    ((validateAllFields s).2 = false ∧
        handleCalculateBegin s =
          ({ (validateAllFields s).1 with
              error := some (App.t s.language "validationError") }, none)) ∨
      ((validateAllFields s).2 = true ∧ ∃ err, calculateData s = .error err ∧
        handleCalculateBegin s =
          ({ (validateAllFields s).1 with error := some (errorText err), loading := false },
            none)) ∨
      ((validateAllFields s).2 = true ∧ ∃ data, calculateData s = .ok data ∧
        handleCalculateBegin s =
          ({ (validateAllFields s).1 with loading := true, error := none }, some data)) := by
  cases hv : (validateAllFields s).2
  · left
    simp [handleCalculateBegin, hv]
  · right
    cases hd : calculateData s with
    | error err =>
      left
      simp [handleCalculateBegin, hv, hd]
    | ok data =>
      right
      simp [handleCalculateBegin, hv, hd]

/-- C4. A failed calculation leaves no partial result. When `handleCalculate`, run
from a state that is not loading (the only state in which its button is enabled),
does not receive a successful response (validation fails, or the call fails),
`results`, `lastResults` and `step` are unchanged, `loading` ends false, and
`error` is a non-empty message: the `validationError` text after a validation
failure, otherwise the failure's message, or `Calculation failed` when that is
empty. The same holds of the part that runs once the call has failed. -/
theorem handleCalculate_failure (fetch : Api.Fetch) (s : State) (hl : s.loading = false)
    (hfail : ∀ data result, (handleCalculateBegin s).2 = some data →
      Api.calculateWindow fetch data ≠ .ok result) :
    (handleCalculate fetch s).results = s.results ∧
      (handleCalculate fetch s).ctx = s.ctx ∧
      (handleCalculate fetch s).step = s.step ∧
      (handleCalculate fetch s).loading = false ∧
      (∃ msg, (handleCalculate fetch s).error = some msg ∧ msg ≠ "" ∧
        ((validateAllFields s).2 = false → msg = App.t s.language "validationError") ∧
        (∀ err, (validateAllFields s).2 = true → calculateData s = .error err →
          msg = if err.message ≠ "" then err.message else "Calculation failed") ∧
        (∀ data err, (handleCalculateBegin s).2 = some data →
          Api.calculateWindow fetch data = .error err →
          msg = if err.message ≠ "" then err.message else "Calculation failed")) ∧
      (∀ (err : Error) (s1 : State),
        (handleCalculateEnd (.error err) s1).results = s1.results ∧
          (handleCalculateEnd (.error err) s1).ctx = s1.ctx ∧
          (handleCalculateEnd (.error err) s1).step = s1.step ∧
          (handleCalculateEnd (.error err) s1).loading = false ∧
          (handleCalculateEnd (.error err) s1).error =
            some (if err.message ≠ "" then err.message else "Calculation failed")) := by
  have hend : ∀ (err : Error) (s1 : State),
      (handleCalculateEnd (.error err) s1).results = s1.results ∧
        (handleCalculateEnd (.error err) s1).ctx = s1.ctx ∧
        (handleCalculateEnd (.error err) s1).step = s1.step ∧
        (handleCalculateEnd (.error err) s1).loading = false ∧
        (handleCalculateEnd (.error err) s1).error =
          some (if err.message ≠ "" then err.message else "Calculation failed") :=
    fun err s1 => ⟨rfl, rfl, rfl, rfl, rfl⟩
  have hstate : ∀ s1 : State, s1 = (validateAllFields s).1 →
      s1.results = s.results ∧ s1.ctx = s.ctx ∧ s1.step = s.step ∧ s1.loading = s.loading :=
    fun s1 h => h ▸ ⟨rfl, rfl, rfl, rfl⟩
  obtain ⟨h1, h2, h3, h4⟩ := hstate _ rfl
  rcases handleCalculateBegin_cases s with ⟨hv, hb⟩ | ⟨hv, err, hd, hb⟩ | ⟨hv, data, hd, hb⟩
  · have hc : handleCalculate fetch s =
        { (validateAllFields s).1 with error := some (App.t s.language "validationError") } := by
      simp [handleCalculate, hb]
    rw [hc]
    refine ⟨h1, h2, h3, h4.trans hl, ⟨_, rfl, t_validationError_ne _, fun _ => rfl, ?_, ?_⟩, hend⟩
    · intro err hv2
      rw [hv] at hv2
      exact absurd hv2 (by decide)
    · intro data err hsent
      rw [hb] at hsent
      exact absurd hsent (by simp)
  · have hc : handleCalculate fetch s =
        { (validateAllFields s).1 with error := some (errorText err), loading := false } := by
      simp [handleCalculate, hb]
    rw [hc]
    refine ⟨h1, h2, h3, rfl, ⟨_, rfl, errorText_ne _, ?_, ?_, ?_⟩, hend⟩
    · intro hv2
      rw [hv] at hv2
      exact absurd hv2 (by decide)
    · intro err2 _ hd2
      rw [hd] at hd2
      cases hd2
      rfl
    · intro data err2 hsent
      rw [hb] at hsent
      exact absurd hsent (by simp)
  · have hsent : (handleCalculateBegin s).2 = some data := by rw [hb]
    cases hw : Api.calculateWindow fetch data with
    | ok result => exact absurd hw (hfail data result hsent)
    | error err =>
      have hc : handleCalculate fetch s =
          handleCalculateEnd (.error err)
            { (validateAllFields s).1 with loading := true, error := none } := by
        simp [handleCalculate, hb, hw]
      rw [hc]
      refine ⟨h1, h2, h3, rfl, ⟨_, rfl, errorText_ne _, ?_, ?_, ?_⟩, hend⟩
      · intro hv2
        rw [hv] at hv2
        exact absurd hv2 (by decide)
      · intro err2 _ hd2
        rw [hd] at hd2
        cases hd2
      · intro data2 err2 hsent2 hw2
        rw [hsent] at hsent2
        cases hsent2
        rw [hw] at hw2
        cases hw2
        rfl

/-- C4 at the sample form with the network down: the form is not loading, the
call fails, and the wizard keeps its results, its step and the saved results. -/
theorem handleCalculate_failure_witness :
    sampleForm.loading = false ∧
      (handleCalculate offline sampleForm).results = sampleForm.results ∧
      (handleCalculate offline sampleForm).ctx = sampleForm.ctx ∧
      (handleCalculate offline sampleForm).step = sampleForm.step ∧
      (handleCalculate offline sampleForm).loading = false :=
  have h := handleCalculate_failure offline sampleForm rfl
    (fun data result _ => by simp [Api.calculateWindow, offline, bind, Except.bind])
  ⟨rfl, h.1, h.2.1, h.2.2.1, h.2.2.2.1⟩

/-- What does hold of C3: a checked field whose input is numeric and outside its
range stops `handleCalculate` before any request. -/
theorem handleCalculate_blocks_out_of_range (s : State) (name lo hi : String)
    (hfield : (name, lo, hi) ∈ Spec.ranges) (hroll : Spec.isRollerField name → s.hasRolo = true)
    (hnum : Spec.numeric (Spec.fieldText s name))
    (hout : ¬ Spec.inRange lo hi (parseFloat (Spec.fieldText s name))) :
    handleCalculateRequests s = [] := by
  obtain ⟨msg, hmsg⟩ := (validateField_isSome_iff hfield hnum).mpr hout
  have hv : (validateAllFields s).2 = false := by
    cases hb : (validateAllFields s).2
    · rfl
    · obtain ⟨h1, h2, h3, h4⟩ := (validateAllFields_snd s).mp hb
      simp only [Spec.ranges, List.mem_cons, Prod.mk.injEq, List.mem_singleton,
        List.not_mem_nil, or_false] at hfield
      rcases hfield with ⟨rfl, _, _⟩ | ⟨rfl, _, _⟩ | ⟨rfl, _, _⟩ | ⟨rfl, _, _⟩ | ⟨rfl, _, _⟩
      · have hf : Spec.fieldText s "plaisioHeight" = s.plaisioHeight := by simp [Spec.fieldText]
        rw [hf, h1] at hmsg
        cases hmsg
      · have hf : Spec.fieldText s "plaisioWidth" = s.plaisioWidth := by simp [Spec.fieldText]
        rw [hf, h2] at hmsg
        cases hmsg
      · have hf : Spec.fieldText s "ugValue" = s.ugValue := by simp [Spec.fieldText]
        rw [hf, h3] at hmsg
        cases hmsg
      · have hf : Spec.fieldText s "roloHeight" = s.roloHeight := by simp [Spec.fieldText]
        rw [hf, (h4 (hroll (Or.inl rfl))).1] at hmsg
        cases hmsg
      · have hf : Spec.fieldText s "urValue" = s.urValue := by simp [Spec.fieldText]
        rw [hf, (h4 (hroll (Or.inr rfl))).2] at hmsg
        cases hmsg
  rcases handleCalculateBegin_cases s with ⟨_, hb⟩ | ⟨hv2, _⟩ | ⟨hv2, _⟩
  · simp [handleCalculateRequests, hb]
  · rw [hv] at hv2
    exact absurd hv2 (by decide)
  · rw [hv] at hv2
    exact absurd hv2 (by decide)

/-- What `calculateWindow` is called with, when building the data succeeds: the
four ids read off the selections, and the twelve properties in source order. -/
theorem calculateData_ok {s : State} {data : Value} (h : calculateData s = .ok data) :
    ∃ series_id category_id driver_id sash_id,
      s.selectedSeries.get "id" = .ok series_id ∧
        s.selectedCategory.get "id" = .ok category_id ∧
        s.selectedDriver.get "id" = .ok driver_id ∧
        s.selectedSash.get "id" = .ok sash_id ∧
        data = .obj
          [ ("series_id", series_id),
            ("category_id", category_id),
            ("driver_id", driver_id),
            ("sash_id", sash_id),
            ("plaisio_height", .num (parseFloat s.plaisioHeight)),
            ("plaisio_width", .num (parseFloat s.plaisioWidth)),
            ("ug_value", .num (parseFloat s.ugValue)),
            ("psi_value", .num (parseFloat s.psiValue)),
            ("is_narrow", .bool s.isNarrow),
            ("has_rolo", .bool s.hasRolo),
            ("rolo_height", if s.hasRolo then .num (parseFloat s.roloHeight) else .null),
            ("ur_value", if s.hasRolo then .num (parseFloat s.urValue) else .null) ] := by
  unfold calculateData at h
  cases h1 : s.selectedSeries.get "id" with
  | error e => simp [h1, bind, Except.bind] at h
  | ok a =>
    cases h2 : s.selectedCategory.get "id" with
    | error e => simp [h1, h2, bind, Except.bind] at h
    | ok b =>
      cases h3 : s.selectedDriver.get "id" with
      | error e => simp [h1, h2, h3, bind, Except.bind] at h
      | ok c =>
        cases h4 : s.selectedSash.get "id" with
        | error e => simp [h1, h2, h3, h4, bind, Except.bind] at h
        | ok d =>
          simp only [h1, h2, h3, h4, bind, Except.bind, pure, Except.pure, Except.ok.injEq] at h
          exact ⟨a, b, c, d, rfl, rfl, rfl, rfl, h.symm⟩

/-- Property access on an object is the lookup among its own properties. -/
theorem get_obj (fields : List (String × Value)) (key : String) :
    (Value.obj fields).get key = .ok (lookupField key fields) := rfl

/-- The twelve properties of the data `calculateWindow` is called with, read back
one by one. -/
theorem calculateData_get {s : State} {data : Value} (h : calculateData s = .ok data) :
    data.get "series_id" = s.selectedSeries.get "id" ∧
      data.get "category_id" = s.selectedCategory.get "id" ∧
      data.get "driver_id" = s.selectedDriver.get "id" ∧
      data.get "sash_id" = s.selectedSash.get "id" ∧
      data.get "plaisio_height" = .ok (.num (parseFloat s.plaisioHeight)) ∧
      data.get "plaisio_width" = .ok (.num (parseFloat s.plaisioWidth)) ∧
      data.get "ug_value" = .ok (.num (parseFloat s.ugValue)) ∧
      data.get "psi_value" = .ok (.num (parseFloat s.psiValue)) ∧
      data.get "is_narrow" = .ok (.bool s.isNarrow) ∧
      data.get "has_rolo" = .ok (.bool s.hasRolo) ∧
      data.get "rolo_height" =
        .ok (if s.hasRolo then .num (parseFloat s.roloHeight) else .null) ∧
      data.get "ur_value" = .ok (if s.hasRolo then .num (parseFloat s.urValue) else .null) := by
  obtain ⟨a, b, c, d, h1, h2, h3, h4, rfl⟩ := calculateData_ok h
  simp [get_obj, lookupField, h1, h2, h3, h4]

/-- The data of the calls `handleCalculate` makes: there is one call exactly when
validation passes and the data can be built. -/
theorem mem_handleCalculateRequests {s : State} {data : Value} :
    data ∈ handleCalculateRequests s ↔
      (validateAllFields s).2 = true ∧ calculateData s = .ok data := by
  unfold handleCalculateRequests
  rcases handleCalculateBegin_cases s with ⟨hv, hb⟩ | ⟨hv, err, hd, hb⟩ | ⟨hv, d, hd, hb⟩
  · simp [hb, hv]
  · simp [hb, hv, hd]
  · simp [hb, hv, hd, eq_comm]

/-- The Psi text after an action: the chosen option after a change of the select,
`0.05` after a reset or a fresh mount, and the text before in every other case. -/
theorem psiValue_apply (s : State) (a : Action) :
    (a.apply s).psiValue =
      match a with
      | .changePsiValue value => value
      | .newCalculation => "0.05"
      | .remount => "0.05"
      | _ => s.psiValue := by
  cases a with
  | back =>
    simp only [Action.apply, handleBack]
    split <;> rfl
  | calculate =>
    simp only [Action.apply]
    rcases handleCalculateBegin_cases s with ⟨_, hb⟩ | ⟨_, _, _, hb⟩ | ⟨_, _, _, hb⟩ <;>
      rw [hb] <;> rfl
  | calculateSettled outcome => cases outcome <;> rfl
  | showLastResults =>
    simp only [Action.apply, showResultsEffect]
    split <;> rfl
  | loaded which data => cases which <;> rfl
  | remount =>
    simp only [Action.apply, showResultsEffect]
    split <;> rfl
  | staleSettled outcome => cases outcome <;> rfl
  | _ => rfl

/-- The Psi text is one of the options in every reachable state. -/
theorem psiValue_mem_options {s : State} (h : Reachable s) :
    s.psiValue ∈ PSI_OPTIONS.map PsiOption.value := by
  induction h with
  | init => decide
  | step s a _ he ih =>
    rw [psiValue_apply]
    cases a with
    | changePsiValue value =>
      simp only [enabled, Bool.and_eq_true, decide_eq_true_eq] at he
      exact he.2
    | newCalculation => exact List.mem_cons_self _ _
    | remount => exact List.mem_cons_self _ _
    | _ => exact ih

/-- C5. Psi is confined to the enumerated set. In every reachable wizard state
`psiValue` is one of `0.05`, `0.08`, `0.11`: it is `0.05` initially and after a
reset, an enabled action changes it only by choosing an entry of `PSI_OPTIONS` (or
by resetting the form), and every request `handleCalculate` sends has `psi_value`
equal to one of the numbers 0.05, 0.08, 0.11. -/
theorem psiValue_enumerated (s : State) (h : Reachable s) :
    s.psiValue ∈ ["0.05", "0.08", "0.11"] ∧
      State.init.psiValue = "0.05" ∧
      (resetCalculator s).psiValue = "0.05" ∧
      (∀ a, enabled s a = true → (a.apply s).psiValue ≠ s.psiValue →
        (∃ option ∈ PSI_OPTIONS, a = .changePsiValue option.value) ∨
          a = .newCalculation ∨ a = .remount) ∧
      (∀ data ∈ handleCalculateRequests s,
        data.get "psi_value" ∈
          [ Except.ok (Value.num (lit (5 / 100))),
            Except.ok (Value.num (lit (8 / 100))),
            Except.ok (Value.num (lit (11 / 100))) ]) := by
  have hmem := psiValue_mem_options h
  refine ⟨hmem, rfl, rfl, ?_, ?_⟩
  · intro a he hne
    rw [psiValue_apply] at hne
    cases a <;> first
      | exact absurd rfl hne
      | exact Or.inr (Or.inl rfl)
      | exact Or.inr (Or.inr rfl)
      | (simp only [enabled, Bool.and_eq_true, decide_eq_true_eq, List.mem_map] at he
         obtain ⟨option, ho, hval⟩ := he.2
         exact Or.inl ⟨option, ho, by rw [hval]⟩)
  · intro data hd
    obtain ⟨_, hdata⟩ := mem_handleCalculateRequests.mp hd
    rw [(calculateData_get hdata).2.2.2.2.2.2.2.1]
    have h05 : parseFloat "0.05" = lit (5 / 100) := by decide!
    have h08 : parseFloat "0.08" = lit (8 / 100) := by decide!
    have h11 : parseFloat "0.11" = lit (11 / 100) := by decide!
    simp only [PSI_OPTIONS, List.map, List.mem_cons, List.mem_singleton, List.not_mem_nil,
      or_false] at hmem
    rcases hmem with hp | hp | hp
    · rw [hp, h05]
      exact List.mem_cons_self _ _
    · rw [hp, h08]
      exact List.mem_cons_of_mem _ (List.mem_cons_self _ _)
    · rw [hp, h11]
      exact List.mem_cons_of_mem _ (List.mem_cons_of_mem _ (List.mem_cons_self _ _))

/-- C5 at the sample form, which the sample session reaches. -/
theorem psiValue_enumerated_witness :
    Reachable sampleForm ∧ sampleForm.psiValue ∈ ["0.05", "0.08", "0.11"] :=
  ⟨reachable_sampleForm, (psiValue_enumerated sampleForm reachable_sampleForm).1⟩

/-- C6 as stated fails. On the sample form with the roller shutter ticked, a
roller height of 300 and no Ur, exactly one of the two roller fields is supplied,
yet `validateAllFields` returns `true`. -/
theorem validateAllFields_accepts_half_roller :
    run State.init (sampleSession ++ [.changeHasRolo true, .changeRoloHeight "300"]) =
        some rollerHeightOnlyForm ∧
      rollerHeightOnlyForm.hasRolo = true ∧ rollerHeightOnlyForm.roloHeight ≠ "" ∧
      rollerHeightOnlyForm.urValue = "" ∧
      (validateAllFields rollerHeightOnlyForm).2 = true := by
  decide!

/-- C6, amended. The two roller fields are required together by the gate of step
6, not by validation: for every form at step 6 with `hasRolo` set in which exactly
one of `roloHeight` and `urValue` is supplied, `canProceed` is falsy, so the
Calculate button is disabled; `validateField` itself reports nothing for the empty
field. -/
theorem canProceed_requires_both_roller_fields (s : State) (hstep : s.step = 6)
    (hrolo : s.hasRolo = true)
    (hone : (s.roloHeight ≠ "" ∧ s.urValue = "") ∨ (s.roloHeight = "" ∧ s.urValue ≠ "")) :
    (canProceed s).truthy = false ∧ enabled s .calculate = false ∧
      validateField "roloHeight" "" = none ∧ validateField "urValue" "" = none := by
  have hc : (canProceed s).truthy = false := by
    simp only [canProceed, hstep, hrolo]
    rcases hone with ⟨h1, h2⟩ | ⟨h1, h2⟩ <;>
      by_cases hh : s.plaisioHeight = "" <;> by_cases hw : s.plaisioWidth = "" <;>
      simp [Value.and, Value.or, Value.truthy, h1, h2, hh, hw]
  refine ⟨hc, ?_, rfl, rfl⟩
  simp [enabled, hc]

/-- C6, amended, at the sample form with only the roller height given. -/
theorem canProceed_requires_both_roller_fields_witness :
    rollerHeightOnlyForm.step = 6 ∧ rollerHeightOnlyForm.hasRolo = true ∧
      rollerHeightOnlyForm.roloHeight ≠ "" ∧ rollerHeightOnlyForm.urValue = "" ∧
      (canProceed rollerHeightOnlyForm).truthy = false ∧
      enabled rollerHeightOnlyForm .calculate = false :=
  have h := canProceed_requires_both_roller_fields rollerHeightOnlyForm rfl rfl
    (Or.inl ⟨by decide, rfl⟩)
  ⟨rfl, rfl, by decide, rfl, h.1, h.2.1⟩

/-- Reading `.id` succeeds only on a selection that is neither `null` nor
`undefined`. -/
theorem ne_null_of_get {v result : Value} {key : String} (h : v.get key = .ok result) :
    v ≠ .null ∧ v ≠ .undefined := by
  cases v <;> simp [Value.get] at h ⊢

/-- C7. Whenever `handleCalculate` sends a request, its payload is this function
of the form state: the four ids are the `id` of the selected series, category,
driver and sash, none of which is `null`; `plaisio_height`, `plaisio_width`,
`ug_value` and `psi_value` are the parsed numbers of their fields; `is_narrow` and
`has_rolo` are the two flags; `rolo_height` and `ur_value` are the parsed numbers
of the roller fields when `hasRolo` is true and both `null` when it is false,
whatever the roller fields hold. The payload has these twelve properties and no
other, and one request is sent. -/
theorem handleCalculate_payload (s : State) (data : Value)
    (h : data ∈ handleCalculateRequests s) :
    handleCalculateRequests s = [data] ∧
      (∃ fields, data = .obj fields ∧
        fields.map Prod.fst =
          [ "series_id", "category_id", "driver_id", "sash_id", "plaisio_height",
            "plaisio_width", "ug_value", "psi_value", "is_narrow", "has_rolo", "rolo_height",
            "ur_value" ]) ∧
      (s.selectedSeries ≠ .null ∧ s.selectedCategory ≠ .null ∧ s.selectedDriver ≠ .null ∧
        s.selectedSash ≠ .null) ∧
      data.get "series_id" = s.selectedSeries.get "id" ∧
      data.get "category_id" = s.selectedCategory.get "id" ∧
      data.get "driver_id" = s.selectedDriver.get "id" ∧
      data.get "sash_id" = s.selectedSash.get "id" ∧
      data.get "plaisio_height" = .ok (.num (parseFloat s.plaisioHeight)) ∧
      data.get "plaisio_width" = .ok (.num (parseFloat s.plaisioWidth)) ∧
      data.get "ug_value" = .ok (.num (parseFloat s.ugValue)) ∧
      data.get "psi_value" = .ok (.num (parseFloat s.psiValue)) ∧
      data.get "is_narrow" = .ok (.bool s.isNarrow) ∧
      data.get "has_rolo" = .ok (.bool s.hasRolo) ∧
      (s.hasRolo = true →
        data.get "rolo_height" = .ok (.num (parseFloat s.roloHeight)) ∧
          data.get "ur_value" = .ok (.num (parseFloat s.urValue))) ∧
      (s.hasRolo = false →
        data.get "rolo_height" = .ok .null ∧ data.get "ur_value" = .ok .null) := by
  obtain ⟨hv, hdata⟩ := mem_handleCalculateRequests.mp h
  obtain ⟨g1, g2, g3, g4, g5, g6, g7, g8, g9, g10, g11, g12⟩ := calculateData_get hdata
  obtain ⟨a, b, c, d, h1, h2, h3, h4, hobj⟩ := calculateData_ok hdata
  refine ⟨?_, ⟨_, hobj, rfl⟩, ⟨(ne_null_of_get h1).1, (ne_null_of_get h2).1,
    (ne_null_of_get h3).1, (ne_null_of_get h4).1⟩, g1, g2, g3, g4, g5, g6, g7, g8, g9, g10,
    ?_, ?_⟩
  · unfold handleCalculateRequests
    rcases handleCalculateBegin_cases s with ⟨hv2, _⟩ | ⟨_, err, hd, _⟩ | ⟨_, d2, hd, hb⟩
    · rw [hv] at hv2
      exact absurd hv2 (by decide)
    · rw [hdata] at hd
      cases hd
    · rw [hdata] at hd
      cases hd
      rw [hb]
      rfl
  · intro hr
    rw [g11, g12, hr]
    exact ⟨rfl, rfl⟩
  · intro hr
    rw [g11, g12, hr]
    exact ⟨rfl, rfl⟩

/-- C7 at the sample form: the one request it sends carries the ids 2, 3, 4 and 5
and no roller fields. -/
theorem handleCalculate_payload_witness :
    Value.obj
        [ ("series_id", .num (.fin 2)), ("category_id", .num (.fin 3)),
          ("driver_id", .num (.fin 4)), ("sash_id", .num (.fin 5)),
          ("plaisio_height", .num (.fin 1500)), ("plaisio_width", .num (.fin 2000)),
          ("ug_value", .num (.fin 1)), ("psi_value", .num (lit (5 / 100))),
          ("is_narrow", .bool false), ("has_rolo", .bool false),
          ("rolo_height", .null), ("ur_value", .null) ] ∈ handleCalculateRequests sampleForm ∧
      handleCalculateRequests sampleForm =
        [ Value.obj
          [ ("series_id", .num (.fin 2)), ("category_id", .num (.fin 3)),
            ("driver_id", .num (.fin 4)), ("sash_id", .num (.fin 5)),
            ("plaisio_height", .num (.fin 1500)), ("plaisio_width", .num (.fin 2000)),
            ("ug_value", .num (.fin 1)), ("psi_value", .num (lit (5 / 100))),
            ("is_narrow", .bool false), ("has_rolo", .bool false),
            ("rolo_height", .null), ("ur_value", .null) ] ] :=
  have hmem : Value.obj
      [ ("series_id", .num (.fin 2)), ("category_id", .num (.fin 3)),
        ("driver_id", .num (.fin 4)), ("sash_id", .num (.fin 5)),
        ("plaisio_height", .num (.fin 1500)), ("plaisio_width", .num (.fin 2000)),
        ("ug_value", .num (.fin 1)), ("psi_value", .num (lit (5 / 100))),
        ("is_narrow", .bool false), ("has_rolo", .bool false),
        ("rolo_height", .null), ("ur_value", .null) ] ∈ handleCalculateRequests sampleForm := by
    decide!
  ⟨hmem, (handleCalculate_payload sampleForm _ hmem).1⟩

end Calculator

namespace Api

open JS

/-- An error made from a truthy value carries the text of that value. -/
theorem new_of_truthy {v : Value} (h : v.truthy = true) : Error.new v = { message := v.toStr } := by
  cases v <;> simp [Error.new, Value.truthy] at h ⊢

/-- C8 as stated fails. A non-ok response whose `detail` is a list of field errors
has a `detail` that is present and not empty, yet the error `calculateWindow` fails
with has the message `[object Object]`, which is neither that detail nor
`Calculation failed`. -/
theorem calculateWindow_detail_list :
    fieldErrorResponse.ok = false ∧
      (∃ detail, fieldErrorResponse.json.toOption.map (fun body => body.get "detail") =
          some (.ok detail) ∧ detail.truthy = true ∧ detail ≠ .str "[object Object]") ∧
      calculateWindow (fun _ => .ok fieldErrorResponse) .null =
        .error { message := "[object Object]" } ∧
      "[object Object]" ≠ "Calculation failed" := by
  refine ⟨rfl, ⟨_, rfl, rfl, by decide⟩, by decide!, by decide⟩

/-- C8, amended. The function `calculateWindow` returns either a result or an
error. For every response whose body parses as JSON it returns that body exactly
when the status is ok. For a non-ok response whose body admits reading `detail`
(every JSON value but `null`), it fails with an error whose message is the text of
`detail` when `detail` is truthy (the detail itself when it is a non-empty string)
and `Calculation failed` when `detail` is absent or falsy. When the body does not
parse, or is `null` on a non-ok response, it fails with the error raised there. -/
theorem calculateWindow_result (fetch : Fetch) (data : Value) (res : Response)
    (hres : fetch
      { url := "/api/calculate"
        method := "POST"
        headers := [("Content-Type", "application/json")]
        body := some data } = .ok res) :
    (∀ body, res.json = .ok body → (calculateWindow fetch data = .ok body ↔ res.ok = true)) ∧
      (∀ err, res.json = .error err → calculateWindow fetch data = .error err) ∧
      (res.ok = false → ∀ body detail, res.json = .ok body → body.get "detail" = .ok detail →
        calculateWindow fetch data =
          .error { message := if detail.truthy then detail.toStr else "Calculation failed" }) ∧
      (res.ok = false → ∀ body text, res.json = .ok body →
        body.get "detail" = .ok (.str text) → text ≠ "" →
        calculateWindow fetch data = .error { message := text }) ∧
      (res.ok = false → ∀ body err, res.json = .ok body → body.get "detail" = .error err →
        calculateWindow fetch data = .error err) := by
  have hurl : API_BASE ++ "/calculate" = "/api/calculate" := by decide
  have hcall : calculateWindow fetch data =
      if !res.ok then
        (do
          let error ← res.json
          let detail ← error.get "detail"
          throw (Error.new (detail.or (.str "Calculation failed"))))
      else res.json := by
    simp only [calculateWindow, hurl, hres, bind, Except.bind]
    cases res.ok <;> rfl
  have hdetail : ∀ body detail, res.ok = false → res.json = .ok body →
      body.get "detail" = .ok detail →
      calculateWindow fetch data =
        .error { message := if detail.truthy then detail.toStr else "Calculation failed" } := by
    intro body detail hok hb hd
    rw [hcall, hok, hb]
    simp only [Bool.not_false, if_true, bind, Except.bind, hd, throw, throwThe,
      MonadExceptOf.throw, Value.or]
    cases ht : detail.truthy
    · simp [Error.new, Value.toStr]
    · simp [new_of_truthy ht]
  refine ⟨?_, ?_, ?_, ?_, ?_⟩
  · intro body hb
    rw [hcall, hb]
    cases hok : res.ok
    · simp only [Bool.not_false, if_true, bind, Except.bind]
      cases body.get "detail" <;> simp [throw, throwThe, MonadExceptOf.throw]
    · simp
  · intro err hb
    rw [hcall, hb]
    cases res.ok <;> rfl
  · intro hok body detail hb hd
    exact hdetail body detail hok hb hd
  · intro hok body text hb hd hne
    rw [hdetail body _ hok hb hd]
    simp [Value.truthy, Value.toStr, hne]
  · intro hok body err hb hd
    rw [hcall, hok, hb]
    simp [bind, Except.bind, hd]

/-- C8, amended, at a non-ok response whose `detail` is a non-empty string. -/
theorem calculateWindow_result_witness :
    notFoundResponse.ok = false ∧
      notFoundResponse.json = .ok (.obj [("detail", .str "Series not found")]) ∧
      calculateWindow (fun _ => .ok notFoundResponse) .null =
        .error { message := "Series not found" } :=
  ⟨rfl, rfl,
    (calculateWindow_result (fun _ => .ok notFoundResponse) .null notFoundResponse rfl).2.2.2.1
      rfl _ "Series not found" rfl rfl (by decide)⟩

end Api

namespace Engine

/-- The engine on a request without roller block that passes validation and
resolves: one geometry pass at the full frame height. -/
theorem calculate_standard {catalog : Catalog} {split : FrameSplit} {req : Request}
    {cfg : Resolved} (hroller : req.roller = none) (hfaults : faults req = [])
    (hcfg : resolve catalog req = .ok cfg) :
    calculate catalog split req =
      (geometry split cfg req.plaisio_width req.plaisio_height).map (fun g =>
        { Uw := some (headline cfg g req.ug_value req.psi_value)
          Uw_open := none
          Uw_closed := none
          is_narrow := req.is_narrow
          has_rolo := false
          breakdown := breakdownOf req cfg req.plaisio_height g none
          closed := none }) := by
  simp only [calculate, validate, hfaults, hroller, hcfg, if_true, Option.bind, bind,
    Except.bind, Except.map]
  cases geometry split cfg req.plaisio_width req.plaisio_height <;> rfl

/-- C9. Standard scenario headline, on the engine as the specification describes
it. For every valid request without roller shutter (it passes the Validator, it
resolves against the catalog, and its glass width and height are positive) the
engine returns a result, and the `Uw` of a result for a request without roller
shutter equals `(Af1·uf1 + Af2·uf2 + Ag·Ug + Ig·Ψ) / Aw` computed from the `Af1`,
`Af2`, `Ag`, `Ig` and `Aw` of the same result's breakdown. -/
theorem standard_headline (catalog : Catalog) (split : FrameSplit) (req : Request)
    (cfg : Resolved) (hroller : req.roller = none) (hfaults : faults req = [])
    (hcfg : resolve catalog req = .ok cfg)
    (hGW : 0 < req.plaisio_width / cfg.gw_divisor - cfg.gw_offset)
    (hGH : 0 < req.plaisio_height - cfg.gh_offset) :
    (∃ result, calculate catalog split req = .ok result) ∧
      ∀ result, calculate catalog split req = .ok result →
        result.Uw =
          some ((result.breakdown.Af1 * result.breakdown.cfg.uf1 +
            result.breakdown.Af2 * result.breakdown.cfg.uf2 +
            result.breakdown.Ag * result.breakdown.Ug +
            result.breakdown.Ig * result.breakdown.Psi) / result.breakdown.Aw) := by
  rw [calculate_standard hroller hfaults hcfg]
  have hg : ∃ g, geometry split cfg req.plaisio_width req.plaisio_height = .ok g := by
    simp [geometry, hGW, hGH]
  obtain ⟨g, hg⟩ := hg
  rw [hg]
  refine ⟨⟨_, rfl⟩, ?_⟩
  intro result hr
  simp only [Except.map, Except.ok.injEq] at hr
  subst hr
  rfl

/-- C9 on the scenario of the specification: the request is valid, and the result
has `GW = 980`, `GH = 1180`, `Ag = 1.1564`, `Aw = 1.2` and a `Uw` that is the
weighted sum of its breakdown. -/
theorem standard_headline_witness :
    scenarioRequest.roller = none ∧ faults scenarioRequest = [] ∧
      (∃ result, calculate scenarioCatalog scenarioSplit scenarioRequest = .ok result ∧
        result.breakdown.GW = 980 ∧ result.breakdown.GH = 1180 ∧
        result.breakdown.Ag = 11564 / 10000 ∧ result.breakdown.Aw = 12 / 10 ∧
        result.Uw =
          some ((result.breakdown.Af1 * 2 + result.breakdown.Af2 * (5 / 2) +
            (11564 / 10000) * (11 / 10) + result.breakdown.Ig * (5 / 100)) / (12 / 10))) := by
  have hroller : scenarioRequest.roller = none := rfl
  have hfaults : faults scenarioRequest = [] := by decide!
  have hcfg : resolve scenarioCatalog scenarioRequest =
      .ok
        { a := 5, b := 8, x := 3, uf1 := 2, uf2 := 5 / 2, e := 10, f := 10, gw_divisor := 1
          gw_offset := 20, gh_offset := 20, num_glasses := 1
          has_special_calculation := false } := by
    rfl
  have h := standard_headline scenarioCatalog scenarioSplit scenarioRequest _ hroller hfaults
    hcfg (by norm_num [scenarioRequest]) (by norm_num [scenarioRequest])
  obtain ⟨⟨result, hres⟩, hall⟩ := h
  refine ⟨hroller, hfaults, result, hres, ?_⟩
  have hUw := hall result hres
  rw [calculate_standard hroller hfaults hcfg] at hres
  have hg : geometry scenarioSplit
      { a := 5, b := 8, x := 3, uf1 := 2, uf2 := 5 / 2, e := 10, f := 10, gw_divisor := 1
        gw_offset := 20, gh_offset := 20, num_glasses := 1
        has_special_calculation := false } scenarioRequest.plaisio_width
      scenarioRequest.plaisio_height =
      .ok
        { GW := 980, GH := 1180, Ag := 11564 / 10000, Ig := 432 / 100, Af1 := 436 / 10000
          Af2 := 0, Aff2 := none, Aw := 12 / 10 } := by
    norm_num [geometry, scenarioRequest, scenarioSplit]
  rw [hg] at hres
  simp only [Except.map, Except.ok.injEq] at hres
  subst hres
  refine ⟨rfl, rfl, rfl, rfl, ?_⟩
  exact hUw

end Engine

namespace Engine

/-- A request that passes validation still does so without its roller block. -/
theorem faults_without_roller {req : Request} (h : faults req = []) :
    faults { req with roller := none } = [] := by
  simp only [faults, List.append_eq_nil] at h ⊢
  exact ⟨⟨⟨⟨h.1.1.1.1, h.1.1.1.2⟩, h.1.1.2⟩, h.1.2⟩, trivial⟩

/-- The engine on a request with a complete roller block that passes validation
and resolves: one geometry pass at the full frame height and one at the reduced
height. -/
theorem calculate_roller {catalog : Catalog} {split : FrameSplit} {req : Request}
    {cfg : Resolved} {rolo_height Ur : ℚ}
    (hroller : req.roller = some { rolo_height := some rolo_height, ur_value := some Ur })
    (hfaults : faults req = []) (hcfg : resolve catalog req = .ok cfg) :
    calculate catalog split req =
      (geometry split cfg req.plaisio_width req.plaisio_height).bind (fun g =>
        (geometry split cfg req.plaisio_width (req.plaisio_height - rolo_height)).map
          (fun g1 =>
            { Uw := none
              Uw_open := some (headline cfg g req.ug_value req.psi_value)
              Uw_closed :=
                some (headlineClosed cfg g1 req.ug_value req.psi_value
                  (req.plaisio_width * rolo_height / 1000000) Ur)
              is_narrow := req.is_narrow
              has_rolo := true
              breakdown := breakdownOf req cfg req.plaisio_height g none
              closed :=
                some (breakdownOf req cfg (req.plaisio_height - rolo_height) g1
                  (some (req.plaisio_width * rolo_height / 1000000))) })) := by
  simp only [calculate, validate, hfaults, hroller, hcfg, if_true, Option.bind, rollerValues,
    bind, Except.bind, Except.map]
  cases geometry split cfg req.plaisio_width req.plaisio_height with
  | error e => rfl
  | ok g =>
    cases geometry split cfg req.plaisio_width (req.plaisio_height - rolo_height) <;> rfl

/-- The roller height of a block that passes validation is at least 100. -/
theorem rolo_height_ge {req : Request} {rolo_height Ur : ℚ}
    (hroller : req.roller = some { rolo_height := some rolo_height, ur_value := some Ur })
    (hfaults : faults req = []) : 100 ≤ rolo_height := by
  simp only [faults, hroller, rollerFaults, outOfRange, List.append_eq_nil] at hfaults
  have h := hfaults.2.1
  by_contra hlt
  simp [hlt] at h

/-- C11. Roller independence, on the engine as the specification describes it.
For every valid request with a roller-shutter block (it passes the Validator, it
resolves against the catalog, its glass width is positive and its glass height is
positive at the reduced frame height), the engine returns a result, it returns one
for the same request without the roller block, and the `Uw_open` of the first is
the `Uw` of the second. -/
theorem roller_independence (catalog : Catalog) (split : FrameSplit) (req : Request)
    (cfg : Resolved) (rolo_height Ur : ℚ)
    (hroller : req.roller = some { rolo_height := some rolo_height, ur_value := some Ur })
    (hfaults : faults req = []) (hcfg : resolve catalog req = .ok cfg)
    (hGW : 0 < req.plaisio_width / cfg.gw_divisor - cfg.gw_offset)
    (hGH : 0 < req.plaisio_height - rolo_height - cfg.gh_offset) :
    ∃ withRoller withoutRoller u,
      calculate catalog split req = .ok withRoller ∧
        calculate catalog split { req with roller := none } = .ok withoutRoller ∧
        withRoller.Uw_open = some u ∧ withoutRoller.Uw = some u ∧
        withRoller.Uw = none := by
  have hge := rolo_height_ge hroller hfaults
  have hGH0 : 0 < req.plaisio_height - cfg.gh_offset := by linarith
  have hg : ∃ g, geometry split cfg req.plaisio_width req.plaisio_height = .ok g := by
    simp [geometry, hGW, hGH0]
  have hg1 : ∃ g1, geometry split cfg req.plaisio_width (req.plaisio_height - rolo_height) =
      .ok g1 := by
    simp [geometry, hGW, hGH]
  obtain ⟨g, hg⟩ := hg
  obtain ⟨g1, hg1⟩ := hg1
  have hcfg2 : resolve catalog { req with roller := none } = .ok cfg := hcfg
  have hg2 : geometry split cfg ({ req with roller := none } : Request).plaisio_width
      ({ req with roller := none } : Request).plaisio_height = .ok g := hg
  have h1 := @calculate_roller catalog split req cfg rolo_height Ur hroller hfaults hcfg
  rw [hg, hg1] at h1
  have h2 := @calculate_standard catalog split _ cfg rfl (faults_without_roller hfaults) hcfg2
  rw [hg2] at h2
  exact ⟨_, _, _, h1, h2, rfl, rfl, rfl⟩

/-- C11 on the roller scenario of the specification: roller height 300 and
`Ur = 3.0` on the frame of 1000 by 1200. -/
theorem roller_independence_witness :
    faults rollerScenarioRequest = [] ∧
      resolve scenarioCatalog rollerScenarioRequest = .ok scenarioResolved ∧
      ∃ withRoller withoutRoller u,
        calculate scenarioCatalog scenarioSplit rollerScenarioRequest = .ok withRoller ∧
          calculate scenarioCatalog scenarioSplit
            { rollerScenarioRequest with roller := none } = .ok withoutRoller ∧
          withRoller.Uw_open = some u ∧ withoutRoller.Uw = some u ∧ withRoller.Uw = none :=
  have hfaults : faults rollerScenarioRequest = [] := by decide!
  have hcfg : resolve scenarioCatalog rollerScenarioRequest = .ok scenarioResolved := rfl
  ⟨hfaults, hcfg,
    roller_independence scenarioCatalog scenarioSplit rollerScenarioRequest scenarioResolved
      300 3 rfl hfaults hcfg (by norm_num [rollerScenarioRequest, scenarioRequest, scenarioResolved])
      (by norm_num [rollerScenarioRequest, scenarioRequest, scenarioResolved])⟩

end Engine

namespace Calculator

open JS

/-- A computation whose result is there has succeeded. -/
theorem exists_ok_of_isSome {ε α : Type} {x : Except ε α} (h : x.toOption.isSome = true) :
    ∃ v, x = .ok v := by
  cases x with
  | error e => simp [Except.toOption] at h
  | ok v => exact ⟨v, rfl⟩

/-- When the results page renders, each of its blocks is what that block's
function returns. -/
theorem renderResults_ok {language : App.Language} {results : Value} {view : ResultsView}
    (h : renderResults language results = .ok view) :
    headlineBlock language results = .ok view.headline ∧
      roloBlock language results = .ok view.rolo ∧
      valuesBlock results = .ok view.values ∧
      afilitouBlock results = .ok view.afilitou ∧
      configurationBlock language results = .ok view.configuration ∧
      debugBlock results = .ok view.debug := by
  unfold renderResults at h
  cases h1 : headlineBlock language results with
  | error e => simp [h1, bind, Except.bind] at h
  | ok a =>
    cases h2 : roloBlock language results with
    | error e => simp [h1, h2, bind, Except.bind] at h
    | ok b =>
      cases h3 : valuesBlock results with
      | error e => simp [h1, h2, h3, bind, Except.bind] at h
      | ok c =>
        cases h4 : afilitouBlock results with
        | error e => simp [h1, h2, h3, h4, bind, Except.bind] at h
        | ok d =>
          cases h5 : configurationBlock language results with
          | error e => simp [h1, h2, h3, h4, h5, bind, Except.bind] at h
          | ok e =>
            cases h6 : debugBlock results with
            | error e => simp [h1, h2, h3, h4, h5, h6, bind, Except.bind] at h
            | ok f =>
              simp only [h1, h2, h3, h4, h5, h6, bind, Except.bind, pure, Except.pure,
                Except.ok.injEq] at h
              subst h
              exact ⟨rfl, rfl, rfl, rfl, rfl, rfl⟩

/-- The call `?.toFixed(3)` followed by display succeeds exactly on the values
that have a headline text. -/
theorem childNode_optToFixed (label unit : String) (v : Value) :
    (v.optToFixed 3).bind (fun w => childNode label w unit) =
      match headlineText v with
      | some text => .ok { label := label, text := text, unit := unit }
      | none => .error { message := "toFixed is not a function" } := by
  cases v <;> rfl

/-- The headline block, by cases on `results.has_rolo`. -/
theorem headlineBlock_eq (language : App.Language) (results has_rolo uwOpen uwClosed uw : Value)
    (h0 : results.get "has_rolo" = .ok has_rolo) (h1 : results.get "Uw_open" = .ok uwOpen)
    (h2 : results.get "Uw_closed" = .ok uwClosed) (h3 : results.get "Uw" = .ok uw) :
    headlineBlock language results =
      if has_rolo.truthy then
        (match headlineText uwOpen, headlineText uwClosed with
          | some a, some b =>
            .ok
              [ { label := App.t language "roloOpen", text := a, unit := "W/(m²·K)" },
                { label := App.t language "roloClosed", text := b, unit := "W/(m²·K)" } ]
          | _, _ => .error { message := "toFixed is not a function" })
      else
        (match headlineText uw with
          | some a =>
            .ok [ { label := App.t language "overallUValue", text := a, unit := "W/(m²·K)" } ]
          | none => .error { message := "toFixed is not a function" }) := by
  unfold headlineBlock
  simp only [h0, h1, h2, h3, bind, Except.bind]
  cases has_rolo.truthy
  · simp only [Bool.false_eq_true, if_false]
    cases uw <;> rfl
  · simp only [if_true]
    cases uwOpen <;> cases uwClosed <;> rfl

/-- Reading a property of a value that is neither `null` nor `undefined` does not
throw, and gives what the optional access gives. -/
theorem get_eq_optGet {v : Value} (key : String) (h1 : v ≠ .null) (h2 : v ≠ .undefined) :
    v.get key = .ok (v.optGet key) := by
  cases v <;> first | exact absurd rfl h1 | exact absurd rfl h2 | rfl

/-- A value that a property can be read of is neither `null` nor `undefined`. -/
theorem ne_null_of_get_ok {v w : Value} {key : String} (h : v.get key = .ok w) :
    v ≠ .null ∧ v ≠ .undefined ∧ w = v.optGet key := by
  cases v <;> simp [Value.get, Value.optGet] at h ⊢ <;> exact h.symm

/-- The label of the single headline differs from the labels of the two roller
headlines, in both languages. -/
theorem overallUValue_ne (language : App.Language) :
    App.t language "overallUValue" ≠ App.t language "roloOpen" ∧
      App.t language "overallUValue" ≠ App.t language "roloClosed" := by
  cases language <;> decide!

/-- C12. In the roller-shutter scenario both results are reported and no single
`Uw`. For every result the results page renders for, the headline block holds
exactly two values, `Uw_open` and `Uw_closed` (each with the text of
`?.toFixed(3)`), when `results.has_rolo` is truthy, and exactly one, `Uw`, when it
is not; the `Uw` headline never appears together with `has_rolo`. The headline
block renders for every result (a value other than `null` and `undefined`) whose
headline values are Numbers, `null` or absent. -/
theorem headline_values (language : App.Language) (results : Value) :
    (∀ view, renderResults language results = .ok view →
      ((results.optGet "has_rolo").truthy = true →
        (∃ a b,
          headlineText (results.optGet "Uw_open") = some a ∧
            headlineText (results.optGet "Uw_closed") = some b ∧
            view.headline =
              [ { label := App.t language "roloOpen", text := a, unit := "W/(m²·K)" },
                { label := App.t language "roloClosed", text := b, unit := "W/(m²·K)" } ]) ∧
          ∀ node ∈ view.headline, node.label ≠ App.t language "overallUValue") ∧
      ((results.optGet "has_rolo").truthy = false →
        ∃ a,
          headlineText (results.optGet "Uw") = some a ∧
            view.headline =
              [ { label := App.t language "overallUValue", text := a, unit := "W/(m²·K)" } ])) ∧
      (results ≠ .null → results ≠ .undefined →
        (headlineText (results.optGet "Uw_open")).isSome = true →
        (headlineText (results.optGet "Uw_closed")).isSome = true →
        (headlineText (results.optGet "Uw")).isSome = true →
        ∃ nodes, headlineBlock language results = .ok nodes) := by
  constructor
  · intro view hview
    have hhead := (renderResults_ok hview).1
    have hne : results ≠ .null ∧ results ≠ .undefined := by
      constructor <;> intro hr <;> rw [hr] at hhead <;>
        simp [headlineBlock, Value.get, bind, Except.bind] at hhead
    have hget := fun key => get_eq_optGet key hne.1 hne.2
    rw [headlineBlock_eq language results _ _ _ _ (hget _) (hget _) (hget _) (hget _)] at hhead
    constructor
    · intro hrolo
      rw [hrolo, if_pos rfl] at hhead
      cases ha : headlineText (results.optGet "Uw_open") with
      | none => simp [ha] at hhead
      | some a =>
        cases hb : headlineText (results.optGet "Uw_closed") with
        | none => simp [ha, hb] at hhead
        | some b =>
          simp only [ha, hb, Except.ok.injEq] at hhead
          refine ⟨⟨a, b, rfl, rfl, hhead.symm⟩, ?_⟩
          intro node hnode
          rw [← hhead] at hnode
          simp only [List.mem_cons, List.mem_singleton, List.not_mem_nil, or_false] at hnode
          rcases hnode with rfl | rfl
          · exact fun h => (overallUValue_ne language).1 h.symm
          · exact fun h => (overallUValue_ne language).2 h.symm
    · intro hrolo
      rw [hrolo] at hhead
      simp only [Bool.false_eq_true, if_false] at hhead
      cases ha : headlineText (results.optGet "Uw") with
      | none => simp [ha] at hhead
      | some a =>
        simp only [ha, Except.ok.injEq] at hhead
        exact ⟨a, rfl, hhead.symm⟩
  · intro h1 h2 ho hc hu
    have hget := fun key => get_eq_optGet key h1 h2
    rw [headlineBlock_eq language results _ _ _ _ (hget _) (hget _) (hget _) (hget _)]
    obtain ⟨a, ha⟩ := Option.isSome_iff_exists.mp ho
    obtain ⟨b, hb⟩ := Option.isSome_iff_exists.mp hc
    obtain ⟨c, hc⟩ := Option.isSome_iff_exists.mp hu
    rw [ha, hb, hc]
    cases (results.optGet "has_rolo").truthy <;> simp

/-- C12 on the two sample results: the page renders for both, with the two roller
headlines `1.313` and `1.650` for the one, and the single `1.313` for the other. -/
theorem headline_values_witness :
    (∃ view, renderResults .en sampleRollerResult = .ok view ∧
      view.headline =
        [ { label := "Uw (Roller Open)", text := "1.313", unit := "W/(m²·K)" },
          { label := "Uw (Roller Closed)", text := "1.650", unit := "W/(m²·K)" } ]) ∧
      (∃ view, renderResults .en sampleResult = .ok view ∧
        view.headline =
          [ { label := "Overall U-value (Uw)", text := "1.313", unit := "W/(m²·K)" } ]) := by
  have h1 : ∃ view, renderResults .en sampleRollerResult = .ok view :=
    exists_ok_of_isSome (by decide!)
  have h2 : ∃ view, renderResults .en sampleResult = .ok view :=
    exists_ok_of_isSome (by decide!)
  obtain ⟨v1, hv1⟩ := h1
  obtain ⟨v2, hv2⟩ := h2
  refine ⟨⟨v1, hv1, ?_⟩, ⟨v2, hv2, ?_⟩⟩
  · obtain ⟨⟨a, b, ha, hb, hlist⟩, _⟩ :=
      ((headline_values .en sampleRollerResult).1 v1 hv1).1 (by decide!)
    have ha2 : a = "1.313" := Option.some.inj (ha.symm.trans (by decide!))
    have hb2 : b = "1.650" := Option.some.inj (hb.symm.trans (by decide!))
    rw [hlist, ha2, hb2]
    decide!
  · obtain ⟨a, ha, hlist⟩ := ((headline_values .en sampleResult).1 v2 hv2).2 (by decide!)
    have ha2 : a = "1.313" := Option.some.inj (ha.symm.trans (by decide!))
    rw [hlist, ha2]
    decide!

/-- What does hold of C14: a debug quantity that is a Number is displayed as the
text of that Number when the quantity is displayed as it is, and, for the five
quantities displayed through `|| '-'`, when the Number is truthy. -/
theorem debugNode_number (debug : Value) (item : DebugItem) (n : Number)
    (hget : debug.get item.field = .ok (.num n))
    (hshow : item.display = .plain ∨
      (item.display = .orDash ∧ (Value.num n).truthy = true)) :
    debugNode debug item = .ok { label := item.label, text := n.toString, unit := item.unit } := by
  unfold debugNode
  simp only [hget, bind, Except.bind]
  rcases hshow with h | ⟨h, ht⟩
  · rw [h]
    rfl
  · rw [h]
    simp [debugChild, Value.or, ht, childNode, Value.renderChild, bind, Except.bind, pure,
      Except.pure]

/-- The five debug quantities displayed through `|| '-'` show a dash for the
Number `0`. -/
theorem debugNode_zero (debug : Value) (item : DebugItem)
    (hget : debug.get item.field = .ok (.num (.fin 0))) (hshow : item.display = .orDash) :
    debugNode debug item = .ok { label := item.label, text := "-", unit := item.unit } := by
  unfold debugNode
  simp only [hget, bind, Except.bind]
  rw [hshow]
  rfl

/-- C14, the failing input. The sample result carries `narrow_gw_offset = 0` in its
debug block; the page renders, and the text displayed for that quantity is `-`,
not `0`, while `gw_offset = 20` next to it is displayed as `20`. -/
theorem debug_zero_shown_as_dash :
    sampleResult.optGet "debug" ≠ .undefined ∧
      (sampleResult.optGet "debug").optGet "narrow_gw_offset" = .num (.fin 0) ∧
      (Number.fin 0).toString = "0" ∧
      (renderResults .en sampleResult).toOption.map
          (fun view => view.debug.filter (fun node => node.label = "narrow_gw")) =
        some [{ label := "narrow_gw", text := "-", unit := "" }] ∧
      (renderResults .en sampleResult).toOption.map
          (fun view => view.debug.filter (fun node => node.label = "gw_offset")) =
        some [{ label := "gw_offset", text := "20", unit := "" }] := by
  decide!

end Calculator

namespace Calculator

open JS

/-- The saved result is untouched by a run of resets and steps back. -/
theorem lastResults_foldl (path : List Action)
    (hpath : ∀ a ∈ path, a = .newCalculation ∨ a = .back) (s : State) :
    (path.foldl Action.apply s).ctx = s.ctx := by
  induction path generalizing s with
  | nil => rfl
  | cons a rest ih =>
    have ha := hpath a (List.mem_cons_self _ _)
    have hrest : ∀ b ∈ rest, b = .newCalculation ∨ b = .back :=
      fun b hb => hpath b (List.mem_cons_of_mem _ hb)
    rw [List.foldl_cons, ih hrest]
    rcases ha with rfl | rfl
    · rfl
    · simp only [Action.apply, handleBack]
      split <;> rfl

/-- The "last results" button on a state whose saved result is truthy: the wizard
shows that result at step 7. -/
theorem showLastResults_apply (s : State) (h : s.ctx.lastResults.truthy = true) :
    (Action.apply s .showLastResults).step = 7 ∧
      (Action.apply s .showLastResults).results = s.ctx.lastResults ∧
      (Action.apply s .showLastResults).ctx.lastResults = s.ctx.lastResults ∧
      (Action.apply s .showLastResults).ctx.shouldShowResults = false := by
  simp [Action.apply, showResultsEffect, App.goToResults, App.clearShowResults, h]

/-- C13. The wizard persists the last result for later display. After
`handleCalculate` succeeds with a result `r`, `lastResults` is `r`;
`resetCalculator` and `handleBack`, however often they run, leave `lastResults`
unchanged; and a subsequent `goToResults` (its button is on the page exactly when
`lastResults` is truthy, as every result object is) puts the wizard at step 7 with
`results = r`. -/
theorem lastResults_persist (s : State) (r : Value) (hr : r.truthy = true) :
    (handleCalculateEnd (.ok r) s).ctx.lastResults = r ∧
      (∀ fetch data, (handleCalculateBegin s).2 = some data →
        Api.calculateWindow fetch data = .ok r →
        (handleCalculate fetch s).ctx.lastResults = r) ∧
      (∀ s1 : State, (resetCalculator s1).ctx.lastResults = s1.ctx.lastResults ∧
        (handleBack s1).ctx.lastResults = s1.ctx.lastResults) ∧
      (∀ (s1 : State) (path : List Action), s1.ctx.lastResults = r →
        (∀ a ∈ path, a = .newCalculation ∨ a = .back) →
        (path.foldl Action.apply s1).ctx.lastResults = r ∧
          enabled (path.foldl Action.apply s1) .showLastResults = true ∧
          (Action.apply (path.foldl Action.apply s1) .showLastResults).step = 7 ∧
          (Action.apply (path.foldl Action.apply s1) .showLastResults).results = r ∧
          (Action.apply (path.foldl Action.apply s1) .showLastResults).ctx.lastResults = r) := by
  refine ⟨rfl, ?_, ?_, ?_⟩
  · intro fetch data hbegin hcall
    have hsplit : handleCalculateBegin s = ((handleCalculateBegin s).1, some data) := by
      rw [← hbegin]
    unfold handleCalculate
    rw [hsplit]
    simp only [hcall]
    rfl
  · intro s1
    refine ⟨rfl, ?_⟩
    simp only [handleBack]
    split <;> rfl
  · intro s1 path hlast hpath
    have hctx := lastResults_foldl path hpath s1
    have hl : (path.foldl Action.apply s1).ctx.lastResults = r := by rw [hctx, hlast]
    have ht : (path.foldl Action.apply s1).ctx.lastResults.truthy = true := by rw [hl, hr]
    obtain ⟨h1, h2, h3, _⟩ := showLastResults_apply _ ht
    refine ⟨hl, ?_, h1, h2.trans hl, h3.trans hl⟩
    simp [enabled, ht]

/-- C13 on the sample form: after the calculation has answered with the sample
result, a reset and the "last results" button show that result at step 7. -/
theorem lastResults_persist_witness :
    sampleResult.truthy = true ∧ calculatedForm.ctx.lastResults = sampleResult ∧
      (Action.apply (resetCalculator calculatedForm) .showLastResults).step = 7 ∧
      (Action.apply (resetCalculator calculatedForm) .showLastResults).results = sampleResult :=
  have h := (lastResults_persist sampleForm sampleResult rfl).2.2.2 calculatedForm
    [.newCalculation] rfl
    (fun _ ha => Or.inl (List.mem_singleton.mp ha))
  ⟨rfl, rfl, h.2.2.1, h.2.2.2.1⟩

end Calculator

namespace Engine

/-- The resolver refuses a narrow request for a series that lacks `e_narrow` or
`f_narrow`. -/
theorem resolve_narrow_unavailable (catalog : Catalog) (req : Request) (series : Series)
    (hseries : catalog.getSeries req.series_id = some series)
    (hnone : series.e_narrow = none ∨ series.f_narrow = none) (hnarrow : req.is_narrow = true) :
    ∃ err, resolve catalog req = .error err := by
  unfold resolve
  simp only [hseries, find, hnarrow, if_true, bind, Except.bind]
  cases catalog.getCategory req.category_id with
  | none => exact ⟨_, rfl⟩
  | some category =>
    cases catalog.getDriver req.driver_id with
    | false => exact ⟨_, rfl⟩
    | true =>
      cases catalog.getSash req.sash_id with
      | none => exact ⟨_, rfl⟩
      | some sash =>
        cases catalog.getParams req.series_id req.category_id with
        | none => exact ⟨_, rfl⟩
        | some params =>
          cases he : series.e_narrow with
          | none => exact ⟨_, rfl⟩
          | some e =>
            cases hf : series.f_narrow with
            | none => exact ⟨_, rfl⟩
            | some f =>
              rcases hnone with h | h
              · rw [he] at h
                cases h
              · rw [hf] at h
                cases h

/-- The engine returns no result for a narrow request for a series that lacks
`e_narrow` or `f_narrow`. -/
theorem calculate_narrow_unavailable (catalog : Catalog) (split : FrameSplit) (req : Request)
    (series : Series) (hseries : catalog.getSeries req.series_id = some series)
    (hnone : series.e_narrow = none ∨ series.f_narrow = none) (hnarrow : req.is_narrow = true)
    (result : Result) : calculate catalog split req ≠ .ok result := by
  obtain ⟨err, herr⟩ := resolve_narrow_unavailable catalog req series hseries hnone hnarrow
  unfold calculate
  cases validate req with
  | error e => simp [bind, Except.bind]
  | ok roller => simp [herr, bind, Except.bind]

/-- The engine refuses with a configuration error a narrow request that is valid
and whose series, category, driver, sash and parameter row exist, when the series
lacks `e_narrow` or `f_narrow`. -/
theorem calculate_narrow_configuration (catalog : Catalog) (split : FrameSplit) (req : Request)
    (series : Series) (category : Category) (sash : Sash) (params : Parameter)
    (roller : Option (ℚ × ℚ)) (hvalid : validate req = .ok roller)
    (hseries : catalog.getSeries req.series_id = some series)
    (hcategory : catalog.getCategory req.category_id = some category)
    (hdriver : catalog.getDriver req.driver_id = true)
    (hsash : catalog.getSash req.sash_id = some sash)
    (hparams : catalog.getParams req.series_id req.category_id = some params)
    (hnone : series.e_narrow = none ∨ series.f_narrow = none) (hnarrow : req.is_narrow = true) :
    calculate catalog split req = .error (.configuration "e_narrow") ∨
      calculate catalog split req = .error (.configuration "f_narrow") := by
  unfold calculate resolve
  simp only [hvalid, hseries, hcategory, hdriver, hsash, hparams, find, hnarrow, if_true, bind,
    Except.bind]
  cases he : series.e_narrow with
  | none => exact Or.inl rfl
  | some e =>
    cases hf : series.f_narrow with
    | none => exact Or.inr rfl
    | some f =>
      rcases hnone with h | h
      · rw [he] at h
        cases h
      · rw [hf] at h
        cases h

end Engine

namespace Calculator

open JS

/-- C15 as stated fails. The narrow session is a run of enabled actions from the
initial state; it selects a series whose `e_narrow` and `f_narrow` are `null`,
ticks the narrow-overlap checkbox, and leaves a form from which `handleCalculate`
sends a request with `is_narrow = true`. -/
theorem narrow_request_sent :
    run State.init narrowSession = some narrowForm ∧
      narrowForm.selectedSeries.get "e_narrow" = .ok .null ∧
      narrowForm.selectedSeries.get "f_narrow" = .ok .null ∧
      enabled narrowForm .calculate = true ∧
      (handleCalculateRequests narrowForm).map (fun data => data.get "is_narrow") =
        [.ok (.bool true)] := by
  decide!

/-- C15, amended. The wizard does not make narrow-overlap mode unavailable: at
step 6 the narrow checkbox can be set either way whatever series is selected, and
the request `handleCalculate` sends carries `is_narrow` as the checkbox stands,
whatever `e_narrow` and `f_narrow` of the selected series are. It is the engine, as
the specification describes it, that refuses: for a series that lacks `e_narrow`
or `f_narrow`, a request with `is_narrow = true` gets no result; when the request
is valid and its category, driver, sash and parameter row exist as well, the
failure is the configuration error for `e_narrow` or `f_narrow`. -/
theorem narrow_left_to_engine (s : State) (data : Value)
    (hdata : data ∈ handleCalculateRequests s) :
    data.get "is_narrow" = .ok (.bool s.isNarrow) ∧
      (∀ (s1 : State) (checked : Bool), s1.step = 6 →
        enabled s1 (.changeIsNarrow checked) = true ∧
          (Action.apply s1 (.changeIsNarrow checked)).isNarrow = checked) ∧
      (∀ (catalog : Engine.Catalog) (split : Engine.FrameSplit) (req : Engine.Request)
        (series : Engine.Series), catalog.getSeries req.series_id = some series →
        (series.e_narrow = none ∨ series.f_narrow = none) → req.is_narrow = true →
        ∀ result, Engine.calculate catalog split req ≠ .ok result) ∧
      (∀ (catalog : Engine.Catalog) (split : Engine.FrameSplit) (req : Engine.Request)
        (series : Engine.Series) (category : Engine.Category) (sash : Engine.Sash)
        (params : Engine.Parameter) (roller : Option (ℚ × ℚ)),
        Engine.validate req = .ok roller →
        catalog.getSeries req.series_id = some series →
        catalog.getCategory req.category_id = some category →
        catalog.getDriver req.driver_id = true →
        catalog.getSash req.sash_id = some sash →
        catalog.getParams req.series_id req.category_id = some params →
        (series.e_narrow = none ∨ series.f_narrow = none) → req.is_narrow = true →
        Engine.calculate catalog split req = .error (.configuration "e_narrow") ∨
          Engine.calculate catalog split req = .error (.configuration "f_narrow")) := by
  refine ⟨?_, ?_, ?_, ?_⟩
  · exact (calculateData_get (mem_handleCalculateRequests.mp hdata).2).2.2.2.2.2.2.2.2.1
  · intro s1 checked hstep
    simp [enabled, hstep, Action.apply]
  · intro catalog split req series hseries hnone hnarrow result
    exact Engine.calculate_narrow_unavailable catalog split req series hseries hnone hnarrow
      result
  · intro catalog split req series category sash params roller hvalid hseries hcategory
      hdriver hsash hparams hnone hnarrow
    exact Engine.calculate_narrow_configuration catalog split req series category sash params
      roller hvalid hseries hcategory hdriver hsash hparams hnone hnarrow

/-- C15, amended, on the form the narrow session leaves: the request it sends has
`is_narrow = true`; and on the engine, the scenario request of the specification
with narrow-overlap mode asked for, whose series has no narrow coefficients, is
refused with a configuration error. -/
theorem narrow_left_to_engine_witness :
    (∃ data, data ∈ handleCalculateRequests narrowForm ∧
      data.get "is_narrow" = .ok (.bool true)) ∧
      (Engine.calculate Engine.scenarioCatalog Engine.scenarioSplit
            Engine.narrowScenarioRequest = .error (.configuration "e_narrow") ∨
        Engine.calculate Engine.scenarioCatalog Engine.scenarioSplit
            Engine.narrowScenarioRequest = .error (.configuration "f_narrow")) := by
  have hlen : (handleCalculateRequests narrowForm).length = 1 := by decide!
  have hsome : ∃ data, handleCalculateRequests narrowForm = [data] :=
    List.length_eq_one.mp hlen
  obtain ⟨data, hdata⟩ := hsome
  have hmem : data ∈ handleCalculateRequests narrowForm := by
    rw [hdata]
    exact List.mem_singleton.mpr rfl
  refine ⟨⟨data, hmem, (narrow_left_to_engine narrowForm data hmem).1⟩, ?_⟩
  exact (narrow_left_to_engine narrowForm data hmem).2.2.2 Engine.scenarioCatalog
    Engine.scenarioSplit Engine.narrowScenarioRequest
    { a := 5, b := 8, x := 3, uf1 := 2, uf2 := 5 / 2, e := 10, f := 10
      e_narrow := none, f_narrow := none }
    { num_glasses := 1, has_special_calculation := false } { b_override := none }
    { gw_divisor := 1, gw_offset := 20, gh_offset := 20, narrow_gw_offset := none } none
    (by decide!) rfl rfl (by decide) rfl rfl (Or.inl rfl) rfl

end Calculator

namespace AdminInterface

open JS

/-- A URL under `/api/admin/` is not the URL of the calculation. -/
theorem admin_ne_calculate (rest : String) : "/api/admin/" ++ rest ≠ "/api/calculate" := by
  intro h
  have hdata := congrArg String.data h
  simp [String.data_append] at hdata

/-- The URLs of the four admin calls all start with `/api/admin/`. -/
theorem admin_urls (table : String) (id data : Value) :
    Api.getAllDataRequest.url = "/api/admin/" ++ "all-data" ∧
      (Api.updateRequest table id data).url =
        "/api/admin/" ++ (Api.endpointText table ++ "/" ++ id.toStr) ∧
      (Api.createRequest table data).url = "/api/admin/" ++ Api.endpointText table ∧
      (Api.deleteRequest table id).url =
        "/api/admin/" ++ (Api.endpointText table ++ "/" ++ id.toStr) := by
  have hbase : Api.API_BASE ++ "/admin/" = "/api/admin/" := by decide
  refine ⟨by decide, ?_, ?_, ?_⟩
  · simp only [Api.updateRequest, hbase, String.append_assoc]
  · simp only [Api.createRequest, hbase]
  · simp only [Api.deleteRequest, hbase, String.append_assoc]

/-- The calls each admin handler makes: at most one, and always one of the four
admin calls. -/
theorem admin_calls (fetch : Api.Fetch) (s : State) (table : String) (rowId : Value)
    (confirm : Bool) (key : String) :
    (fetchAllData fetch s).2 = [Api.getAllDataRequest] ∧
      ((handleSave fetch s).2 = [] ∨
        ∃ t id data, (handleSave fetch s).2 = [Api.updateRequest t id data]) ∧
      ((handleKeyDown fetch key s).2 = [] ∨
        ∃ t id data, (handleKeyDown fetch key s).2 = [Api.updateRequest t id data]) ∧
      ((addNewRow fetch table s).2 = [] ∨
        ∃ data, (addNewRow fetch table s).2 = [Api.createRequest table data]) ∧
      ((handleDeleteRow fetch confirm table rowId s).2 = [] ∨
        (handleDeleteRow fetch confirm table rowId s).2 = [Api.deleteRequest table rowId]) := by
  have hsave : (handleSave fetch s).2 = [] ∨
      ∃ t id data, (handleSave fetch s).2 = [Api.updateRequest t id data] := by
    unfold handleSave
    cases s.editingCell with
    | none => exact Or.inl rfl
    | some cell => exact Or.inr ⟨_, _, _, rfl⟩
  refine ⟨rfl, hsave, ?_, ?_, ?_⟩
  · unfold handleKeyDown
    split
    · exact hsave
    · split <;> exact Or.inl rfl
  · unfold addNewRow
    cases newRow s.data table with
    | error e => exact Or.inl rfl
    | ok row => exact Or.inr ⟨_, rfl⟩
  · unfold handleDeleteRow
    cases confirm
    · exact Or.inl rfl
    · exact Or.inr rfl

/-- C16. The admin editor never calls the engine. For every network, admin state,
table name, row id, answer to the confirmation and key, every HTTP request that
`fetchAllData`, `handleSave` (also through `handleKeyDown`), `addNewRow` and
`handleDeleteRow` issue, through `getAllData`, `updateRecord`, `createRecord` and
`deleteRecord`, targets a URL that starts with `/api/admin/`, and none targets
`/api/calculate`. -/
theorem admin_never_calculates (fetch : Api.Fetch) (s : State) (table : String) (rowId : Value)
    (confirm : Bool) (key : String) (request : Api.Request)
    (hrequest : request ∈ (fetchAllData fetch s).2 ++ (handleSave fetch s).2 ++
      (handleKeyDown fetch key s).2 ++ (addNewRow fetch table s).2 ++
      (handleDeleteRow fetch confirm table rowId s).2) :
    (∃ rest, request.url = "/api/admin/" ++ rest) ∧ request.url ≠ "/api/calculate" := by
  have hprefix : ∃ rest, request.url = "/api/admin/" ++ rest := by
    obtain ⟨h1, h2, h3, h4, h5⟩ := admin_calls fetch s table rowId confirm key
    simp only [List.mem_append] at hrequest
    rcases hrequest with (((hr | hr) | hr) | hr) | hr
    · rw [h1] at hr
      rw [List.mem_singleton.mp hr]
      exact ⟨_, (admin_urls table rowId .null).1⟩
    · rcases h2 with h | ⟨t, id, data, h⟩
      · rw [h] at hr
        cases hr
      · rw [h] at hr
        rw [List.mem_singleton.mp hr]
        exact ⟨_, (admin_urls t id data).2.1⟩
    · rcases h3 with h | ⟨t, id, data, h⟩
      · rw [h] at hr
        cases hr
      · rw [h] at hr
        rw [List.mem_singleton.mp hr]
        exact ⟨_, (admin_urls t id data).2.1⟩
    · rcases h4 with h | ⟨data, h⟩
      · rw [h] at hr
        cases hr
      · rw [h] at hr
        rw [List.mem_singleton.mp hr]
        exact ⟨_, (admin_urls table rowId data).2.2.1⟩
    · rcases h5 with h | h
      · rw [h] at hr
        cases hr
      · rw [h] at hr
        rw [List.mem_singleton.mp hr]
        exact ⟨_, (admin_urls table rowId .null).2.2.2⟩
  obtain ⟨rest, hrest⟩ := hprefix
  exact ⟨⟨rest, hrest⟩, hrest ▸ admin_ne_calculate rest⟩

/-- C16 on the sample editor with the `uf2` cell of series 1 being edited: the
request Enter issues goes to `/api/admin/series/1`. -/
theorem admin_never_calculates_witness :
    Api.updateRequest "series" (.num (.fin 1)) (.obj [("uf2", .num (.fin (3 / 2)))]) ∈
        (fetchAllData Api.accepting editingUf2).2 ++ (handleSave Api.accepting editingUf2).2 ++
          (handleKeyDown Api.accepting "Enter" editingUf2).2 ++
          (addNewRow Api.accepting "series" editingUf2).2 ++
          (handleDeleteRow Api.accepting true "series" (.num (.fin 1)) editingUf2).2 ∧
      (Api.updateRequest "series" (.num (.fin 1)) (.obj [("uf2", .num (.fin (3 / 2)))])).url =
        "/api/admin/series/1" ∧
      (Api.updateRequest "series" (.num (.fin 1)) (.obj [("uf2", .num (.fin (3 / 2)))])).url ≠
        "/api/calculate" :=
  have hmem : Api.updateRequest "series" (.num (.fin 1)) (.obj [("uf2", .num (.fin (3 / 2)))]) ∈
      (fetchAllData Api.accepting editingUf2).2 ++ (handleSave Api.accepting editingUf2).2 ++
        (handleKeyDown Api.accepting "Enter" editingUf2).2 ++
        (addNewRow Api.accepting "series" editingUf2).2 ++
        (handleDeleteRow Api.accepting true "series" (.num (.fin 1)) editingUf2).2 := by
    decide!
  ⟨hmem, by decide!,
    (admin_never_calculates Api.accepting editingUf2 "series" (.num (.fin 1)) true "Enter" _
      hmem).2⟩

/-- A property that has just been set is read back. -/
theorem lookupField_setField_same (fields : List (String × Value)) (key : String) (v : Value) :
    lookupField key (setField fields key v) = v := by
  induction fields with
  | nil => simp [setField, lookupField]
  | cons p rest ih =>
    obtain ⟨k, w⟩ := p
    by_cases hk : k = key
    · simp [setField, lookupField, hk]
    · simp [setField, lookupField, hk, ih]

/-- Setting a property leaves every other property as it was. -/
theorem lookupField_setField_ne (fields : List (String × Value)) {key other : String} (v : Value)
    (h : other ≠ key) : lookupField other (setField fields key v) = lookupField other fields := by
  induction fields with
  | nil => simp [setField, lookupField, Ne.symm h]
  | cons p rest ih =>
    obtain ⟨k, w⟩ := p
    by_cases hk : k = key
    · subst hk
      simp [setField, lookupField, Ne.symm h]
    · by_cases hko : k = other
      · subst hko
        simp [setField, lookupField, hk]
      · simp [setField, lookupField, hk, hko, ih]

/-- Reading back, from an object, a property that has just been set. -/
theorem optGet_setField_same (fields : List (String × Value)) (key : String) (v : Value) :
    (Value.obj (setField fields key v)).optGet key = v :=
  lookupField_setField_same fields key v

/-- Reading, from an object, a property other than the one that has just been
set. -/
theorem optGet_setField_ne (fields : List (String × Value)) {key other : String} (v : Value)
    (h : other ≠ key) :
    (Value.obj (setField fields key v)).optGet other = (Value.obj fields).optGet other :=
  lookupField_setField_ne fields v h

/-- The row the callback of `handleSave` returns, when reading `row.id` does not
throw: the row itself, or the row with the edited field set. -/
theorem savedRow_ok {cell : EditingCell} {v row saved : Value}
    (h : savedRow cell v row = .ok saved) :
    row ≠ .null ∧ row ≠ .undefined ∧
      saved = if (row.optGet "id").strictEq cell.rowId then row.spreadSet cell.field v
        else row := by
  unfold savedRow at h
  cases hid : row.get "id" with
  | error e => simp [hid, bind, Except.bind] at h
  | ok id =>
    obtain ⟨h1, h2, h3⟩ := Calculator.ne_null_of_get_ok hid
    simp only [hid, bind, Except.bind, pure, Except.pure, Except.ok.injEq] at h
    exact ⟨h1, h2, by rw [← h, h3]⟩

/-- The rows the `map` of `handleSave` returns, when it does not throw: row by
row, the row itself or the row with the edited field set. -/
theorem savedRows_ok {cell : EditingCell} {v : Value} {rows saved : List Value}
    (h : savedRows cell v rows = .ok saved) :
    (∀ row ∈ rows, row ≠ .null ∧ row ≠ .undefined) ∧
      saved = rows.map (fun row =>
        if (row.optGet "id").strictEq cell.rowId then row.spreadSet cell.field v else row) := by
  induction rows generalizing saved with
  | nil =>
    simp only [savedRows, Except.ok.injEq] at h
    subst h
    simp
  | cons row rest ih =>
    unfold savedRows at h
    cases hr : savedRow cell v row with
    | error e => simp [hr] at h
    | ok r =>
      cases hrest : savedRows cell v rest with
      | error e => simp [hr, hrest] at h
      | ok rs =>
        simp only [hr, hrest, Except.ok.injEq] at h
        obtain ⟨h1, h2, h3⟩ := savedRow_ok hr
        obtain ⟨ha, hb⟩ := ih hrest
        subst h
        constructor
        · intro x hx
          rcases List.mem_cons.mp hx with rfl | hx
          · exact ⟨h1, h2⟩
          · exact ha x hx
        · rw [List.map_cons, ← hb, ← h3]

/-- The `map` of `handleSave` does not throw on rows none of which is `null` or
`undefined`. -/
theorem savedRows_of_rows (cell : EditingCell) (v : Value) (rows : List Value)
    (h : ∀ row ∈ rows, row ≠ .null ∧ row ≠ .undefined) :
    savedRows cell v rows = .ok (rows.map (fun row =>
      if (row.optGet "id").strictEq cell.rowId then row.spreadSet cell.field v else row)) := by
  induction rows with
  | nil => rfl
  | cons row rest ih =>
    have hrow := h row (List.mem_cons_self _ _)
    have hrest := ih (fun x hx => h x (List.mem_cons_of_mem _ hx))
    unfold savedRows
    rw [hrest]
    simp [savedRow, Calculator.get_eq_optGet "id" hrow.1 hrow.2, bind, Except.bind, pure,
      Except.pure]

/-- The data the updater of `handleSave` returns, when it does not throw: the old
data is an object whose table is an array, and the new data is that object with
the table replaced by the mapped rows. -/
theorem savedData_ok {cell : EditingCell} {v prev data : Value}
    (h : savedData cell v prev = .ok data) :
    ∃ fields rows, prev = .obj fields ∧ lookupField cell.table fields = .arr rows ∧
      (∀ row ∈ rows, row ≠ .null ∧ row ≠ .undefined) ∧
      data = .obj (setField fields cell.table (.arr (rows.map (fun row =>
        if (row.optGet "id").strictEq cell.rowId then row.spreadSet cell.field v
        else row)))) := by
  unfold savedData at h
  cases prev with
  | obj fields =>
    simp only [Value.get, bind, Except.bind] at h
    cases hl : lookupField cell.table fields with
    | arr rows =>
      simp only [hl, Value.elements] at h
      cases hs : savedRows cell v rows with
      | error e => simp [hs] at h
      | ok saved =>
        simp only [hs, pure, Except.pure, Except.ok.injEq] at h
        obtain ⟨h1, h2⟩ := savedRows_ok hs
        exact ⟨fields, rows, rfl, hl, h1, by rw [← h, h2]; rfl⟩
    | _ => simp [hl, Value.elements] at h
  | _ => simp [Value.get, Value.elements, bind, Except.bind] at h

/-- The state `handleSave` leaves, by cases: no cell is being edited; the update
was rejected; the update resolved and the updater returned the new data. -/
theorem handleSave_cases (fetch : Api.Fetch) (s s1 : State)
    (h : (handleSave fetch s).1 = .ok s1) :
    (s.editingCell = none ∧ s1 = s) ∨
      (∃ cell, s.editingCell = some cell ∧
        ((s1 = { showNotification "Error saving" "error" s with editingCell := none }) ∨
          ∃ data, savedData cell (newValue cell.field s.editValue) s.data = .ok data ∧
            s1 = { showNotification (if s.language = .el then "Αποθηκεύτηκε" else "Saved")
                "success" { s with data := data } with editingCell := none })) := by
  unfold handleSave at h
  cases hc : s.editingCell with
  | none =>
    simp only [hc, Except.ok.injEq] at h
    exact Or.inl ⟨rfl, h.symm⟩
  | some cell =>
    right
    refine ⟨cell, rfl, ?_⟩
    simp only [hc, handleSaveEnd] at h
    cases hu : Api.updateRecord fetch cell.table cell.rowId
        (.obj [(cell.field, newValue cell.field s.editValue)]) with
    | error e =>
      simp only [hu, Except.ok.injEq] at h
      exact Or.inl h.symm
    | ok response =>
      simp only [hu] at h
      cases hd : savedData cell (newValue cell.field s.editValue) s.data with
      | error e => simp [hd] at h
      | ok data =>
        simp only [hd, Except.ok.injEq] at h
        exact Or.inr ⟨data, rfl, h.symm⟩

/-- A row that satisfies a constraint on one of its fields still does after the
callback of `handleSave`, provided the new value satisfies it when that field is
the edited one. -/
theorem savedRow_keeps (cell : EditingCell) (v row : Value) (key : String)
    (hrow : Spec.atLeastOne (row.optGet key))
    (hv : cell.field = key → Spec.atLeastOne v) :
    Spec.atLeastOne
      ((if (row.optGet "id").strictEq cell.rowId then row.spreadSet cell.field v
        else row).optGet key) := by
  split
  · by_cases hf : cell.field = key
    · have hread : (row.spreadSet cell.field v).optGet key = v := by
        rw [← hf]
        exact lookupField_setField_same _ _ _
      rw [hread]
      exact hv hf
    · have hread : (row.spreadSet cell.field v).optGet key = row.optGet key := by
        cases row with
        | obj fields => exact lookupField_setField_ne _ _ (Ne.symm hf)
        | _ =>
          obtain ⟨k, _, hk⟩ := hrow
          simp [Value.optGet] at hk
      rw [hread]
      exact hrow
  · exact hrow

/-- A constraint on one field of the rows of one table still holds after the
updater of `handleSave`, provided the new value satisfies it when that field is
the edited one. -/
theorem savedData_keeps {cell : EditingCell} {v prev data : Value} (table key : String)
    (h : savedData cell v prev = .ok data)
    (hprev : ∀ rows, prev.optGet table = .arr rows →
      ∀ row ∈ rows, Spec.atLeastOne (row.optGet key))
    (hv : cell.field = key → Spec.atLeastOne v) :
    ∀ rows, data.optGet table = .arr rows → ∀ row ∈ rows, Spec.atLeastOne (row.optGet key) := by
  obtain ⟨fields, old, rfl, hold, _, rfl⟩ := savedData_ok h
  intro rows hrows row hmem
  by_cases ht : table = cell.table
  · subst ht
    rw [optGet_setField_same] at hrows
    cases hrows
    obtain ⟨r, hr, rfl⟩ := List.mem_map.mp hmem
    exact savedRow_keeps cell v r key (hprev old hold r hr) hv
  · rw [optGet_setField_ne fields _ ht] at hrows
    exact hprev rows hrows row hmem

/-- The sample catalog satisfies the constraints of the data model. -/
theorem catalogOk_sampleData : Spec.catalogOk sampleData := by
  constructor
  · intro rows hrows row hrow
    have hdata : sampleData.optGet "categories" =
        .arr [ .obj [ ("id", .num (.fin 1)), ("name", .str "Two sashes"),
                      ("num_glasses", .num (.fin 2)),
                      ("has_special_calculation", .bool false) ] ] := by decide!
    rw [hdata] at hrows
    cases hrows
    rw [List.mem_singleton.mp hrow]
    exact ⟨2, by norm_num, by simp [Value.optGet, lookupField]⟩
  · intro rows hrows row hrow
    have hdata : sampleData.optGet "series_category_params" =
        .arr [ .obj [ ("id", .num (.fin 1)), ("series_id", .num (.fin 1)),
                      ("category_id", .num (.fin 1)), ("gw_divisor", .num (.fin 2)),
                      ("gw_offset", .num (.fin 20)), ("gh_offset", .num (.fin 20)),
                      ("narrow_gw_offset", .null) ] ] := by decide!
    rw [hdata] at hrows
    cases hrows
    rw [List.mem_singleton.mp hrow]
    exact ⟨2, by norm_num, by simp [Value.optGet, lookupField]⟩

/-- C17 as stated fails. In the sample editor, whose catalog satisfies the
constraints, typing `0` into the `num_glasses` cell of category 1 and saving sends
`updateRecord('categories', 1, { num_glasses: 0 })` and stores `0` in the local
data; `0` is not an integer that is at least 1. -/
theorem handleSave_stores_zero_glasses :
    Spec.catalogOk editingGlasses.data ∧
      (handleSave Api.accepting editingGlasses).2 =
        [Api.updateRequest "categories" (.num (.fin 1)) (.obj [("num_glasses", .num (.fin 0))])] ∧
      (handleSave Api.accepting editingGlasses).1.toOption.map
          (fun s1 => s1.data.optGet "categories") =
        some (.arr
          [ .obj [ ("id", .num (.fin 1)), ("name", .str "Two sashes"),
                   ("num_glasses", .num (.fin 0)), ("has_special_calculation", .bool false) ] ]) ∧
      ¬ Spec.atLeastOne (.num (.fin 0)) := by
  refine ⟨catalogOk_sampleData, by decide!, by decide!, ?_⟩
  · rintro ⟨k, hk, h⟩
    simp only [Value.num.injEq, Number.fin.injEq] at h
    have : (k : ℚ) = 0 := h.symm
    have hk0 : k = 0 := by exact_mod_cast this
    omega

/-- C17, amended. The function `handleSave` checks nothing: for a `num_glasses` or
`gw_divisor` cell it sends, and stores, `null` for an empty text and otherwise the
number the text parses to. A catalog edit saved through `handleSave` preserves the
constraints of the data model (every category's `num_glasses` and every parameter
row's `gw_divisor` an integer that is at least 1) whenever the value so computed
for such a cell is an integer that is at least 1. -/
theorem handleSave_keeps_constraints (fetch : Api.Fetch) (s : State) (cell : EditingCell)
    (hcell : s.editingCell = some cell) (hok : Spec.catalogOk s.data)
    (hvalue : cell.field = "num_glasses" ∨ cell.field = "gw_divisor" →
      Spec.atLeastOne (newValue cell.field s.editValue)) :
    (handleSave fetch s).2 =
        [Api.updateRequest cell.table cell.rowId
          (.obj [(cell.field, newValue cell.field s.editValue)])] ∧
      (∀ text, newValue "num_glasses" text =
          (if text = "" then .null else .num (parseFloat (replaceComma text))) ∧
        newValue "gw_divisor" text =
          (if text = "" then .null else .num (parseFloat (replaceComma text)))) ∧
      (∀ s1, (handleSave fetch s).1 = .ok s1 → Spec.catalogOk s1.data) := by
  refine ⟨?_, ?_, ?_⟩
  · simp [handleSave, hcell]
  · intro text
    constructor <;> simp [newValue, numericFields]
  · intro s1 h1
    rcases handleSave_cases fetch s s1 h1 with ⟨hnone, _⟩ | ⟨c, hc, hcase⟩
    · rw [hcell] at hnone
      cases hnone
    · rw [hcell] at hc
      cases hc
      rcases hcase with rfl | ⟨data, hdata, rfl⟩
      · exact hok
      · exact ⟨savedData_keeps "categories" "num_glasses" hdata hok.1
            (fun hf => hvalue (Or.inl hf)),
          savedData_keeps "series_category_params" "gw_divisor" hdata hok.2
            (fun hf => hvalue (Or.inr hf))⟩

/-- C17, amended, on the sample editor with `3` typed into the `num_glasses` cell
of category 1: the save goes through and the catalog still satisfies the
constraints. -/
theorem handleSave_keeps_constraints_witness :
    Spec.catalogOk editingGlassesThree.data ∧
      Spec.atLeastOne (newValue "num_glasses" editingGlassesThree.editValue) ∧
      ∃ s1, (handleSave Api.accepting editingGlassesThree).1 = .ok s1 ∧
        Spec.catalogOk s1.data := by
  have hthree : Spec.atLeastOne (newValue "num_glasses" editingGlassesThree.editValue) := by
    refine ⟨3, by norm_num, ?_⟩
    have h : newValue "num_glasses" editingGlassesThree.editValue = .num (.fin 3) := by decide!
    rw [h]
    norm_num
  obtain ⟨s1, hs1⟩ : ∃ s1, (handleSave Api.accepting editingGlassesThree).1 = .ok s1 :=
    Calculator.exists_ok_of_isSome (by decide!)
  exact ⟨catalogOk_sampleData, hthree, s1, hs1,
    (handleSave_keeps_constraints Api.accepting editingGlassesThree _ rfl catalogOk_sampleData
      (fun _ => hthree)).2.2 s1 hs1⟩

/-- The first id of a list, or `1`, is never `null`. -/
theorem firstId_ne_null {data v : Value} {list : String} (h : firstId data list = .ok v) :
    v ≠ .null := by
  unfold firstId at h
  cases h1 : data.get list with
  | error e => simp [h1, bind, Except.bind] at h
  | ok rows =>
    cases h2 : rows.first with
    | error e => simp [h1, h2, bind, Except.bind] at h
    | ok first =>
      simp only [h1, h2, bind, Except.bind, pure, Except.pure, Except.ok.injEq] at h
      rw [← h]
      unfold Value.or
      split
      · next ht =>
        intro hnull
        rw [hnull] at ht
        exact absurd ht (by decide)
      · intro hnull
        cases hnull

/-- C18 as stated fails. The row `addNewRow('series')` builds has `null` under
`uf1`, `uf2`, `e` and `f` as well as under `e_narrow` and `f_narrow`; the first
four are not among the fields the data model marks nullable. -/
theorem newRow_series_nulls :
    (newRow sampleData "series").toOption.map Spec.nullFields =
        some ["uf1", "uf2", "e", "f", "e_narrow", "f_narrow"] ∧
      "uf1" ∉ Spec.nullable ∧ "uf2" ∉ Spec.nullable ∧ "e" ∉ Spec.nullable ∧
      "f" ∉ Spec.nullable := by
  decide!

/-- The expression `data[list][0]?.id || 1` on local data that holds the list: the
id of its first row when that is truthy, and 1 otherwise, also for an empty
list. -/
theorem firstId_of_rows (fields : List (String × Value)) (list : String) :
    (lookupField list fields = .arr [] → firstId (.obj fields) list = .ok (.num (.fin 1))) ∧
      (∀ first rest, lookupField list fields = .arr (first :: rest) →
        firstId (.obj fields) list = .ok ((first.optGet "id").or (.num (.fin 1)))) := by
  have hlit1 : lit 1 = .fin 1 := by decide!
  constructor
  · intro h
    simp [firstId, Value.get, h, Value.first, Value.optGet, Value.or, Value.truthy, bind,
      Except.bind, pure, Except.pure, hlit1]
  · intro first rest h
    simp [firstId, Value.get, h, Value.first, bind, Except.bind, pure, Except.pure, hlit1]

/-- C18, amended. The row templates of `addNewRow`, whatever the local data. The
new series row is `name: 'New Series'`, `code: 'NEW'`, `a`, `b` and `x` 0, and
`uf1`, `uf2`, `e` and `f` `null` as well as `e_narrow` and `f_narrow`. The new
category row is `name: 'New Category'`, `num_glasses: 2`,
`has_special_calculation: false`, with nothing `null`. The new driver row is
`series_id` and `name: 'New Driver'`, with nothing `null`; the new sash row is
`series_id`, `name: 'New Sash'` and `b_override: null`, the only `null`; the new
parameter row is `series_id`, `category_id`, `gw_divisor: 2`, `gw_offset: 0`,
`gh_offset: 0` and `narrow_gw_offset: null`, the only `null`. In these three,
`series_id` and `category_id` are `data.series[0]?.id || 1` and
`data.categories[0]?.id || 1`, never `null`: the id of the first local row when
that is truthy, and 1 otherwise. -/
theorem newRow_templates (data : Value) :
    (newRow data "series").toOption.map Spec.nullFields =
        some ["uf1", "uf2", "e", "f", "e_narrow", "f_narrow"] ∧
      (newRow data "categories").toOption.map
          (fun row => (Spec.nullFields row, row.optGet "num_glasses")) =
        some ([], .num (.fin 2)) ∧
      (∀ row, newRow data "drivers" = .ok row → Spec.nullFields row = []) ∧
      (∀ row, newRow data "sashes" = .ok row → Spec.nullFields row = ["b_override"]) ∧
      (∀ row, newRow data "series_category_params" = .ok row →
        Spec.nullFields row = ["narrow_gw_offset"] ∧
          row.optGet "gw_divisor" = .num (.fin 2)) ∧
      Spec.atLeastOne (.num (.fin 2)) ∧
      newRow data "series" =
        .ok (.obj
          [ ("name", .str "New Series"), ("code", .str "NEW"), ("a", .num (.fin 0)),
            ("b", .num (.fin 0)), ("x", .num (.fin 0)), ("uf1", .null), ("uf2", .null),
            ("e", .null), ("f", .null), ("e_narrow", .null), ("f_narrow", .null) ]) ∧
      newRow data "categories" =
        .ok (.obj
          [ ("name", .str "New Category"), ("num_glasses", .num (.fin 2)),
            ("has_special_calculation", .bool false) ]) ∧
      (∀ row, newRow data "drivers" = .ok row →
        ∃ series_id, firstId data "series" = .ok series_id ∧ series_id ≠ .null ∧
          row = .obj [("series_id", series_id), ("name", .str "New Driver")]) ∧
      (∀ row, newRow data "sashes" = .ok row →
        ∃ series_id, firstId data "series" = .ok series_id ∧ series_id ≠ .null ∧
          row = .obj [("series_id", series_id), ("name", .str "New Sash"),
            ("b_override", .null)]) ∧
      (∀ row, newRow data "series_category_params" = .ok row →
        ∃ series_id category_id, firstId data "series" = .ok series_id ∧
          firstId data "categories" = .ok category_id ∧ series_id ≠ .null ∧
          category_id ≠ .null ∧
          row = .obj
            [ ("series_id", series_id), ("category_id", category_id),
              ("gw_divisor", .num (.fin 2)), ("gw_offset", .num (.fin 0)),
              ("gh_offset", .num (.fin 0)), ("narrow_gw_offset", .null) ]) ∧
      (∀ (fields : List (String × Value)) (list : String),
        (lookupField list fields = .arr [] →
          firstId (.obj fields) list = .ok (.num (.fin 1))) ∧
        (∀ first rest, lookupField list fields = .arr (first :: rest) →
          firstId (.obj fields) list = .ok ((first.optGet "id").or (.num (.fin 1))))) := by
  have hlit2 : lit 2 = .fin 2 := by decide!
  have hlit0 : lit 0 = .fin 0 := by decide!
  have hseries : newRow data "series" = newRow .undefined "series" := rfl
  have hcategories : newRow data "categories" = newRow .undefined "categories" := rfl
  have hdrivers : ∀ row, newRow data "drivers" = .ok row →
      ∃ series_id, firstId data "series" = .ok series_id ∧ series_id ≠ .null ∧
        row = .obj [("series_id", series_id), ("name", .str "New Driver")] := by
    intro row hrow
    have hnew : newRow data "drivers" =
        (firstId data "series").bind (fun series_id =>
          .ok (.obj [("series_id", series_id), ("name", .str "New Driver")])) := by
      simp [newRow, bind, pure, Except.pure]
    rw [hnew] at hrow
    cases hid : firstId data "series" with
    | error e => simp [hid, Except.bind] at hrow
    | ok id =>
      simp only [hid, Except.bind, Except.ok.injEq] at hrow
      exact ⟨id, rfl, firstId_ne_null hid, hrow.symm⟩
  have hsashes : ∀ row, newRow data "sashes" = .ok row →
      ∃ series_id, firstId data "series" = .ok series_id ∧ series_id ≠ .null ∧
        row = .obj [("series_id", series_id), ("name", .str "New Sash"),
          ("b_override", .null)] := by
    intro row hrow
    have hnew : newRow data "sashes" =
        (firstId data "series").bind (fun series_id =>
          .ok (.obj [("series_id", series_id), ("name", .str "New Sash"),
            ("b_override", .null)])) := by
      simp [newRow, bind, pure, Except.pure]
    rw [hnew] at hrow
    cases hid : firstId data "series" with
    | error e => simp [hid, Except.bind] at hrow
    | ok id =>
      simp only [hid, Except.bind, Except.ok.injEq] at hrow
      exact ⟨id, rfl, firstId_ne_null hid, hrow.symm⟩
  have hparams : ∀ row, newRow data "series_category_params" = .ok row →
      ∃ series_id category_id, firstId data "series" = .ok series_id ∧
        firstId data "categories" = .ok category_id ∧ series_id ≠ .null ∧
        category_id ≠ .null ∧
        row = .obj
          [ ("series_id", series_id), ("category_id", category_id),
            ("gw_divisor", .num (.fin 2)), ("gw_offset", .num (.fin 0)),
            ("gh_offset", .num (.fin 0)), ("narrow_gw_offset", .null) ] := by
    intro row hrow
    have hnew : newRow data "series_category_params" =
        (firstId data "series").bind (fun series_id =>
          (firstId data "categories").bind (fun category_id =>
            .ok (.obj
              [ ("series_id", series_id), ("category_id", category_id),
                ("gw_divisor", .num (lit 2)), ("gw_offset", .num (lit 0)),
                ("gh_offset", .num (lit 0)), ("narrow_gw_offset", .null) ]))) := by
      simp [newRow, bind, pure, Except.pure]
    rw [hnew] at hrow
    cases hid : firstId data "series" with
    | error e => simp [hid, Except.bind] at hrow
    | ok id =>
      cases hcid : firstId data "categories" with
      | error e => simp [hid, hcid, Except.bind] at hrow
      | ok cid =>
        simp only [hid, hcid, Except.bind, Except.ok.injEq, hlit2, hlit0] at hrow
        exact ⟨id, cid, rfl, rfl, firstId_ne_null hid, firstId_ne_null hcid, hrow.symm⟩
  refine ⟨by rw [hseries]; decide!, by rw [hcategories]; decide!, ?_, ?_, ?_,
    ⟨2, by norm_num, by norm_num⟩, by rw [hseries]; decide!, by rw [hcategories]; decide!,
    hdrivers, hsashes, hparams, firstId_of_rows⟩
  · intro row hrow
    obtain ⟨id, _, hne, rfl⟩ := hdrivers row hrow
    simp [Spec.nullFields, Value.ownFields, hne]
  · intro row hrow
    obtain ⟨id, _, hne, rfl⟩ := hsashes row hrow
    simp [Spec.nullFields, Value.ownFields, hne]
  · intro row hrow
    obtain ⟨id, cid, _, _, hne, hcne, rfl⟩ := hparams row hrow
    simp [Spec.nullFields, Value.ownFields, Value.optGet, lookupField, hne, hcne]

/-- C18, amended, on the sample catalog, whose first series and first category have
the id 1: the new series row, and the new sash row and the new parameter row with
`null` only under `b_override` and `narrow_gw_offset`. -/
theorem newRow_templates_witness :
    (∃ row, newRow sampleData "sashes" = .ok row ∧ Spec.nullFields row = ["b_override"]) ∧
      (∃ row, newRow sampleData "series_category_params" = .ok row ∧
        Spec.nullFields row = ["narrow_gw_offset"]) ∧
      newRow sampleData "series" =
        .ok (.obj
          [ ("name", .str "New Series"), ("code", .str "NEW"), ("a", .num (.fin 0)),
            ("b", .num (.fin 0)), ("x", .num (.fin 0)), ("uf1", .null), ("uf2", .null),
            ("e", .null), ("f", .null), ("e_narrow", .null), ("f_narrow", .null) ]) ∧
      newRow sampleData "sashes" =
        .ok (.obj [("series_id", .num (.fin 1)), ("name", .str "New Sash"),
          ("b_override", .null)]) ∧
      newRow sampleData "series_category_params" =
        .ok (.obj
          [ ("series_id", .num (.fin 1)), ("category_id", .num (.fin 1)),
            ("gw_divisor", .num (.fin 2)), ("gw_offset", .num (.fin 0)),
            ("gh_offset", .num (.fin 0)), ("narrow_gw_offset", .null) ]) := by
  obtain ⟨r1, h1⟩ : ∃ row, newRow sampleData "sashes" = .ok row :=
    Calculator.exists_ok_of_isSome (by decide!)
  obtain ⟨r2, h2⟩ : ∃ row, newRow sampleData "series_category_params" = .ok row :=
    Calculator.exists_ok_of_isSome (by decide!)
  have hseries : firstId sampleData "series" = .ok (.num (.fin 1)) := by decide!
  have hcategories : firstId sampleData "categories" = .ok (.num (.fin 1)) := by decide!
  obtain ⟨sid, hsid, _, hr1⟩ := (newRow_templates sampleData).2.2.2.2.2.2.2.2.2.1 r1 h1
  obtain ⟨sid2, cid2, hsid2, hcid2, _, _, hr2⟩ :=
    (newRow_templates sampleData).2.2.2.2.2.2.2.2.2.2.1 r2 h2
  rw [hseries, Except.ok.injEq] at hsid hsid2
  rw [hcategories, Except.ok.injEq] at hcid2
  subst hsid hsid2 hcid2
  exact ⟨⟨r1, h1, (newRow_templates sampleData).2.2.2.1 r1 h1⟩,
    ⟨r2, h2, ((newRow_templates sampleData).2.2.2.2.1 r2 h2).1⟩,
    (newRow_templates sampleData).2.2.2.2.2.2.1, h1.trans (congrArg Except.ok hr1),
    h2.trans (congrArg Except.ok hr2)⟩

/-- The value `handleSave` computes for a numeric field and for a text field. -/
theorem newValue_cases (field text : String) :
    (field ∈ numericFields →
        newValue field text =
          if text = "" then .null else .num (parseFloat (replaceComma text))) ∧
      (field ∉ numericFields → field ≠ "has_special_calculation" →
        newValue field text = .str text) := by
  constructor
  · intro hmem
    have hne : field ≠ "has_special_calculation" := by
      intro h
      rw [h] at hmem
      exact absurd hmem (by decide)
    simp [newValue, hmem, hne]
  · intro hmem hne
    simp [newValue, hmem, hne]

/-- C19. Enter saves exactly the edited cell. When `handleSave` runs for the
editing cell `(table, rowId, field)`, on local data whose table is an array of
rows (none of them `null` or `undefined`: the page that shows the cell maps over
it), and the update succeeds, it sends
`updateRecord(table, rowId, { [field]: v })`, where `v` is the edit text itself
for a text field, `null` for an empty numeric field and otherwise the number parsed
from the text with its first comma read as a decimal point (`1,5` gives 1.5).
Afterwards the local data is the old data with that table replaced by its rows,
each row whose `id` is `rowId` having `field` set to `v` and every other property
as before, every other row as before; every other table is as before,
`editingCell` is cleared, and the rest of the state but the notification is
unchanged. -/
theorem handleSave_saves_cell (fetch : Api.Fetch) (s : State) (cell : EditingCell)
    (response : Value) (fields : List (String × Value)) (rows : List Value)
    (hcell : s.editingCell = some cell)
    (hupdate : Api.updateRecord fetch cell.table cell.rowId
      (.obj [(cell.field, newValue cell.field s.editValue)]) = .ok response)
    (hdata : s.data = .obj fields) (htable : lookupField cell.table fields = .arr rows)
    (hrows : ∀ row ∈ rows, row ≠ .null ∧ row ≠ .undefined) :
    (handleSave fetch s).2 =
        [Api.updateRequest cell.table cell.rowId
          (.obj [(cell.field, newValue cell.field s.editValue)])] ∧
      (cell.field ∈ numericFields →
        newValue cell.field s.editValue =
          if s.editValue = "" then .null else .num (parseFloat (replaceComma s.editValue))) ∧
      (cell.field ∉ numericFields → cell.field ≠ "has_special_calculation" →
        newValue cell.field s.editValue = .str s.editValue) ∧
      parseFloat (replaceComma "1,5") = .fin (3 / 2) ∧
      (∃ s1, (handleSave fetch s).1 = .ok s1 ∧ s1.editingCell = none ∧
        s1.data.optGet cell.table =
          .arr (rows.map (fun row =>
            if (row.optGet "id").strictEq cell.rowId then
              row.spreadSet cell.field (newValue cell.field s.editValue)
            else row)) ∧
        (∀ table, table ≠ cell.table → s1.data.optGet table = s.data.optGet table) ∧
        (∃ others, s1.data = .obj others ∧ others.map Prod.fst = fields.map Prod.fst) ∧
        s1.loading = s.loading ∧ s1.activeTab = s.activeTab ∧ s1.editValue = s.editValue ∧
        s1.filterSeries = s.filterSeries ∧ s1.language = s.language) ∧
      (∀ (row : Value) (v : Value),
        (row.spreadSet cell.field v).optGet cell.field = v ∧
          ∀ key, key ≠ cell.field →
            (row.spreadSet cell.field v).optGet key = lookupField key row.ownFields) := by
  have hsaved : savedData cell (newValue cell.field s.editValue) s.data =
      .ok (.obj (setField fields cell.table (.arr (rows.map (fun row =>
        if (row.optGet "id").strictEq cell.rowId then
          row.spreadSet cell.field (newValue cell.field s.editValue)
        else row))))) := by
    unfold savedData
    simp only [hdata, Value.get, htable, Value.elements, bind, Except.bind,
      savedRows_of_rows cell _ rows hrows, pure, Except.pure]
    rfl
  have hkeys : ∀ (fs : List (String × Value)) (key : String) (v : Value),
      lookupField key fs ≠ .undefined →
      (setField fs key v).map Prod.fst = fs.map Prod.fst := by
    intro fs key v
    induction fs with
    | nil => intro h; exact absurd rfl h
    | cons p rest ih =>
      obtain ⟨k, w⟩ := p
      intro h
      by_cases hk : k = key
      · simp [setField, hk]
      · simp only [lookupField, hk, if_false] at h
        simp [setField, hk, ih h]
  refine ⟨by simp [handleSave, hcell], (newValue_cases _ _).1, (newValue_cases _ _).2,
    by decide!, ?_, ?_⟩
  · refine ⟨{ showNotification (if s.language = .el then "Αποθηκεύτηκε" else "Saved") "success"
        { s with data := .obj (setField fields cell.table (.arr (rows.map (fun row =>
          if (row.optGet "id").strictEq cell.rowId then
            row.spreadSet cell.field (newValue cell.field s.editValue)
          else row)))) } with editingCell := none }, ?_, ?_⟩
    · simp only [handleSave, hcell, handleSaveEnd, hupdate, hsaved]
    · refine ⟨rfl, optGet_setField_same _ _ _, ?_, ⟨_, rfl, ?_⟩, rfl, rfl, rfl, rfl, rfl⟩
      · intro table ht
        rw [hdata]
        exact optGet_setField_ne fields _ ht
      · exact hkeys fields cell.table _ (by rw [htable]; exact fun h => by cases h)
  · intro row v
    exact ⟨lookupField_setField_same _ _ _,
      fun key hkey => lookupField_setField_ne _ _ hkey⟩

/-- C19 on the sample editor with `1,5` typed into the `uf2` cell of series 1: the
request carries `uf2 = 1.5`, and so does series 1 afterwards. -/
theorem handleSave_saves_cell_witness :
    (handleSave Api.accepting editingUf2).2 =
        [Api.updateRequest "series" (.num (.fin 1)) (.obj [("uf2", .num (.fin (3 / 2)))])] ∧
      ∃ s1, (handleSave Api.accepting editingUf2).1 = .ok s1 ∧ s1.editingCell = none ∧
        s1.data.optGet "series" =
          .arr
            [ .obj [ ("id", .num (.fin 1)), ("name", .str "S500"), ("code", .str "S5"),
                     ("a", .num (.fin 5)), ("b", .num (.fin 8)), ("x", .num (.fin 3)),
                     ("uf1", .num (.fin 2)), ("uf2", .num (.fin (3 / 2))),
                     ("e", .num (.fin 10)), ("f", .num (.fin 10)), ("e_narrow", .null),
                     ("f_narrow", .null) ] ] := by
  have hrows : ∀ row ∈
      [ Value.obj [ ("id", .num (.fin 1)), ("name", .str "S500"), ("code", .str "S5"),
                    ("a", .num (.fin 5)), ("b", .num (.fin 8)), ("x", .num (.fin 3)),
                    ("uf1", .num (.fin 2)), ("uf2", .num (.fin (5 / 2))),
                    ("e", .num (.fin 10)), ("f", .num (.fin 10)), ("e_narrow", .null),
                    ("f_narrow", .null) ] ], row ≠ Value.null ∧ row ≠ Value.undefined := by
    intro row hrow
    rw [List.mem_singleton.mp hrow]
    exact ⟨nofun, nofun⟩
  obtain ⟨hreq, _, _, _, ⟨s1, hs1, hedit, htable, _⟩, _⟩ :=
    handleSave_saves_cell Api.accepting editingUf2
      { table := "series", rowId := .num (.fin 1), field := "uf2" } (.obj []) _ _ rfl rfl rfl rfl
      hrows
  refine ⟨?_, s1, hs1, hedit, ?_⟩
  · rw [hreq]
    decide!
  · rw [htable]
    decide!

/-- C20. Esc cancels an edit. In every admin state, whatever cell is being edited
and whatever text was typed, handling the Escape key clears `editingCell`, issues
no request (no `updateRecord`), and leaves the table data and the rest of the
state unchanged. -/
theorem escape_cancels (fetch : Api.Fetch) (s : State) :
    (handleKeyDown fetch "Escape" s).2 = [] ∧
      (handleKeyDown fetch "Escape" s).1 = .ok { s with editingCell := none } ∧
      ∀ s1, (handleKeyDown fetch "Escape" s).1 = .ok s1 →
        s1.editingCell = none ∧ s1.data = s.data ∧ s1.editValue = s.editValue ∧
          s1.notification = s.notification ∧ s1.loading = s.loading ∧
          s1.activeTab = s.activeTab ∧ s1.filterSeries = s.filterSeries := by
  have h : handleKeyDown fetch "Escape" s = (.ok { s with editingCell := none }, []) := by
    simp [handleKeyDown]
  rw [h]
  refine ⟨rfl, rfl, ?_⟩
  intro s1 hs1
  simp only [Except.ok.injEq] at hs1
  subst hs1
  exact ⟨rfl, rfl, rfl, rfl, rfl, rfl, rfl⟩

end AdminInterface

namespace Calculator

open JS

/-- The calculation session runs from the initial state to the settled form. -/
theorem run_calculationSession : run State.init calculationSession = some settledForm := by
  decide!

/-- The last-results session runs from the initial state to step 6 of an empty
wizard. -/
theorem run_lastResultsSession : run State.init lastResultsSession = some skippedForm := by
  decide!

/-- A run of actions in two parts. -/
theorem run_append (s : State) (xs ys : List Action) :
    run s (xs ++ ys) = (run s xs).bind (fun s1 => run s1 ys) := by
  induction xs generalizing s with
  | nil => rfl
  | cons a rest ih =>
    simp only [List.cons_append, run]
    split
    · exact ih _
    · rfl

/-- Every reachable state is the end of a run of enabled actions from the initial
state. -/
theorem run_of_reachable {s : State} (h : Reachable s) :
    ∃ actions, run State.init actions = some s := by
  induction h with
  | init => exact ⟨[], rfl⟩
  | step s a _ he ih =>
    obtain ⟨actions, hrun⟩ := ih
    refine ⟨actions ++ [a], ?_⟩
    rw [run_append, hrun]
    simp [run, he]

/-- The synchronous part of `handleCalculate` touches neither the step nor the
results nor the selections. -/
theorem handleCalculateBegin_frame (s : State) :
    (handleCalculateBegin s).1.step = s.step ∧
      (handleCalculateBegin s).1.results = s.results ∧
      (handleCalculateBegin s).1.selectedType = s.selectedType ∧
      (handleCalculateBegin s).1.selectedSeries = s.selectedSeries ∧
      (handleCalculateBegin s).1.selectedCategory = s.selectedCategory ∧
      (handleCalculateBegin s).1.selectedDriver = s.selectedDriver ∧
      (handleCalculateBegin s).1.selectedSash = s.selectedSash := by
  rcases handleCalculateBegin_cases s with ⟨_, hb⟩ | ⟨_, _, _, hb⟩ | ⟨_, _, _, hb⟩ <;>
    rw [hb] <;> exact ⟨rfl, rfl, rfl, rfl, rfl, rfl, rfl⟩

/-- A truthy value is not `null`. -/
theorem ne_null_of_truthy {v : Value} (h : v.truthy = true) : v ≠ .null := by
  intro hv
  rw [hv] at h
  exact absurd h (by decide)

/-- The function `canProceed()` returns a truthy value at steps 1 to 6 only. -/
theorem step_of_canProceed (s : State) (h : (canProceed s).truthy = true) :
    (s.step = 1 ∧ s.selectedType ≠ .null) ∨ (s.step = 2 ∧ s.selectedSeries ≠ .null) ∨
      (s.step = 3 ∧ s.selectedCategory ≠ .null) ∨ (s.step = 4 ∧ s.selectedDriver ≠ .null) ∨
      (s.step = 5 ∧ s.selectedSash ≠ .null) ∨ s.step = 6 := by
  unfold canProceed at h
  split at h
  · next h1 => exact Or.inl ⟨h1, by simpa [Value.truthy] using h⟩
  split at h
  · next h1 => exact Or.inr (Or.inl ⟨h1, by simpa [Value.truthy] using h⟩)
  split at h
  · next h1 => exact Or.inr (Or.inr (Or.inl ⟨h1, by simpa [Value.truthy] using h⟩))
  split at h
  · next h1 => exact Or.inr (Or.inr (Or.inr (Or.inl ⟨h1, by simpa [Value.truthy] using h⟩)))
  split at h
  · next h1 =>
    exact Or.inr (Or.inr (Or.inr (Or.inr (Or.inl ⟨h1, by simpa [Value.truthy] using h⟩))))
  split at h
  · next h1 => exact Or.inr (Or.inr (Or.inr (Or.inr (Or.inr h1))))
  · exact absurd h (by decide)

/-- The flow is kept by every enabled action but Back on the results step: a
selection changes only on its own step, Next needs the selection of the step it
leaves, and every other way to the results step or to step 1 leaves the steps 2 to
6. -/
theorem flow_apply (s : State) (a : Action) (hflow : Spec.flow s) (he : enabled s a = true)
    (hback : ¬(a = .back ∧ s.step = 7)) : Spec.flow (a.apply s) := by
  unfold Spec.flow at hflow ⊢
  cases a with
  | selectType item =>
    simp only [enabled, Bool.and_eq_true, decide_eq_true_eq] at he
    intro hstep
    simp only [Action.apply] at hstep
    omega
  | selectSeries item =>
    simp only [enabled, Bool.and_eq_true, decide_eq_true_eq] at he
    intro hstep
    simp only [Action.apply] at hstep ⊢
    obtain ⟨h1, _, h3, h4, h5⟩ := hflow hstep
    exact ⟨h1, fun h => by omega, h3, h4, h5⟩
  | selectCategory item =>
    simp only [enabled, Bool.and_eq_true, decide_eq_true_eq] at he
    intro hstep
    simp only [Action.apply] at hstep ⊢
    obtain ⟨h1, h2, _, h4, h5⟩ := hflow hstep
    exact ⟨h1, h2, fun h => by omega, h4, h5⟩
  | selectDriver item =>
    simp only [enabled, Bool.and_eq_true, decide_eq_true_eq] at he
    intro hstep
    simp only [Action.apply] at hstep ⊢
    obtain ⟨h1, h2, h3, _, h5⟩ := hflow hstep
    exact ⟨h1, h2, h3, fun h => by omega, h5⟩
  | selectSash item =>
    simp only [enabled, Bool.and_eq_true, decide_eq_true_eq] at he
    intro hstep
    simp only [Action.apply] at hstep ⊢
    obtain ⟨h1, h2, h3, h4, _⟩ := hflow hstep
    exact ⟨h1, h2, h3, h4, fun h => by omega⟩
  | changePlaisioHeight value => exact hflow
  | changePlaisioWidth value => exact hflow
  | changeUgValue value => exact hflow
  | changePsiValue value => exact hflow
  | changeIsNarrow checked => exact hflow
  | changeHasRolo checked => exact hflow
  | changeRoloHeight value => exact hflow
  | changeUrValue value => exact hflow
  | next =>
    simp only [enabled, Bool.and_eq_true, decide_eq_true_eq] at he
    obtain ⟨hlt, hc⟩ := he
    intro hstep
    simp only [Action.apply] at hstep ⊢
    rcases step_of_canProceed s hc with ⟨h, hsel⟩ | ⟨h, hsel⟩ | ⟨h, hsel⟩ | ⟨h, hsel⟩ |
      ⟨h, hsel⟩ | h
    · exact ⟨hsel, fun _ => by omega, fun _ => by omega, fun _ => by omega, fun _ => by omega⟩
    · obtain ⟨h1, _⟩ := hflow (by omega)
      exact ⟨h1, fun _ => hsel, fun _ => by omega, fun _ => by omega, fun _ => by omega⟩
    · obtain ⟨h1, h2, _⟩ := hflow (by omega)
      exact ⟨h1, fun _ => h2 (by omega), fun _ => hsel, fun _ => by omega, fun _ => by omega⟩
    · obtain ⟨h1, h2, h3, _⟩ := hflow (by omega)
      exact ⟨h1, fun _ => h2 (by omega), fun _ => h3 (by omega), fun _ => hsel,
        fun _ => by omega⟩
    · obtain ⟨h1, h2, h3, h4, _⟩ := hflow (by omega)
      exact ⟨h1, fun _ => h2 (by omega), fun _ => h3 (by omega), fun _ => h4 (by omega),
        fun _ => hsel⟩
    · omega
  | back =>
    have h7 : s.step ≠ 7 := fun h => hback ⟨rfl, h⟩
    simp only [enabled, Bool.or_eq_true, Bool.and_eq_true, decide_eq_true_eq] at he
    have hb : handleBack s = { s with step := s.step - 1 } := by
      simp [handleBack, h7]
    intro hstep
    simp only [Action.apply, hb] at hstep ⊢
    obtain ⟨h1, h2, h3, h4, _⟩ := hflow (by omega)
    exact ⟨h1, fun _ => h2 (by omega), fun _ => h3 (by omega), fun _ => h4 (by omega),
      fun _ => by omega⟩
  | calculate =>
    obtain ⟨h0, _, h1, h2, h3, h4, h5⟩ := handleCalculateBegin_frame s
    simp only [Action.apply, h0, h1, h2, h3, h4, h5]
    exact hflow
  | calculateSettled outcome =>
    cases outcome with
    | error err => exact hflow
    | ok result =>
      intro hstep
      simp only [Action.apply, handleCalculateEnd] at hstep
      omega
  | newCalculation =>
    intro hstep
    simp only [Action.apply, resetCalculator] at hstep
    omega
  | showLastResults =>
    simp only [enabled] at he
    intro hstep
    rw [(showLastResults_apply s he).1] at hstep
    omega
  | setLanguage language => exact hflow
  | loaded which data => cases which <;> exact hflow
  | loadFailed which => exact hflow
  | remount =>
    intro hstep
    simp only [Action.apply, showResultsEffect, State.mount] at hstep
    split at hstep <;> simp at hstep
  | staleSettled outcome => cases outcome <;> exact hflow

/-- The step counter after an enabled action, when it was in range before. -/
theorem step_apply (s : State) (a : Action) (hs : 1 ≤ s.step ∧ s.step ≤ 7)
    (he : enabled s a = true) : 1 ≤ (a.apply s).step ∧ (a.apply s).step ≤ 7 := by
  cases a with
  | selectType item => exact hs
  | selectSeries item => exact hs
  | selectCategory item => exact hs
  | selectDriver item => exact hs
  | selectSash item => exact hs
  | changePlaisioHeight value => exact hs
  | changePlaisioWidth value => exact hs
  | changeUgValue value => exact hs
  | changePsiValue value => exact hs
  | changeIsNarrow checked => exact hs
  | changeHasRolo checked => exact hs
  | changeRoloHeight value => exact hs
  | changeUrValue value => exact hs
  | next =>
    simp only [enabled, Bool.and_eq_true, decide_eq_true_eq] at he
    simp only [Action.apply]
    omega
  | back =>
    simp only [enabled, Bool.or_eq_true, Bool.and_eq_true, decide_eq_true_eq] at he
    have hb : (handleBack s).step = s.step - 1 := by
      simp only [handleBack]
    simp only [Action.apply, hb]
    omega
  | calculate =>
    simp only [Action.apply, (handleCalculateBegin_frame s).1]
    exact hs
  | calculateSettled outcome =>
    cases outcome with
    | error err => exact hs
    | ok result =>
      show (1 : ℤ) ≤ 7 ∧ (7 : ℤ) ≤ 7
      exact ⟨by decide, by decide⟩
  | newCalculation =>
    show (1 : ℤ) ≤ 1 ∧ (1 : ℤ) ≤ 7
    exact ⟨by decide, by decide⟩
  | showLastResults =>
    simp only [enabled] at he
    rw [(showLastResults_apply s he).1]
    exact ⟨by decide, by decide⟩
  | setLanguage language => exact hs
  | loaded which data => cases which <;> exact hs
  | loadFailed which => exact hs
  | remount =>
    simp only [Action.apply, showResultsEffect, State.mount]
    split
    · show (1 : ℤ) ≤ 7 ∧ (7 : ℤ) ≤ 7
      exact ⟨by decide, by decide⟩
    · show (1 : ℤ) ≤ 1 ∧ (1 : ℤ) ≤ 7
      exact ⟨by decide, by decide⟩
  | staleSettled outcome => cases outcome <;> exact hs

/-- The results are held exactly on the results step after an enabled action, when
they were before and the action does not deliver `null` as a calculation result. -/
theorem results_apply (s : State) (a : Action) (hs : s.results ≠ .null ↔ s.step = 7)
    (he : enabled s a = true) (hr : ∀ r, a = .calculateSettled (.ok r) → r ≠ .null) :
    (a.apply s).results ≠ .null ↔ (a.apply s).step = 7 := by
  cases a with
  | selectType item => exact hs
  | selectSeries item => exact hs
  | selectCategory item => exact hs
  | selectDriver item => exact hs
  | selectSash item => exact hs
  | changePlaisioHeight value => exact hs
  | changePlaisioWidth value => exact hs
  | changeUgValue value => exact hs
  | changePsiValue value => exact hs
  | changeIsNarrow checked => exact hs
  | changeHasRolo checked => exact hs
  | changeRoloHeight value => exact hs
  | changeUrValue value => exact hs
  | next =>
    simp only [enabled, Bool.and_eq_true, decide_eq_true_eq] at he
    simp only [Action.apply]
    constructor
    · intro h
      have := hs.mp h
      omega
    · intro h
      omega
  | back =>
    simp only [enabled, Bool.or_eq_true, Bool.and_eq_true, decide_eq_true_eq] at he
    simp only [Action.apply, handleBack]
    by_cases h7 : s.step = 7
    · simp [h7]
    · simp only [h7, if_false]
      constructor
      · intro h
        exact absurd (hs.mp h) h7
      · intro h
        omega
  | calculate =>
    simp only [Action.apply, (handleCalculateBegin_frame s).1, (handleCalculateBegin_frame s).2.1]
    exact hs
  | calculateSettled outcome =>
    cases outcome with
    | error err => exact hs
    | ok result =>
      show result ≠ .null ↔ (7 : ℤ) = 7
      exact ⟨fun _ => rfl, fun _ => hr result rfl⟩
  | newCalculation =>
    show Value.null ≠ .null ↔ (1 : ℤ) = 7
    exact ⟨fun h => absurd rfl h, fun h => absurd h (by decide)⟩
  | showLastResults =>
    simp only [enabled] at he
    obtain ⟨h1, h2, _⟩ := showLastResults_apply s he
    rw [h1, h2]
    exact ⟨fun _ => rfl, fun _ => ne_null_of_truthy he⟩
  | setLanguage language => exact hs
  | loaded which data => cases which <;> exact hs
  | loadFailed which => exact hs
  | remount =>
    simp only [Action.apply, showResultsEffect]
    split
    · next h =>
      simp only [Bool.and_eq_true] at h
      show s.ctx.lastResults ≠ .null ↔ (7 : ℤ) = 7
      exact ⟨fun _ => rfl, fun _ => ne_null_of_truthy h.2⟩
    · show Value.null ≠ .null ↔ (1 : ℤ) = 7
      exact ⟨fun h => absurd rfl h, fun h => absurd h (by decide)⟩
  | staleSettled outcome => cases outcome <;> exact hs

/-- The results are held exactly on the results step at the end of a run that
starts so and delivers no `null` as a calculation result. -/
theorem results_run (actions : List Action) (s s1 : State)
    (hs : s.results ≠ .null ↔ s.step = 7) (hrun : run s actions = some s1)
    (hr : ∀ r, Action.calculateSettled (.ok r) ∈ actions → r ≠ .null) :
    s1.results ≠ .null ↔ s1.step = 7 := by
  induction actions generalizing s with
  | nil =>
    simp only [run, Option.some.injEq] at hrun
    exact hrun ▸ hs
  | cons a rest ih =>
    simp only [run] at hrun
    split at hrun
    · next he =>
      refine ih _ (results_apply s a hs he ?_) hrun ?_
      · intro r ha
        exact hr r (ha ▸ List.mem_cons_self _ _)
      · intro r hmem
        exact hr r (List.mem_cons_of_mem _ hmem)
    · exact absurd hrun (by simp)

/-- The truth value of `a && b`. -/
theorem truthy_and (a b : Value) : (a.and b).truthy = (a.truthy && b.truthy) := by
  unfold Value.and
  cases h : a.truthy <;> simp [h]

/-- The truth value of `a || b`. -/
theorem truthy_or (a b : Value) : (a.or b).truthy = (a.truthy || b.truthy) := by
  unfold Value.or
  cases h : a.truthy <;> simp [h]

/-- C21. The wizard does not keep to the flow Type, Series, Category, Driver, Sash,
Parameters, Results. The session that makes a calculation, presses "New
calculation", then the "Last results" button of the header and then Back, all of
them enabled, ends at step 6 with no type, series, category, driver or sash
selected. There, once a frame height and width are typed in, the Calculate button
is enabled; pressing it sends no request and reports the `TypeError` of reading
`id` of `null`. -/
theorem back_from_last_results_skips_selections :
    run State.init lastResultsSession = some skippedForm ∧ Reachable skippedForm ∧
      skippedForm.step = 6 ∧ skippedForm.selectedType = .null ∧
      skippedForm.selectedSeries = .null ∧ skippedForm.selectedCategory = .null ∧
      skippedForm.selectedDriver = .null ∧ skippedForm.selectedSash = .null ∧
      ¬Spec.flow skippedForm ∧
      run skippedForm [.changePlaisioHeight "1500", .changePlaisioWidth "2000"] =
        some skippedFilledForm ∧
      enabled skippedFilledForm .calculate = true ∧
      handleCalculateRequests skippedFilledForm = [] ∧
      (handleCalculateBegin skippedFilledForm).1.error =
        some "Cannot read properties of null (reading 'id')" := by
  refine ⟨run_lastResultsSession,
    reachable_of_run lastResultsSession Reachable.init run_lastResultsSession,
    rfl, rfl, rfl, rfl, rfl, rfl, ?_, by decide!, by decide!, by decide!, by decide!⟩
  intro h
  exact (h ⟨by decide, by decide⟩).1 rfl

/-- C22. The function `canProceed()` gates each step on that step's input only. At
steps 1 to 5 it returns `true` when the type, series, category, driver or sash
respectively is selected (is not `null`) and `false` when it is not; at step 6 its
value is truthy exactly when `plaisioHeight` and `plaisioWidth` are both non-empty
and either `hasRolo` is false or `roloHeight` and `urValue` are both non-empty,
whatever `ugValue` is; at any other step it returns `false`. -/
theorem canProceed_gates (s : State) :
    (s.step = 1 → canProceed s = .bool (decide (s.selectedType ≠ .null))) ∧
      (s.step = 2 → canProceed s = .bool (decide (s.selectedSeries ≠ .null))) ∧
      (s.step = 3 → canProceed s = .bool (decide (s.selectedCategory ≠ .null))) ∧
      (s.step = 4 → canProceed s = .bool (decide (s.selectedDriver ≠ .null))) ∧
      (s.step = 5 → canProceed s = .bool (decide (s.selectedSash ≠ .null))) ∧
      (s.step = 6 →
        ((canProceed s).truthy = true ↔
          s.plaisioHeight ≠ "" ∧ s.plaisioWidth ≠ "" ∧
            (s.hasRolo = false ∨ (s.roloHeight ≠ "" ∧ s.urValue ≠ "")))) ∧
      (∀ ugValue, canProceed { s with ugValue := ugValue } = canProceed s) ∧
      (s.step < 1 ∨ 6 < s.step → canProceed s = .bool false) := by
  refine ⟨?_, ?_, ?_, ?_, ?_, ?_, fun _ => rfl, ?_⟩
  · intro h
    simp [canProceed, h]
  · intro h
    simp [canProceed, h]
  · intro h
    simp [canProceed, h]
  · intro h
    simp [canProceed, h]
  · intro h
    simp [canProceed, h]
  · intro h
    have hc : canProceed s =
        ((Value.str s.plaisioHeight).and (Value.str s.plaisioWidth)).and
          ((Value.bool (!s.hasRolo)).or ((Value.str s.roloHeight).and (Value.str s.urValue))) := by
      simp [canProceed, h]
    rw [hc, truthy_and, truthy_and, truthy_or, truthy_and]
    simp only [Value.truthy, Bool.and_eq_true, Bool.or_eq_true, decide_eq_true_eq,
      Bool.not_eq_true', and_assoc]
  · intro h
    have h1 : s.step ≠ 1 := by omega
    have h2 : s.step ≠ 2 := by omega
    have h3 : s.step ≠ 3 := by omega
    have h4 : s.step ≠ 4 := by omega
    have h5 : s.step ≠ 5 := by omega
    have h6 : s.step ≠ 6 := by omega
    simp [canProceed, h1, h2, h3, h4, h5, h6]

/-- C23. The step counter stays in range: in every state reachable from the initial
state through enabled actions (Next, Back, Calculate and its answer, New
calculation, the "Last results" button, and every other event of the wizard),
`1 ≤ step ≤ 7`. -/
theorem step_in_range (s : State) (h : Reachable s) : 1 ≤ s.step ∧ s.step ≤ 7 := by
  induction h with
  | init => exact ⟨by decide, by decide⟩
  | step s a _ he ih => exact step_apply s a ih he

/-- C23 on the sample form, which is reachable and at step 6. -/
theorem step_in_range_witness :
    Reachable sampleForm ∧ sampleForm.step = 6 ∧ 1 ≤ sampleForm.step ∧ sampleForm.step ≤ 7 :=
  ⟨reachable_sampleForm, rfl, step_in_range sampleForm reachable_sampleForm⟩

/-- C24. Results are held exactly on the results step. At the end of every run of
enabled actions from the initial state in which no calculation was answered with
`null` (so in particular when every successful response is an object), `results`
is not `null` if and only if `step = 7`. Every reachable state is the end of such
a run (`run_of_reachable`). -/
theorem results_iff_results_step (actions : List Action) (s : State)
    (hrun : run State.init actions = some s)
    (hanswers : ∀ r, Action.calculateSettled (.ok r) ∈ actions → r ≠ .null) :
    s.results ≠ .null ↔ s.step = 7 :=
  results_run actions State.init s ⟨fun h => absurd rfl h, fun h => absurd h (by decide)⟩ hrun
    hanswers

/-- C24 on the calculation session: its one answer is the sample result, and it
ends at step 7 with that result held. -/
theorem results_iff_results_step_witness :
    run State.init calculationSession = some settledForm ∧
      (∀ r, Action.calculateSettled (.ok r) ∈ calculationSession → r ≠ .null) ∧
      settledForm.step = 7 ∧ settledForm.results = sampleResult ∧
      (settledForm.results ≠ .null ↔ settledForm.step = 7) := by
  have hanswers : ∀ r, Action.calculateSettled (.ok r) ∈ calculationSession → r ≠ .null := by
    intro r hr
    simp only [calculationSession, sampleSession, List.cons_append, List.nil_append,
      List.mem_cons, List.mem_singleton, List.not_mem_nil, or_false, reduceCtorEq,
      false_or, Action.calculateSettled.injEq, Except.ok.injEq] at hr
    rw [hr]
    decide!
  exact ⟨run_calculationSession, hanswers, rfl, rfl,
    results_iff_results_step calculationSession settledForm run_calculationSession hanswers⟩

/-- C25. The function `resetCalculator()` restores the initial form state from any
state: afterwards `step = 1`, the five selections are `null`, `plaisioHeight`,
`plaisioWidth`, `roloHeight` and `urValue` are empty, `ugValue = '1.0'`,
`psiValue = '0.05'`, `isNarrow` and `hasRolo` are false, `validationErrors` is
empty, `results` and `error` are `null`. It leaves `lastResults` (the results
context), the five loaded lists, `loading` and the language unchanged, so the
state is the state on mount but for the lists and `loading`; and applying it twice
gives the same state as applying it once. -/
theorem resetCalculator_restores (s : State) :
    (resetCalculator s).step = 1 ∧
      (resetCalculator s).selectedType = .null ∧ (resetCalculator s).selectedSeries = .null ∧
      (resetCalculator s).selectedCategory = .null ∧
      (resetCalculator s).selectedDriver = .null ∧ (resetCalculator s).selectedSash = .null ∧
      (resetCalculator s).plaisioHeight = "" ∧ (resetCalculator s).plaisioWidth = "" ∧
      (resetCalculator s).roloHeight = "" ∧ (resetCalculator s).urValue = "" ∧
      (resetCalculator s).ugValue = "1.0" ∧ (resetCalculator s).psiValue = "0.05" ∧
      (resetCalculator s).isNarrow = false ∧ (resetCalculator s).hasRolo = false ∧
      (resetCalculator s).validationErrors = [] ∧ (resetCalculator s).results = .null ∧
      (resetCalculator s).error = none ∧
      (resetCalculator s).ctx = s.ctx ∧
      (resetCalculator s).types = s.types ∧ (resetCalculator s).seriesList = s.seriesList ∧
      (resetCalculator s).categories = s.categories ∧
      (resetCalculator s).drivers = s.drivers ∧ (resetCalculator s).sashes = s.sashes ∧
      (resetCalculator s).loading = s.loading ∧ (resetCalculator s).language = s.language ∧
      resetCalculator s =
        { State.mount s.language s.ctx with
          types := s.types
          seriesList := s.seriesList
          categories := s.categories
          drivers := s.drivers
          sashes := s.sashes
          loading := s.loading } ∧
      resetCalculator (resetCalculator s) = resetCalculator s :=
  ⟨rfl, rfl, rfl, rfl, rfl, rfl, rfl, rfl, rfl, rfl, rfl, rfl, rfl, rfl, rfl, rfl, rfl, rfl,
    rfl, rfl, rfl, rfl, rfl, rfl, rfl, rfl, rfl⟩

/-- C26. The function `validateField` never reports an error for a missing value
or an unbounded field: it returns `null` for the empty value under every field
name, and for every value under every field name that has no entry in `LIMITS`,
such as `psiValue`. -/
theorem validateField_missing_or_unbounded (name value : String) :
    validateField name "" = none ∧
      (name ∉ LIMITS.map Prod.fst → validateField name value = none) ∧
      "psiValue" ∉ LIMITS.map Prod.fst ∧ validateField "psiValue" value = none := by
  have hnone : ∀ n : String, n ∉ LIMITS.map Prod.fst → validateField n value = none := by
    intro n hn
    have hl : LIMITS.lookup n = none := by
      simp only [LIMITS, List.map_cons, List.map_nil, List.mem_cons, List.mem_singleton,
        List.not_mem_nil, or_false, not_or] at hn
      obtain ⟨h1, h2, h3, h4, h5⟩ := hn
      simp only [LIMITS, List.lookup, beq_false_of_ne h1, beq_false_of_ne h2,
        beq_false_of_ne h3, beq_false_of_ne h4, beq_false_of_ne h5]
    unfold validateField
    split
    · rfl
    · simp only [hl]
  have hpsi : "psiValue" ∉ LIMITS.map Prod.fst := by decide
  exact ⟨by simp [validateField], hnone name, hpsi, hnone "psiValue" hpsi⟩

end Calculator

namespace AdminInterface

open JS

/-- The function `updateRecord` never looks at the status of the response: it
resolves to the parsed body, of a refused request as of an accepted one. -/
theorem updateRecord_ignores_status (response : Api.Response) (table : String)
    (id data : Value) :
    Api.updateRecord (fun _ => .ok response) table id data = response.json := rfl

/-- C27 fails: a rejected catalog update is applied locally. On a network that
refuses every request with status 404 (`ok` false) and a JSON body, saving `1,5`
in the `uf2` cell of series 1 of the sample editor sends the update, then stores
`uf2 = 1.5` in the local row, which held 2.5, and shows the notification `Saved`
with type `success`, not `Error saving`. Whatever the response, `handleSave` does
what it does for the same response with status ok. -/
theorem handleSave_applies_rejected_update :
    Api.notFoundResponse.ok = false ∧
      (∀ request, Api.rejecting request = .ok Api.notFoundResponse) ∧
      (handleSave Api.rejecting editingUf2).2 =
        [Api.updateRequest "series" (.num (.fin 1)) (.obj [("uf2", .num (.fin (3 / 2)))])] ∧
      editingUf2.data.optGet "series" =
        .arr
          [ .obj [ ("id", .num (.fin 1)), ("name", .str "S500"), ("code", .str "S5"),
                   ("a", .num (.fin 5)), ("b", .num (.fin 8)), ("x", .num (.fin 3)),
                   ("uf1", .num (.fin 2)), ("uf2", .num (.fin (5 / 2))),
                   ("e", .num (.fin 10)), ("f", .num (.fin 10)), ("e_narrow", .null),
                   ("f_narrow", .null) ] ] ∧
      (handleSave Api.rejecting editingUf2).1.toOption.map
          (fun s1 => s1.data.optGet "series") =
        some (.arr
          [ .obj [ ("id", .num (.fin 1)), ("name", .str "S500"), ("code", .str "S5"),
                   ("a", .num (.fin 5)), ("b", .num (.fin 8)), ("x", .num (.fin 3)),
                   ("uf1", .num (.fin 2)), ("uf2", .num (.fin (3 / 2))),
                   ("e", .num (.fin 10)), ("f", .num (.fin 10)), ("e_narrow", .null),
                   ("f_narrow", .null) ] ]) ∧
      (handleSave Api.rejecting editingUf2).1.toOption.map (fun s1 => s1.notification) =
        some (some { message := "Saved", type := "success" }) ∧
      (∀ (s : State) (response : Api.Response),
        handleSave (fun _ => .ok response) s =
          handleSave (fun _ => .ok { response with ok := true }) s) := by
  refine ⟨rfl, fun _ => rfl, by decide!, by decide!, by decide!, by decide!, ?_⟩
  intro s response
  unfold handleSave
  cases s.editingCell with
  | none => rfl
  | some cell => simp only [updateRecord_ignores_status]

end AdminInterface
